import Mathlib

/-!
# ANGLE: buffer binding conflicts and the WebGPU texture's lazy image (re)allocation

A shallow embedding of `src/libANGLE/Buffer.h` (`gl::Buffer::hasWebGLXFBBindingConflict`)
and of `src/libANGLE/renderer/wgpu/TextureWgpu.cpp` (`rx::TextureWgpu`).

Conventions of the embedding.

* `angle::Result` is the two-valued type `Result`; `ANGLE_TRY` is `angleTry`.
* A C++ method that mutates `*this` and talks to the backend becomes a function
  from the context and the texture to the new context and the new texture.
* The context carries a trace of the backend operations requested so far and the
  oracles that say which of the fallible backend operations succeed.
* A method that dereferences a null `mImage`, or reaches `UNREACHABLE()`, has no
  defined result: such functions return an `Option` and answer `none` there.
* `ASSERT` is compiled out of release builds and is not part of the embedding.
* `GLuint`/`uint32_t` values are natural numbers; where the source computes with
  them the arithmetic is taken modulo `2 ^ 32`.
* The functions of renderer_utils that keep the redefinition bits are a parameter
  `RendererUtils` of the texture code; `RendererUtils.spec` is the tracker the
  specification describes.
-/

namespace angle

/-- The result of a fallible call, `angle::Result`. -/
inductive Result where
  | Continue
  | Stop
deriving DecidableEq, Repr

end angle

namespace gl

/-! ## `gl::Buffer` (Buffer.h) -/

/-- The binding counters of `gl::BufferState` (C++ `int`). -/
structure BufferState where
  mBindingCount : Int
  mTransformFeedbackIndexedBindingCount : Int
  mTransformFeedbackGenericBindingCount : Int
deriving DecidableEq, Repr

/-- `VertexArrayBufferBindingMask`: the binding indices whose bit is set. -/
abbrev VertexArrayBufferBindingMask := Finset Nat

/-- `VertexArrayBufferBindingMaskAndContext` (Buffer.h:42-57): its one member, the vector
of (context, mask) pairs. A context is named by a number. -/
structure VertexArrayBufferBindingMaskAndContext where
  mBufferBindingMask : List (Nat × VertexArrayBufferBindingMask)
deriving DecidableEq

namespace VertexArrayBufferBindingMaskAndContext

/-- Modelled from the spec: `VertexArrayBufferBindingMaskAndContext::add` is declared in
Buffer.h and defined outside the sources. The spec: `add(context, slot)` "sets the bit
for `slot` in the entry for `context`, creating the entry if absent". -/
def addEntry (context bindingIndex : Nat) :
    List (Nat × VertexArrayBufferBindingMask) → List (Nat × VertexArrayBufferBindingMask)
  | [] => [(context, {bindingIndex})]
  | (c, mask) :: rest =>
    if c = context then (c, insert bindingIndex mask) :: rest
    else (c, mask) :: addEntry context bindingIndex rest

/-- Modelled from the spec: `VertexArrayBufferBindingMaskAndContext::remove` is declared
in Buffer.h and defined outside the sources. The spec: `remove(context, slot)` "clears
the bit; if the resulting mask is empty the entry is dropped entirely". -/
def removeEntry (context bindingIndex : Nat) :
    List (Nat × VertexArrayBufferBindingMask) → List (Nat × VertexArrayBufferBindingMask)
  | [] => []
  | (c, mask) :: rest =>
    if c = context then
      if mask.erase bindingIndex = ∅ then rest else (c, mask.erase bindingIndex) :: rest
    else (c, mask) :: removeEntry context bindingIndex rest

/-- Modelled from the spec: `VertexArrayBufferBindingMaskAndContext::getBufferBindingMask`
is declared in Buffer.h and defined outside the sources. The spec: `maskFor(context)`
"returns the current mask, or the empty mask if no entry exists". -/
def findMask (context : Nat) : List (Nat × VertexArrayBufferBindingMask) → VertexArrayBufferBindingMask
  | [] => ∅
  | (c, mask) :: rest => if c = context then mask else findMask context rest

def add (m : VertexArrayBufferBindingMaskAndContext) (context bindingIndex : Nat) :
    VertexArrayBufferBindingMaskAndContext :=
  { mBufferBindingMask := addEntry context bindingIndex m.mBufferBindingMask }

def remove (m : VertexArrayBufferBindingMaskAndContext) (context bindingIndex : Nat) :
    VertexArrayBufferBindingMaskAndContext :=
  { mBufferBindingMask := removeEntry context bindingIndex m.mBufferBindingMask }

def getBufferBindingMask (m : VertexArrayBufferBindingMaskAndContext) (context : Nat) :
    VertexArrayBufferBindingMask :=
  findMask context m.mBufferBindingMask

end VertexArrayBufferBindingMaskAndContext

/-- The part of `gl::Buffer` the binding queries and mutations touch. -/
structure Buffer where
  mState : BufferState
  mVertexArrayBufferBindingMaskAndContext : VertexArrayBufferBindingMaskAndContext := ⟨[]⟩
deriving DecidableEq

/-- `Buffer::hasWebGLXFBBindingConflict` (Buffer.h:193-207). -/
def Buffer.hasWebGLXFBBindingConflict (b : Buffer) (isWebGL : Bool) : Bool :=
  if !isWebGL then
    false
  else
    decide (b.mState.mTransformFeedbackIndexedBindingCount > 0) &&
      decide (b.mState.mTransformFeedbackIndexedBindingCount ≠
        b.mState.mBindingCount - b.mState.mTransformFeedbackGenericBindingCount)

/-- `Buffer::onNonTFBindingChanged` (Buffer.h:211). -/
def Buffer.onNonTFBindingChanged (b : Buffer) (incr : Int) : Buffer :=
  { b with mState := { b.mState with mBindingCount := b.mState.mBindingCount + incr } }

/-- `Buffer::addVertexArrayBinding` (Buffer.h:217-220). -/
def Buffer.addVertexArrayBinding (b : Buffer) (context bindingIndex : Nat) : Buffer :=
  { b with
    mVertexArrayBufferBindingMaskAndContext :=
      b.mVertexArrayBufferBindingMaskAndContext.add context bindingIndex }

/-- `Buffer::removeVertexArrayBinding` (Buffer.h:221-224). -/
def Buffer.removeVertexArrayBinding (b : Buffer) (context bindingIndex : Nat) : Buffer :=
  { b with
    mVertexArrayBufferBindingMaskAndContext :=
      b.mVertexArrayBufferBindingMaskAndContext.remove context bindingIndex }

/-- The invariant of the buffer's binding counts: the transform-feedback indexed
binding count is at most the total binding count. -/
def BufferState.BindingInvariant (s : BufferState) : Prop :=
  s.mTransformFeedbackIndexedBindingCount ≤ s.mBindingCount

/-! ## Types of libANGLE the texture code reads -/

/-- The enumerators of `gl::TextureType` that `GetRenderTargetLayerCountAndIndex`
names; `Other` stands for every remaining enumerator (the `default:` case). -/
inductive TextureType where
  | _2D
  | _2DMultisample
  | External
  | CubeMap
  | _3D
  | _2DArray
  | _2DMultisampleArray
  | CubeMapArray
  | Other
deriving DecidableEq, Repr

/-- The enumerators of `gl::Command` that the texture code distinguishes. -/
inductive Command where
  | GenerateMipmap
  | Draw
  | Other
deriving DecidableEq, Repr

/-- Extents of an image, `gl::Extents`. -/
structure Extents where
  width : Nat
  height : Nat
  depth : Nat
deriving DecidableEq, Repr

/-- `gl::ImageIndex::kEntireLevel` converted to `GLuint`. -/
def kEntireLevel : Nat := 2 ^ 32 - 1

/-- `gl::kCubeFaceCount`. -/
def kCubeFaceCount : Nat := 6

/-- What the accessors of a `gl::ImageIndex` return: `getType()`, `getLevelIndex()`,
`hasLayer()`, `getLayerIndex()` and `getLayerCount()`, the last two as the `GLuint`
they are converted to. -/
structure ImageIndex where
  type : TextureType
  levelIndex : Nat
  hasLayer : Bool
  layerIndex : Nat
  layerCount : Nat
deriving DecidableEq, Repr

end gl

namespace rx

open angle gl

namespace webgpu

/-- The two ids of a `webgpu::Format` that the texture code reads:
`getIntendedFormatID()` and `getActualImageFormatID()`. -/
structure Format where
  intendedFormatID : Nat
  actualImageFormatID : Nat
deriving DecidableEq, Repr

/-- A staged, not yet committed pixel update of one subresource. -/
structure SubresourceUpdate where
  level : Nat
  layerIndex : Nat
  layerCount : Nat
  data : Nat
deriving DecidableEq, Repr

/-- A view of one level and layer of a native texture; `texture` is the handle of
the native texture the view was created on. -/
structure TextureViewHandle where
  texture : Nat
  level : Nat
  layer : Nat
deriving DecidableEq, Repr

/-- Backend operations, in the order they are requested. -/
inductive Event where
  | flushStagedUpdates (ok : Bool)
  | initImage (firstLevel levelCount : Nat) (size : Extents) (ok : Bool)
  | resetImage
  | createTextureView (level layer : Nat) (ok : Bool)
  | deleteImage
  | stateChange
  | unimplemented
deriving DecidableEq, Repr

end webgpu

open webgpu

/-- The context: which fallible backend operations succeed (each oracle reads the
trace so far) and the trace of the operations requested. -/
structure ContextWgpu where
  initImageOk : List Event → Bool
  flushOk : List Event → Bool
  createViewOk : List Event → Bool
  trace : List Event

/-- Append one event to the trace. -/
def ContextWgpu.emit (ctx : ContextWgpu) (e : Event) : ContextWgpu :=
  { ctx with trace := ctx.trace ++ [e] }

/-- A context whose backend never fails, with an empty trace. -/
def ContextWgpu.reliable : ContextWgpu :=
  { initImageOk := fun _ => true, flushOk := fun _ => true,
    createViewOk := fun _ => true, trace := [] }

/-- Number of texture views created so far. -/
def ContextWgpu.viewsCreated (ctx : ContextWgpu) : Nat :=
  (ctx.trace.filter fun e =>
    match e with
    | Event.createTextureView _ _ true => true
    | _ => false).length

/-- Number of native images allocated so far. -/
def ContextWgpu.imagesAllocated (ctx : ContextWgpu) : Nat :=
  (ctx.trace.filter fun e =>
    match e with
    | Event.initImage _ _ _ true => true
    | _ => false).length

namespace webgpu

/-- Modelled from the spec: `webgpu::ImageHelper` (ImageWgpu/wgpu_helpers) is not
among the sources. The spec's texture image holds an intended and an actual format
id, extents, an allocated level range, an initialized flag and the staged updates;
`mTexture` is the handle of the realized native texture. -/
structure ImageHelper where
  mInitialized : Bool
  mTexture : Nat
  mIntendedFormatID : Nat
  mActualFormatID : Nat
  mSize : Extents
  mFirstAllocatedLevel : Nat
  mLevelCount : Nat
  mStagedUpdates : List SubresourceUpdate
deriving DecidableEq, Repr

namespace ImageHelper

/-- Modelled from the spec: `new webgpu::ImageHelper()`, the image "created empty". -/
def new : ImageHelper :=
  { mInitialized := false, mTexture := 0, mIntendedFormatID := 0, mActualFormatID := 0,
    mSize := ⟨0, 0, 0⟩, mFirstAllocatedLevel := 0, mLevelCount := 0, mStagedUpdates := [] }

def isInitialized (img : ImageHelper) : Bool := img.mInitialized

def getLevelCount (img : ImageHelper) : Nat := img.mLevelCount

def getFirstAllocatedLevel (img : ImageHelper) : Nat := img.mFirstAllocatedLevel

/-- Modelled from the spec: the last level of the allocated range
`[firstAllocatedLevel, lastAllocatedLevel]` of an image of `mLevelCount` levels. -/
def getLastAllocatedLevel (img : ImageHelper) : Int :=
  (img.mFirstAllocatedLevel : Int) + (img.mLevelCount : Int) - 1

def getIntendedFormatID (img : ImageHelper) : Nat := img.mIntendedFormatID

def getActualFormatID (img : ImageHelper) : Nat := img.mActualFormatID

def getSize (img : ImageHelper) : Extents := img.mSize

/-- Modelled from the spec: `ImageHelper::isTextureLevelInAllocatedImage`, "level lies
inside `[firstAllocatedLevel, lastAllocatedLevel]`". -/
def isTextureLevelInAllocatedImage (img : ImageHelper) (level : Nat) : Bool :=
  decide ((img.mFirstAllocatedLevel : Int) ≤ (level : Int)) &&
    decide ((level : Int) ≤ img.getLastAllocatedLevel)

/-- Modelled from the spec: `ImageHelper::removeStagedUpdates`, discard the staged
updates of one level. -/
def removeStagedUpdates (img : ImageHelper) (level : Nat) : ImageHelper :=
  { img with mStagedUpdates := img.mStagedUpdates.filter fun u => !decide (u.level = level) }

/-- Modelled from the spec: `ImageHelper::removeSingleSubresourceStagedUpdates`,
discard the staged updates "exactly covering" the level and layer range. -/
def removeSingleSubresourceStagedUpdates (img : ImageHelper) (level layerIndex layerCount : Nat) :
    ImageHelper :=
  { img with
    mStagedUpdates := img.mStagedUpdates.filter fun u =>
      !(decide (u.level = level) && decide (u.layerIndex = layerIndex) &&
        decide (u.layerCount = layerCount)) }

/-- Modelled from the spec: `ImageHelper::resetImage`, tear the realized image down:
it is no longer initialized and the allocated range is cleared. Staged updates are
a separate list and stay. -/
def resetImage (ctx : ContextWgpu) (img : ImageHelper) : ContextWgpu × ImageHelper :=
  (ctx.emit Event.resetImage,
    { img with mInitialized := false, mFirstAllocatedLevel := 0, mLevelCount := 0 })

/-- Modelled from the spec: `ImageHelper::flushStagedUpdates`, commit every staged
update into the image; the backend may fail, which is returned. -/
def flushStagedUpdates (ctx : ContextWgpu) (img : ImageHelper) :
    Result × ContextWgpu × ImageHelper :=
  if ctx.flushOk ctx.trace then
    (Result.Continue, ctx.emit (Event.flushStagedUpdates true), { img with mStagedUpdates := [] })
  else
    (Result.Stop, ctx.emit (Event.flushStagedUpdates false), img)

/-- Modelled from the spec: `ImageHelper::initImage`, allocate the native image for
the descriptor (first level, extents, level count); the backend may fail, which is
returned. The handle of the new native texture is fresh. -/
def initImage (ctx : ContextWgpu) (img : ImageHelper) (intendedFormatID actualFormatID : Nat)
    (firstLevel : Nat) (size : Extents) (levelCount : Nat) :
    Result × ContextWgpu × ImageHelper :=
  if ctx.initImageOk ctx.trace then
    (Result.Continue, ctx.emit (Event.initImage firstLevel levelCount size true),
      { img with
        mInitialized := true, mTexture := ctx.trace.length + 1,
        mIntendedFormatID := intendedFormatID, mActualFormatID := actualFormatID,
        mSize := size, mFirstAllocatedLevel := firstLevel, mLevelCount := levelCount })
  else
    (Result.Stop, ctx.emit (Event.initImage firstLevel levelCount size false), img)

/-- Modelled from the spec: `ImageHelper::createTextureViewSingleLevel`, create a view
of one level and layer "against the currently realized image"; the backend may fail. -/
def createTextureViewSingleLevel (ctx : ContextWgpu) (img : ImageHelper) (level layer : Nat) :
    Result × ContextWgpu × Option TextureViewHandle :=
  if ctx.createViewOk ctx.trace then
    (Result.Continue, ctx.emit (Event.createTextureView level layer true),
      some ⟨img.mTexture, level, layer⟩)
  else
    (Result.Stop, ctx.emit (Event.createTextureView level layer false), none)

end ImageHelper

end webgpu

/-! ## The redefinition tracker of renderer_utils -/

inductive TextureLevelAllocation where
  | WithinAllocatedImage
  | OutsideAllocatedImage
deriving DecidableEq, Repr

inductive TextureLevelDefinition where
  | Compatible
  | Incompatible
deriving DecidableEq, Repr

/-- The redefinition bits `gl::CubeFaceArray<gl::TexLevelMask>`, as the set of the
(face, level) pairs whose bit is set. -/
abbrev RedefinedLevels := Finset (Nat × Nat)

/-- The four functions of renderer_utils that `TextureWgpu` calls on its redefinition
bits. They are declared outside the sources, so the texture code is embedded over any
implementation of them. -/
structure RendererUtils where
  TextureRedefineLevel : TextureLevelAllocation → TextureLevelDefinition → Bool → Nat → Nat →
    ImageIndex → Nat → RedefinedLevels → Bool × RedefinedLevels
  TextureRedefineGenerateMipmapLevels : Nat → Nat → Nat → RedefinedLevels → RedefinedLevels
  IsTextureLevelRedefined : RedefinedLevels → TextureType → Nat → Bool
  TextureHasAnyRedefinedLevels : RedefinedLevels → Bool

/-- Modelled from the spec: `TextureRedefineLevel` of renderer_utils is not among the
sources. The decision table of the spec: an immutable-format texture is never redefined;
an outside-range redefinition only updates the redefinition bits and the image survives;
a within-range compatible one clears any stale bit of the level and leaves the image;
a within-range incompatible one tears the image down (the result `true`). -/
def specTextureRedefineLevel (levelAllocation : TextureLevelAllocation)
    (levelDefinition : TextureLevelDefinition) (immutableFormat : Bool) (_levelCount : Nat)
    (layerIndex : Nat) (index : ImageIndex) (_imageFirstAllocatedLevel : Nat)
    (redefinedLevels : RedefinedLevels) : Bool × RedefinedLevels :=
  if immutableFormat then
    (false, redefinedLevels)
  else
    match levelAllocation, levelDefinition with
    | TextureLevelAllocation.OutsideAllocatedImage, _ =>
      (false, insert (layerIndex, index.levelIndex) redefinedLevels)
    | TextureLevelAllocation.WithinAllocatedImage, TextureLevelDefinition.Compatible =>
      (false, redefinedLevels.erase (layerIndex, index.levelIndex))
    | TextureLevelAllocation.WithinAllocatedImage, TextureLevelDefinition.Incompatible =>
      (true, redefinedLevels)

/-- Modelled from the spec: `TextureRedefineGenerateMipmapLevels` of renderer_utils is
not among the sources. The spec: generateMipmap requests "mark that whole range as
redefined", the range being the levels above base up to the max level. -/
def specTextureRedefineGenerateMipmapLevels (_baseLevel maxLevel firstGeneratedLevel : Nat)
    (redefinedLevels : RedefinedLevels) : RedefinedLevels :=
  redefinedLevels ∪
    ((Finset.Icc firstGeneratedLevel maxLevel).image fun level => ((0 : Nat), level))

/-- Modelled from the spec: `IsTextureLevelRedefined` of renderer_utils is not among
the sources: whether the level "carries" a redefinition bit. -/
def specIsTextureLevelRedefined (redefinedLevels : RedefinedLevels) (_type : TextureType)
    (level : Nat) : Bool :=
  decide (∃ p ∈ redefinedLevels, p.2 = level)

/-- Modelled from the spec: `TextureHasAnyRedefinedLevels` of renderer_utils is not
among the sources: whether "any redefinition bit is set". -/
def specTextureHasAnyRedefinedLevels (redefinedLevels : RedefinedLevels) : Bool :=
  decide (redefinedLevels.Nonempty)

/-- Modelled from the spec: the redefinition tracker as the spec describes it. -/
def RendererUtils.spec : RendererUtils :=
  { TextureRedefineLevel := specTextureRedefineLevel
    TextureRedefineGenerateMipmapLevels := specTextureRedefineGenerateMipmapLevels
    IsTextureLevelRedefined := specIsTextureLevelRedefined
    TextureHasAnyRedefinedLevels := specTextureHasAnyRedefinedLevels }

/-! ## `rx::TextureWgpu` (TextureWgpu.cpp) -/

/-- What `TextureWgpu` reads of its `gl::TextureState`: each field is the value the
accessor of that name returns (`getBaseLevel()`, `getEffectiveBaseLevel()`, ...);
`baseLevelDescSize` is `getBaseLevelDesc().size` and `baseLevelFormat` the format of
the base level that `getBaseLevelFormat` looks up. -/
structure TextureState where
  type : TextureType
  baseLevel : Nat
  maxLevel : Nat
  effectiveBaseLevel : Nat
  effectiveMaxLevel : Nat
  mipmapMaxLevel : Nat
  enabledLevelCount : Nat
  immutableFormat : Bool
  baseLevelDescSize : Extents
  baseLevelFormat : Format
deriving DecidableEq, Repr

inductive ImageMipLevels where
  | EnabledLevels
  | FullMipChainForGenerateMipmap
deriving DecidableEq, Repr

/-- The selector `gl::RenderToTextureImageIndex` of the render-target cache. -/
abbrev RenderToTextureImageIndex := Nat

/-- `gl::RenderToTextureImageIndex::Default`. -/
def RenderToTextureImageIndex.Default : RenderToTextureImageIndex := 0

/-- A `RenderTargetWgpu`: what `set` stored, or nothing (`view = none`) for a
default-constructed render target that was never set. -/
structure RenderTargetWgpu where
  view : Option TextureViewHandle
  level : Nat
  layer : Nat
  format : Nat
deriving DecidableEq, Repr

/-- A default-constructed `RenderTargetWgpu`. -/
def RenderTargetWgpu.unset : RenderTargetWgpu :=
  { view := none, level := 0, layer := 0, format := 0 }

/-- The pointer `&mSingleLayerRenderTargets[selector][level][layer]` that
`getAttachmentRenderTarget` stores in `*rtOut`. -/
structure RenderTargetRef where
  selector : RenderToTextureImageIndex
  level : Nat
  layer : Nat
deriving DecidableEq, Repr

/-- The members of `rx::TextureWgpu`. -/
structure TextureWgpu where
  mState : TextureState
  mImage : Option ImageHelper
  mOwnsImage : Bool
  mCurrentBaseLevel : Nat
  mCurrentMaxLevel : Nat
  mRedefinedLevels : RedefinedLevels
  mSingleLayerRenderTargets : RenderToTextureImageIndex → List (List RenderTargetWgpu)

/-- The `ANGLE_TRY` macro: return a failure at once, go on after a success. -/
def angleTry {σ α : Type} (r : Option (Result × σ)) (k : σ → Option (Result × α)) (stop : σ → α) :
    Option (Result × α) :=
  match r with
  | none => none
  | some (Result.Stop, s) => some (Result.Stop, stop s)
  | some (Result.Continue, s) => k s

/-- `GetRenderTargetLayerCountAndIndex` (TextureWgpu.cpp:29-78): the layer index, the
layer count and the image layer count, and whether `UNIMPLEMENTED()` was signalled.
`imageLayerCount` enters as the caller initialized it. -/
def GetRenderTargetLayerCountAndIndex (image : Option ImageHelper) (index : ImageIndex)
    (imageLayerCount : Nat) : Option (Nat × Nat × Nat × Bool) :=
  let layerIndex := if index.hasLayer then index.layerIndex else 0
  let layerCount := index.layerCount
  let resolved : Option (Nat × Bool) :=
    match index.type with
    | TextureType._2D => some (1, false)
    | TextureType._2DMultisample => some (1, false)
    | TextureType.External => some (1, false)
    | TextureType.CubeMap => some (kCubeFaceCount, false)
    | TextureType._3D => image.map fun img => (img.getSize.depth, false)
    | TextureType._2DArray => some (imageLayerCount, true)
    | TextureType._2DMultisampleArray => some (imageLayerCount, true)
    | TextureType.CubeMapArray => some (imageLayerCount, true)
    | TextureType.Other => none
  resolved.map fun (imageLayerCount, unimplemented) =>
    if layerCount = kEntireLevel then
      (layerIndex, imageLayerCount, imageLayerCount, unimplemented)
    else
      (layerIndex, layerCount, imageLayerCount, unimplemented)

/-- `IsTextureLevelDefinitionCompatibleWithImage` (TextureWgpu.cpp:80-87). -/
def IsTextureLevelDefinitionCompatibleWithImage (image : ImageHelper) (size : Extents)
    (format : Format) : Bool :=
  decide (size = image.getSize) &&
    decide (image.getIntendedFormatID = format.intendedFormatID) &&
    decide (image.getActualFormatID = format.actualImageFormatID)

namespace TextureWgpu

/-- `TextureWgpu::setImageHelper` (TextureWgpu.cpp:738-755). -/
def setImageHelper (ctx : ContextWgpu) (t : TextureWgpu) (imageHelper : Option ImageHelper)
    (ownsImageHelper : Bool) : ContextWgpu × TextureWgpu :=
  let ctx1 := if t.mOwnsImage && t.mImage.isSome then ctx.emit Event.deleteImage else ctx
  (ctx1.emit Event.stateChange, { t with mImage := imageHelper, mOwnsImage := ownsImageHelper })

/-- `TextureWgpu::TextureWgpu` (TextureWgpu.cpp:91-98): the texture as constructed. -/
def create (state : TextureState) : TextureWgpu :=
  { mState := state, mImage := some ImageHelper.new, mOwnsImage := true,
    mCurrentBaseLevel := state.baseLevel, mCurrentMaxLevel := state.maxLevel,
    mRedefinedLevels := ∅, mSingleLayerRenderTargets := fun _ => [] }

/-- The call `mImage->resetImage()`; a null `mImage` has no defined result. -/
def resetImage (ctx : ContextWgpu) (t : TextureWgpu) : Option (ContextWgpu × TextureWgpu) :=
  t.mImage.map fun img =>
    let (ctx1, img1) := img.resetImage ctx
    (ctx1, { t with mImage := some img1 })

/-- The call `mImage->flushStagedUpdates(contextWgpu)`. -/
def flushStagedUpdates (ctx : ContextWgpu) (t : TextureWgpu) :
    Option (Result × ContextWgpu × TextureWgpu) :=
  t.mImage.map fun img =>
    let (r, ctx1, img1) := img.flushStagedUpdates ctx
    (r, ctx1, { t with mImage := some img1 })

/-- The call `mImage->removeStagedUpdates(level)`. -/
def removeStagedUpdates (t : TextureWgpu) (level : Nat) : Option TextureWgpu :=
  t.mImage.map fun img => { t with mImage := some (img.removeStagedUpdates level) }

/-- `TextureWgpu::getBaseLevelFormat` (TextureWgpu.cpp:732-736). -/
def getBaseLevelFormat (t : TextureWgpu) : Format := t.mState.baseLevelFormat

/-- `TextureWgpu::getMaxLevelCount` (TextureWgpu.cpp:565-569), in `uint32_t`. -/
def getMaxLevelCount (t : TextureWgpu) : Nat := (t.mState.mipmapMaxLevel + 1) % 2 ^ 32

/-- `TextureWgpu::getMipLevelCount` (TextureWgpu.cpp:547-563), in `uint32_t`. -/
def getMipLevelCount (t : TextureWgpu) (mipLevels : ImageMipLevels) : Nat :=
  match mipLevels with
  | ImageMipLevels.EnabledLevels => t.mState.enabledLevelCount
  | ImageMipLevels.FullMipChainForGenerateMipmap =>
    (t.getMaxLevelCount + (2 ^ 32 - t.mState.effectiveBaseLevel % 2 ^ 32)) % 2 ^ 32

/-- `TextureWgpu::initializeImage` (TextureWgpu.cpp:461-495). The descriptor handed to
`initImage` is the first level, the extents (six layers for a cube map) and the mip
level count. -/
def initializeImage (ctx : ContextWgpu) (t : TextureWgpu) (mipLevels : ImageMipLevels) :
    Option (Result × ContextWgpu × TextureWgpu) :=
  match t.mImage with
  | none => none
  | some img =>
    if img.isInitialized then
      some (Result.Continue, ctx, t)
    else
      let webgpuFormat := t.getBaseLevelFormat
      let levelCount := t.getMipLevelCount mipLevels
      let firstLevel := t.mState.effectiveBaseLevel
      let wgpuExtents := t.mState.baseLevelDescSize
      let wgpuExtents :=
        if t.mState.type = TextureType.CubeMap then { wgpuExtents with depth := 6 }
        else wgpuExtents
      let (r, ctx1, img1) :=
        img.initImage ctx webgpuFormat.intendedFormatID webgpuFormat.actualImageFormatID
          firstLevel wgpuExtents levelCount
      some (r, ctx1, { t with mImage := some img1 })

/-- `TextureWgpu::redefineLevel` (TextureWgpu.cpp:497-545). -/
def redefineLevel (u : RendererUtils) (ctx : ContextWgpu) (t : TextureWgpu)
    (webgpuFormat : Format) (index : ImageIndex) (size : Extents) :
    Result × ContextWgpu × TextureWgpu :=
  match t.mImage, t.mOwnsImage with
  | some img, true =>
    let levelIndexGL := index.levelIndex
    let layerIndex := if index.hasLayer then index.layerIndex else 0
    let img1 :=
      if index.hasLayer then
        img.removeSingleSubresourceStagedUpdates levelIndexGL layerIndex index.layerCount
      else
        img.removeStagedUpdates levelIndexGL
    if img1.isInitialized then
      let levelAllocation :=
        if img1.isTextureLevelInAllocatedImage levelIndexGL then
          TextureLevelAllocation.WithinAllocatedImage
        else
          TextureLevelAllocation.OutsideAllocatedImage
      let levelDefinition :=
        if IsTextureLevelDefinitionCompatibleWithImage img1 size webgpuFormat then
          TextureLevelDefinition.Compatible
        else
          TextureLevelDefinition.Incompatible
      let (release, redefined) :=
        u.TextureRedefineLevel levelAllocation levelDefinition t.mState.immutableFormat
          img1.getLevelCount layerIndex index img1.getFirstAllocatedLevel t.mRedefinedLevels
      if release then
        let (ctx1, img2) := img1.resetImage ctx
        (Result.Continue, ctx1, { t with mImage := some img2, mRedefinedLevels := redefined })
      else
        (Result.Continue, ctx, { t with mImage := some img1, mRedefinedLevels := redefined })
    else
      (Result.Continue, ctx, { t with mImage := some img1 })
  | _, _ =>
    let (ctx1, t1) := setImageHelper ctx t (some ImageHelper.new) true
    (Result.Continue, ctx1, t1)

/-- The levels the loop of `prepareForGenerateMipmap` (TextureWgpu.cpp:632-636) visits:
`levelToRemove` runs from the effective base level while it is below the mipmap max
level. -/
def levelsToRemove (t : TextureWgpu) : List Nat :=
  List.range' t.mState.effectiveBaseLevel
    (t.mState.mipmapMaxLevel - t.mState.effectiveBaseLevel)

/-- `TextureWgpu::prepareForGenerateMipmap` (TextureWgpu.cpp:624-648). -/
def prepareForGenerateMipmap (u : RendererUtils) (ctx : ContextWgpu) (t : TextureWgpu) :
    Option (ContextWgpu × TextureWgpu) :=
  let baseLevel := t.mState.effectiveBaseLevel
  let maxLevel := t.mState.mipmapMaxLevel
  let firstGeneratedLevel := baseLevel + 1
  match t.levelsToRemove.foldlM (fun t1 levelToRemove => t1.removeStagedUpdates levelToRemove) t with
  | none => none
  | some t1 =>
    let t2 :=
      { t1 with
        mRedefinedLevels :=
          u.TextureRedefineGenerateMipmapLevels baseLevel maxLevel firstGeneratedLevel
            t1.mRedefinedLevels }
    if u.IsTextureLevelRedefined t2.mRedefinedLevels t2.mState.type baseLevel then
      t2.resetImage ctx
    else
      some (ctx, t2)

/-- `TextureWgpu::maybeUpdateBaseMaxLevels` (TextureWgpu.cpp:650-693). -/
def maybeUpdateBaseMaxLevels (ctx : ContextWgpu) (t : TextureWgpu) :
    Option (Result × ContextWgpu × TextureWgpu) :=
  let baseLevelChanged := t.mCurrentBaseLevel != t.mState.baseLevel
  let maxLevelChanged := t.mCurrentMaxLevel != t.mState.maxLevel
  if !maxLevelChanged && !baseLevelChanged then
    some (Result.Continue, ctx, t)
  else
    let newBaseLevel := t.mState.effectiveBaseLevel
    let newMaxLevel := t.mState.effectiveMaxLevel
    match t.mImage with
    | none => none
    | some img =>
      if !img.isInitialized then
        some (Result.Continue, ctx, t)
      else if t.mState.immutableFormat then
        some (Result.Continue, ctx,
          { t with mCurrentBaseLevel := newBaseLevel, mCurrentMaxLevel := newMaxLevel })
      else if !baseLevelChanged && decide ((newMaxLevel : Int) ≤ img.getLastAllocatedLevel) then
        some (Result.Continue, ctx,
          { t with mCurrentBaseLevel := newBaseLevel, mCurrentMaxLevel := newMaxLevel })
      else
        let (ctx1, img1) := img.resetImage ctx
        some (Result.Continue, ctx1, { t with mImage := some img1 })

/-- The two statements `ANGLE_TRY(mImage->flushStagedUpdates(contextWgpu));
mImage->resetImage();` that `respecifyImageStorageIfNecessary` runs to recreate the
image (TextureWgpu.cpp:605-607 and 616-618). -/
def flushThenReset (ctx : ContextWgpu) (t : TextureWgpu) :
    Option (Result × ContextWgpu × TextureWgpu) :=
  angleTry (t.flushStagedUpdates ctx)
    (fun (ctx1, t1) => (t1.resetImage ctx1).map fun s => (Result.Continue, s))
    id

/-- `TextureWgpu::respecifyImageStorageIfNecessary` (TextureWgpu.cpp:571-622). -/
def respecifyImageStorageIfNecessary (u : RendererUtils) (ctx : ContextWgpu) (t : TextureWgpu)
    (source : Command) : Option (Result × ContextWgpu × TextureWgpu) :=
  let isGenerateMipmap := source == Command.GenerateMipmap
  match (if isGenerateMipmap then prepareForGenerateMipmap u ctx t else some (ctx, t)) with
  | none => none
  | some (ctx1, t1) =>
    angleTry (maybeUpdateBaseMaxLevels ctx1 t1)
      (fun (ctx2, t2) =>
        let isMipmapEnabledByMinFilter :=
          match t2.mImage with
          | some img =>
            !isGenerateMipmap && img.isInitialized &&
              decide (img.getLevelCount < t2.getMipLevelCount ImageMipLevels.EnabledLevels)
          | none => false
        let mustRecreateForGenerateMipmap :=
          match t2.mImage with
          | some img =>
            isGenerateMipmap && img.isInitialized &&
              (!t2.mState.immutableFormat &&
                decide (img.getLevelCount ≠
                  t2.getMipLevelCount ImageMipLevels.FullMipChainForGenerateMipmap))
          | none => false
        angleTry (if mustRecreateForGenerateMipmap then flushThenReset ctx2 t2
            else some (Result.Continue, ctx2, t2))
          (fun (ctx3, t3) =>
            if u.TextureHasAnyRedefinedLevels t3.mRedefinedLevels || isMipmapEnabledByMinFilter then
              flushThenReset ctx3 t3
            else
              some (Result.Continue, ctx3, t3))
          id)
      id

/-- `TextureWgpu::syncState` (TextureWgpu.cpp:303-315). -/
def syncState (u : RendererUtils) (ctx : ContextWgpu) (t : TextureWgpu) (source : Command) :
    Option (Result × ContextWgpu × TextureWgpu) :=
  angleTry (respecifyImageStorageIfNecessary u ctx t source)
    (fun (ctx1, t1) =>
      let isGenerateMipmap := source == Command.GenerateMipmap
      angleTry
        (initializeImage ctx1 t1
          (if isGenerateMipmap then ImageMipLevels.FullMipChainForGenerateMipmap
            else ImageMipLevels.EnabledLevels))
        (fun (ctx2, t2) =>
          angleTry (t2.flushStagedUpdates ctx2)
            (fun s => some (Result.Continue, s))
            id)
        id)
    id

/-- The body of the loop of `initSingleLayerRenderTargets` (TextureWgpu.cpp:720-727)
for the layers still to do: create the view of the layer and set its render target;
a failing view creation returns at once. -/
def initLayerRenderTargets (image : ImageHelper) (levelIndex : Nat) :
    List Nat → ContextWgpu → List RenderTargetWgpu → Result × ContextWgpu × List RenderTargetWgpu
  | [], ctx, renderTargets => (Result.Continue, ctx, renderTargets)
  | layerIndex :: rest, ctx, renderTargets =>
    match image.createTextureViewSingleLevel ctx levelIndex layerIndex with
    | (Result.Stop, ctx1, _) => (Result.Stop, ctx1, renderTargets)
    | (Result.Continue, ctx1, textureView) =>
      initLayerRenderTargets image levelIndex rest ctx1
        (renderTargets.set layerIndex
          { view := textureView, level := levelIndex - image.getFirstAllocatedLevel,
            layer := layerIndex, format := image.getActualFormatID })

/-- `TextureWgpu::initSingleLayerRenderTargets` (TextureWgpu.cpp:695-730). -/
def initSingleLayerRenderTargets (ctx : ContextWgpu) (t : TextureWgpu) (layerCount : Nat)
    (levelIndex : Nat) (renderToTextureIndex : RenderToTextureImageIndex) :
    Option (Result × ContextWgpu × TextureWgpu) :=
  let allLevelsRenderTargets := t.mSingleLayerRenderTargets renderToTextureIndex
  let allLevelsRenderTargets :=
    if allLevelsRenderTargets.length ≤ levelIndex then
      allLevelsRenderTargets ++ List.replicate (levelIndex + 1 - allLevelsRenderTargets.length) []
    else
      allLevelsRenderTargets
  let resized : TextureWgpu :=
    { t with
      mSingleLayerRenderTargets :=
        Function.update t.mSingleLayerRenderTargets renderToTextureIndex allLevelsRenderTargets }
  let store (row : List RenderTargetWgpu) : TextureWgpu :=
    { t with
      mSingleLayerRenderTargets :=
        Function.update t.mSingleLayerRenderTargets renderToTextureIndex
          (allLevelsRenderTargets.set levelIndex row) }
  let renderTargets := allLevelsRenderTargets.getD levelIndex []
  if !renderTargets.isEmpty then
    some (Result.Continue, ctx, resized)
  else
    let renderTargets := List.replicate layerCount RenderTargetWgpu.unset
    match t.mImage, layerCount with
    | _, 0 => some (Result.Continue, ctx, store renderTargets)
    | none, _ + 1 => none
    | some image, _ + 1 =>
      let (r, ctx1, renderTargets) :=
        initLayerRenderTargets image levelIndex (List.range layerCount) ctx renderTargets
      some (r, ctx1, store renderTargets)

/-- What `getAttachmentRenderTarget` leaves behind: its result, the context, the
texture and `*rtOut` (`none` when it was not assigned). -/
structure AttachmentRenderTarget where
  result : Result
  ctx : ContextWgpu
  texture : TextureWgpu
  rtOut : Option RenderTargetRef

/-- `TextureWgpu::getAttachmentRenderTarget` (TextureWgpu.cpp:334-379). -/
def getAttachmentRenderTarget (u : RendererUtils) (ctx : ContextWgpu) (t : TextureWgpu)
    (_binding : Nat) (imageIndex : ImageIndex) (_samples : Int) : Option AttachmentRenderTarget :=
  match respecifyImageStorageIfNecessary u ctx t Command.Draw with
  | none => none
  | some (Result.Stop, ctx1, t1) => some ⟨Result.Stop, ctx1, t1, none⟩
  | some (Result.Continue, ctx1, t1) =>
    match t1.mImage with
    | none => none
    | some img1 =>
      match (if !img1.isInitialized then initializeImage ctx1 t1 ImageMipLevels.EnabledLevels
          else some (Result.Continue, ctx1, t1)) with
      | none => none
      | some (Result.Stop, ctx2, t2) => some ⟨Result.Stop, ctx2, t2, none⟩
      | some (Result.Continue, ctx2, t2) =>
        match GetRenderTargetLayerCountAndIndex t2.mImage imageIndex 0 with
        | none => none
        | some (layerIndex, layerCount, imageLayerCount, unimplemented) =>
          let ctx3 := if unimplemented then ctx2.emit Event.unimplemented else ctx2
          let renderToTextureIndex := RenderToTextureImageIndex.Default
          if layerCount = 1 then
            match initSingleLayerRenderTargets ctx3 t2 imageLayerCount imageIndex.levelIndex
                renderToTextureIndex with
            | none => none
            | some (Result.Stop, ctx4, t4) => some ⟨Result.Stop, ctx4, t4, none⟩
            | some (Result.Continue, ctx4, t4) =>
              some ⟨Result.Continue, ctx4, t4,
                some ⟨renderToTextureIndex, imageIndex.levelIndex, layerIndex⟩⟩
          else
            some ⟨Result.Continue, ctx3.emit Event.unimplemented, t2, none⟩

/-- The render target a pointer into the cache points at; `none` when the pointer is
outside the cache (no such level, or no such layer in the row of the level). -/
def renderTargetAt (t : TextureWgpu) (ref : RenderTargetRef) : Option RenderTargetWgpu :=
  ((t.mSingleLayerRenderTargets ref.selector).getD ref.level [])[ref.layer]?

end TextureWgpu

namespace TextureWgpu

/-- The staged updates of the image of a texture (none for a null image). -/
def stagedUpdates (t : TextureWgpu) : List SubresourceUpdate :=
  match t.mImage with
  | some img => img.mStagedUpdates
  | none => []

/-- Whether the texture has an image and that image is realized. -/
def imageInitialized (t : TextureWgpu) : Option Bool := t.mImage.map ImageHelper.isInitialized

end TextureWgpu

open TextureWgpu

/-! ## `mImage` as a pointer: who owns the image -/

/-- A pointer to a `webgpu::ImageHelper`. -/
abbrev ImagePtr := Nat

/-- The image objects: at each pointer handed out so far the object it points to, or
`none` once the object was deleted. -/
structure ImageHeap where
  objects : List (Option ImageHelper)
deriving DecidableEq

namespace ImageHeap

/-- The object `*p`; `none` for a pointer whose object was deleted or that was never
handed out. -/
def deref (heap : ImageHeap) (p : ImagePtr) : Option ImageHelper := heap.objects.getD p none

/-- The expression `new webgpu::ImageHelper`: a new object at a pointer not handed out
before. -/
def alloc (heap : ImageHeap) (img : ImageHelper) : ImageHeap × ImagePtr :=
  (⟨heap.objects ++ [some img]⟩, heap.objects.length)

/-- The call `SafeDelete(p)` on a non-null pointer. -/
def delete (heap : ImageHeap) (p : ImagePtr) : ImageHeap := ⟨heap.objects.set p none⟩

/-- The object `*p` after a member function changed it to `img`. -/
def store (heap : ImageHeap) (p : ImagePtr) (img : ImageHelper) : ImageHeap :=
  ⟨heap.objects.set p (some img)⟩

end ImageHeap

/-- The members of `rx::TextureWgpu` that `redefineLevel` and `setImageHelper` read or
write, with `mImage` as the pointer it is. -/
structure TextureWgpuRef where
  mState : TextureState
  mImage : Option ImagePtr
  mOwnsImage : Bool
  mRedefinedLevels : RedefinedLevels
deriving DecidableEq

namespace TextureWgpuRef

/-- `TextureWgpu::setImageHelper` (TextureWgpu.cpp:738-755) on image objects:
`SafeDelete(mImage)` deletes the object the texture points to. -/
def setImageHelper (ctx : ContextWgpu) (heap : ImageHeap) (t : TextureWgpuRef)
    (imageHelper : Option ImagePtr) (ownsImageHelper : Bool) :
    ContextWgpu × ImageHeap × TextureWgpuRef :=
  let (ctx1, heap1) :=
    match t.mOwnsImage, t.mImage with
    | true, some p => (ctx.emit Event.deleteImage, heap.delete p)
    | _, _ => (ctx, heap)
  (ctx1.emit Event.stateChange, heap1,
    { t with mImage := imageHelper, mOwnsImage := ownsImageHelper })

/-- `TextureWgpu::setEGLImageTarget` (TextureWgpu.cpp:264-273); `image` is the pointer
`imageWgpu->getImage()`. -/
def setEGLImageTarget (ctx : ContextWgpu) (heap : ImageHeap) (t : TextureWgpuRef)
    (image : ImagePtr) : Result × ContextWgpu × ImageHeap × TextureWgpuRef :=
  (Result.Continue, setImageHelper ctx heap t (some image) false)

/-- `TextureWgpu::redefineLevel` (TextureWgpu.cpp:497-545) on image objects: the member
functions called on `mImage` change the object it points to; a pointer without an object
has no defined result. -/
def redefineLevel (u : RendererUtils) (ctx : ContextWgpu) (heap : ImageHeap)
    (t : TextureWgpuRef) (webgpuFormat : Format) (index : ImageIndex) (size : Extents) :
    Option (Result × ContextWgpu × ImageHeap × TextureWgpuRef) :=
  match t.mImage, t.mOwnsImage with
  | some p, true =>
    match heap.deref p with
    | none => none
    | some img =>
      let levelIndexGL := index.levelIndex
      let layerIndex := if index.hasLayer then index.layerIndex else 0
      let img1 :=
        if index.hasLayer then
          img.removeSingleSubresourceStagedUpdates levelIndexGL layerIndex index.layerCount
        else
          img.removeStagedUpdates levelIndexGL
      if img1.isInitialized then
        let levelAllocation :=
          if img1.isTextureLevelInAllocatedImage levelIndexGL then
            TextureLevelAllocation.WithinAllocatedImage
          else
            TextureLevelAllocation.OutsideAllocatedImage
        let levelDefinition :=
          if IsTextureLevelDefinitionCompatibleWithImage img1 size webgpuFormat then
            TextureLevelDefinition.Compatible
          else
            TextureLevelDefinition.Incompatible
        let (release, redefined) :=
          u.TextureRedefineLevel levelAllocation levelDefinition t.mState.immutableFormat
            img1.getLevelCount layerIndex index img1.getFirstAllocatedLevel t.mRedefinedLevels
        if release then
          let (ctx1, img2) := img1.resetImage ctx
          some (Result.Continue, ctx1, heap.store p img2, { t with mRedefinedLevels := redefined })
        else
          some (Result.Continue, ctx, heap.store p img1, { t with mRedefinedLevels := redefined })
      else
        some (Result.Continue, ctx, heap.store p img1, t)
  | _, _ =>
    let (heap1, p) := heap.alloc ImageHelper.new
    some (Result.Continue, setImageHelper ctx heap1 t (some p) true)

/-- The texture by value that a texture with a pointer stands for: `base` gives the
members that `redefineLevel` and `setImageHelper` leave alone, and the image is the
object `mImage` points to. -/
def load (heap : ImageHeap) (t : TextureWgpuRef) (base : TextureWgpu) : TextureWgpu :=
  { base with
    mState := t.mState, mImage := t.mImage.bind heap.deref, mOwnsImage := t.mOwnsImage,
    mRedefinedLevels := t.mRedefinedLevels }

end TextureWgpuRef

/-! ## Example textures and scenarios -/

namespace Example

/-- A mutable 2D texture state: base level 0, max level 1000, one enabled level of
256x256, format ids 7 (intended) and 9 (actual). -/
def state2D : TextureState :=
  { type := TextureType._2D, baseLevel := 0, maxLevel := 1000, effectiveBaseLevel := 0,
    effectiveMaxLevel := 1000, mipmapMaxLevel := 0, enabledLevelCount := 1,
    immutableFormat := false, baseLevelDescSize := ⟨256, 256, 1⟩, baseLevelFormat := ⟨7, 9⟩ }

/-- A realized 256x256 image of one level, native texture 1, without staged updates. -/
def realizedImage : ImageHelper :=
  { mInitialized := true, mTexture := 1, mIntendedFormatID := 7, mActualFormatID := 9,
    mSize := ⟨256, 256, 1⟩, mFirstAllocatedLevel := 0, mLevelCount := 1, mStagedUpdates := [] }

/-- The index of level `level` of a 2D texture (no layer, layer count 1). -/
def index2D (level : Nat) : ImageIndex :=
  { type := TextureType._2D, levelIndex := level, hasLayer := false,
    layerIndex := kEntireLevel, layerCount := 1 }

/-- A texture that owns `realizedImage`, with an empty render-target cache. -/
def realizedTexture : TextureWgpu :=
  { TextureWgpu.create state2D with mImage := some realizedImage }

/-- Four staged updates, one for each of the levels 0, 1, 2 and 3. -/
def updates0to3 : List SubresourceUpdate :=
  [⟨0, 0, 1, 10⟩, ⟨1, 0, 1, 11⟩, ⟨2, 0, 1, 12⟩, ⟨3, 0, 1, 13⟩]

/-- A texture with base level 0 and mipmap max level 3 whose image holds
`updates0to3`. -/
def mipmapTexture : TextureWgpu :=
  { TextureWgpu.create { state2D with mipmapMaxLevel := 3, enabledLevelCount := 4 } with
    mImage := some { realizedImage with mLevelCount := 4, mStagedUpdates := updates0to3 } }

/-- The first scenario of a stale render target: acquire the render target of level 0
of a fresh 2D texture, redefine level 0 with other extents (which tears the image down),
and acquire the render target of level 0 again. -/
def acquireRedefineAcquire : Option AttachmentRenderTarget :=
  match getAttachmentRenderTarget RendererUtils.spec ContextWgpu.reliable
      (TextureWgpu.create state2D) 0 (index2D 0) 0 with
  | none => none
  | some out1 =>
    let (_, ctx2, t2) :=
      redefineLevel RendererUtils.spec out1.ctx out1.texture ⟨7, 9⟩ (index2D 0) ⟨128, 128, 1⟩
    getAttachmentRenderTarget RendererUtils.spec ctx2
      { t2 with mState := { t2.mState with baseLevelDescSize := ⟨128, 128, 1⟩ } } 0
      (index2D 0) 0

/-- The second scenario of a stale render target: acquire the render target of level 0
of a fresh 2D texture, let the enabled-level count of the texture state grow from 1 to
2 (so that `respecifyImageStorageIfNecessary` tears the image down), and acquire the
render target of level 0 again. -/
def acquireRespecifyAcquire : Option AttachmentRenderTarget :=
  match getAttachmentRenderTarget RendererUtils.spec ContextWgpu.reliable
      (TextureWgpu.create state2D) 0 (index2D 0) 0 with
  | none => none
  | some out1 =>
    getAttachmentRenderTarget RendererUtils.spec out1.ctx
      { out1.texture with
        mState := { out1.texture.mState with mipmapMaxLevel := 1, enabledLevelCount := 2 } } 0
      (index2D 0) 0

/-- What a scenario shows of its outcome: the result, the native texture of the view of
the render target returned, the native texture of the image of the texture, the number
of native images allocated and the number of views created. -/
def observe (out : AttachmentRenderTarget) : Result × Option Nat × Option Nat × Nat × Nat :=
  (out.result,
    ((out.rtOut.bind (renderTargetAt out.texture)).bind fun rt => rt.view).map fun v => v.texture,
    out.texture.mImage.map fun img => img.mTexture,
    out.ctx.imagesAllocated, out.ctx.viewsCreated)

/-- A request for two layers of a 2D array texture. -/
def index2DArrayTwoLayers : ImageIndex :=
  { type := TextureType._2DArray, levelIndex := 0, hasLayer := true, layerIndex := 0,
    layerCount := 2 }

/-- An immutable-format texture that owns `realizedImage` (one level), whose state
has two enabled levels. -/
def immutableTexture : TextureWgpu :=
  { TextureWgpu.create
      { state2D with immutableFormat := true, mipmapMaxLevel := 1, enabledLevelCount := 2 } with
    mImage := some realizedImage }

/-- A 2D array texture that owns a realized image of four layers. -/
def arrayTexture : TextureWgpu :=
  { TextureWgpu.create
      { state2D with type := TextureType._2DArray, baseLevelDescSize := ⟨256, 256, 4⟩ } with
    mImage := some { realizedImage with mSize := ⟨256, 256, 4⟩ } }

/-- A context whose backend fails every allocation of a native image. -/
def ctxAllocationFails : ContextWgpu :=
  { ContextWgpu.reliable with initImageOk := fun _ => false }

/-- A texture that owns `realizedImage` and whose cache holds the render target of
level 0, layer 0, with a view of native texture 1. -/
def cachedTexture : TextureWgpu :=
  { realizedTexture with
    mSingleLayerRenderTargets := fun _ =>
      [[{ view := some ⟨1, 0, 0⟩, level := 0, layer := 0, format := 9 }]] }

/-- Two acquisitions in a row of the render target of level 0 of a fresh 2D texture:
the pointers returned, the render targets they point at, and the number of views
created after the first and after the second. -/
def acquireTwice :
    Option ((Option RenderTargetRef × Option RenderTargetWgpu × Nat) ×
      (Option RenderTargetRef × Option RenderTargetWgpu × Nat)) :=
  match getAttachmentRenderTarget RendererUtils.spec ContextWgpu.reliable
      (TextureWgpu.create state2D) 0 (index2D 0) 0 with
  | none => none
  | some out1 =>
    match getAttachmentRenderTarget RendererUtils.spec out1.ctx out1.texture 0 (index2D 0) 0 with
    | none => none
    | some out2 =>
      some ((out1.rtOut, out1.rtOut.bind (renderTargetAt out1.texture), out1.ctx.viewsCreated),
        (out2.rtOut, out2.rtOut.bind (renderTargetAt out2.texture), out2.ctx.viewsCreated))

/-- An immutable-format texture that owns `realizedImage`, with one enabled level. -/
def immutableSingleLevel : TextureWgpu :=
  { TextureWgpu.create { state2D with immutableFormat := true } with
    mImage := some realizedImage }

/-- What the request for two layers of `arrayTexture` leaves behind. -/
def twoLayerOutcome : AttachmentRenderTarget :=
  { result := Result.Continue,
    ctx := (ContextWgpu.reliable.emit Event.unimplemented).emit Event.unimplemented,
    texture := arrayTexture, rtOut := none }

/-- A buffer with one binding, which is a transform-feedback indexed binding. -/
def tfBuffer : gl.Buffer :=
  { mState := ⟨1, 1, 0⟩ }

/-- The binding-mask table of a buffer bound to slot 3 in context 1 and to slot 3 in
context 2. -/
def sharedTable : gl.VertexArrayBufferBindingMaskAndContext :=
  ((⟨[]⟩ : gl.VertexArrayBufferBindingMaskAndContext).add 1 3).add 2 3

/-- A mutable texture that owns a realized image of four levels (0 to 3) and whose
state has one enabled level. -/
def fourLevelTexture : TextureWgpu :=
  { TextureWgpu.create state2D with mImage := some { realizedImage with mLevelCount := 4 } }

/-- The texture `fourLevelTexture` after the max level of its state went from 1000 to 2:
only the max level changed, and the new effective max level 2 is within the allocated
levels. -/
def maxLevelLowered : TextureWgpu :=
  { fourLevelTexture with
    mState := { fourLevelTexture.mState with maxLevel := 2, effectiveMaxLevel := 2 } }

/-- The texture `realizedTexture` (one level, level 0) after the base level of its state
went from 0 to 1. -/
def baseLevelRaised : TextureWgpu :=
  { realizedTexture with
    mState :=
      { realizedTexture.mState with
        baseLevel := 1, effectiveBaseLevel := 1, effectiveMaxLevel := 1, mipmapMaxLevel := 1 } }

/-- The texture `mipmapTexture` with the redefinition bit of its base level 0 set. -/
def baseRedefined : TextureWgpu :=
  { mipmapTexture with mRedefinedLevels := {(0, 0)} }

/-- The texture `realizedTexture` with the redefinition bit of level 1 set, and one
staged update on level 0. -/
def levelRedefined : TextureWgpu :=
  { realizedTexture with
    mImage := some { realizedImage with mStagedUpdates := [⟨0, 0, 1, 10⟩] },
    mRedefinedLevels := {(0, 1)} }

/-- A context whose backend fails every flush of staged updates. -/
def ctxFlushFails : ContextWgpu :=
  { ContextWgpu.reliable with flushOk := fun _ => false }

/-- Two calls of `syncState` in a row for the same command, the second on the context
and the texture the first left, with nothing in between; the outcome of each. -/
def syncTwice (u : RendererUtils) (ctx : ContextWgpu) (t : TextureWgpu) (source : Command) :
    Option ((Result × ContextWgpu × TextureWgpu) × (Result × ContextWgpu × TextureWgpu)) :=
  match syncState u ctx t source with
  | none => none
  | some (r1, ctx1, t1) =>
    match syncState u ctx1 t1 source with
    | none => none
    | some second => some ((r1, ctx1, t1), second)

/-- What a scenario shows of the outcome of a `syncState`: the result, the backend
operations requested so far, and of the image whether it is realized, its native texture
and its level count. -/
def observeSync (out : Result × ContextWgpu × TextureWgpu) :
    Result × List Event × Option (Bool × Nat × Nat) :=
  (out.1, out.2.1.trace,
    out.2.2.mImage.map fun img => (img.isInitialized, img.mTexture, img.getLevelCount))

/-- A context whose backend fails the creation of a view when no backend operation was
requested before, and succeeds otherwise. -/
def ctxFirstViewFails : ContextWgpu :=
  { ContextWgpu.reliable with createViewOk := fun trace => !trace.isEmpty }

/-- A context whose backend fails the creation of a view when exactly two backend
operations were requested before, and succeeds otherwise. -/
def ctxThirdViewFails : ContextWgpu :=
  { ContextWgpu.reliable with createViewOk := fun trace => decide (trace.length ≠ 2) }

/-- A cube map texture that owns a realized image of six layers. -/
def cubeTexture : TextureWgpu :=
  { TextureWgpu.create { state2D with type := TextureType.CubeMap } with
    mImage := some { realizedImage with mSize := ⟨256, 256, 6⟩ } }

/-- The index of face `face` of level `level` of a cube map texture. -/
def indexCubeFace (level face : Nat) : ImageIndex :=
  { type := TextureType.CubeMap, levelIndex := level, hasLayer := true, layerIndex := face,
    layerCount := 1 }

/-- Two acquisitions in a row of the render target of `index`, the second on the context
and the texture the first left. -/
def acquireAgain (ctx : ContextWgpu) (t : TextureWgpu) (index : ImageIndex) :
    Option (AttachmentRenderTarget × AttachmentRenderTarget) :=
  match getAttachmentRenderTarget RendererUtils.spec ctx t 0 index 0 with
  | none => none
  | some out1 =>
    match getAttachmentRenderTarget RendererUtils.spec out1.ctx out1.texture 0 index 0 with
    | none => none
    | some out2 => some (out1, out2)

/-- What a scenario shows of an acquisition for level `level`: the result, the pointer
returned, the render target it points at, the cache row of the level and the backend
operations requested so far. -/
def observeRow (level : Nat) (out : AttachmentRenderTarget) :
    Result × Option RenderTargetRef × Option RenderTargetWgpu × List RenderTargetWgpu ×
      List Event :=
  (out.result, out.rtOut, out.rtOut.bind (renderTargetAt out.texture),
    (out.texture.mSingleLayerRenderTargets RenderToTextureImageIndex.Default).getD level [],
    out.ctx.trace)

/-- A realized image that belongs to an EGL image: native texture 8, one staged update on
level 0. -/
def eglImage : ImageHelper :=
  { realizedImage with mTexture := 8, mStagedUpdates := [⟨0, 0, 1, 10⟩] }

/-- Two image objects: at pointer 0 the empty image of a texture as constructed, at
pointer 1 `eglImage`. -/
def heapWithEglImage : ImageHeap := ⟨[some ImageHelper.new, some eglImage]⟩

/-- A texture as constructed: it owns the image at pointer 0. -/
def freshTextureRef : TextureWgpuRef :=
  { mState := state2D, mImage := some 0, mOwnsImage := true, mRedefinedLevels := ∅ }

/-- The texture `freshTextureRef` after `setEGLImageTarget` of the image at pointer 1:
it borrows that image. -/
def borrowingTextureRef : TextureWgpuRef :=
  { mState := state2D, mImage := some 1, mOwnsImage := false, mRedefinedLevels := ∅ }

/-- The texture `baseLevelRaised` (the base level of the state went from 0 to 1, which
the one-level image cannot satisfy) with the redefinition bit of level 1 set and one
staged update on level 0. -/
def redefinedBaseRaised : TextureWgpu :=
  { baseLevelRaised with
    mImage := some { realizedImage with mStagedUpdates := [⟨0, 0, 1, 10⟩] },
    mRedefinedLevels := {(0, 1)} }

end Example

/-! ## Vocabulary of the theorems -/

/-- The backend operations on the image itself: flush, allocation and teardown. -/
def webgpu.Event.isImageOp : Event → Bool
  | Event.flushStagedUpdates _ => true
  | Event.initImage _ _ _ _ => true
  | Event.resetImage => true
  | _ => false

/-- The context `ctx1` comes from `ctx` by image operations only: no view was created
and nothing was signalled in between. -/
def ContextWgpu.ImageOpsOnly (ctx ctx1 : ContextWgpu) : Prop :=
  ∃ es, ctx1.trace = ctx.trace ++ es ∧ ∀ e ∈ es, e.isImageOp = true

/-- An operation from `(ctx, t)` to `(ctx1, t1)` that leaves the render-target cache and
the texture state alone and requests image operations only. -/
def TextureWgpu.CacheFrame (ctx : ContextWgpu) (t : TextureWgpu) (ctx1 : ContextWgpu)
    (t1 : TextureWgpu) : Prop :=
  t1.mSingleLayerRenderTargets = t.mSingleLayerRenderTargets ∧ t1.mState = t.mState ∧
    ctx.ImageOpsOnly ctx1

/-- The allocation of an image: the image without its staged updates, that is its
initialized flag, native texture, format ids, extents and allocated level range. -/
def webgpu.ImageHelper.allocation (img : ImageHelper) : ImageHelper :=
  { img with mStagedUpdates := [] }

/-- The array texture types that `GetRenderTargetLayerCountAndIndex` does not support. -/
def isArrayTextureType : TextureType → Bool
  | TextureType._2DArray => true
  | TextureType._2DMultisampleArray => true
  | TextureType.CubeMapArray => true
  | _ => false

/-- The redefinition bits as `respecifyImageStorageIfNecessary` finds them when it asks
whether any is set: for generateMipmap they have been through
`TextureRedefineGenerateMipmapLevels`. -/
def TextureWgpu.redefinedLevelsAtCheck (u : RendererUtils) (t : TextureWgpu) (source : Command) :
    RedefinedLevels :=
  if source == Command.GenerateMipmap then
    u.TextureRedefineGenerateMipmapLevels t.mState.effectiveBaseLevel t.mState.mipmapMaxLevel
      (t.mState.effectiveBaseLevel + 1) t.mRedefinedLevels
  else
    t.mRedefinedLevels

/-- Nothing asks for the image to be recreated: the tracker reports no redefined level
and, for a command other than generateMipmap, the image has at least as many levels as
the texture state has enabled. -/
def TextureWgpu.NothingToRespecify (u : RendererUtils) (t : TextureWgpu) (img : ImageHelper)
    (source : Command) : Prop :=
  u.TextureHasAnyRedefinedLevels (t.redefinedLevelsAtCheck u source) = false ∧
  (source = Command.GenerateMipmap →
    u.IsTextureLevelRedefined (t.redefinedLevelsAtCheck u source) t.mState.type
      t.mState.effectiveBaseLevel = false) ∧
  (source ≠ Command.GenerateMipmap → t.mState.enabledLevelCount ≤ img.getLevelCount)

/-- A change of the base or max level that the allocation of the image cannot satisfy:
the image is realized, the texture is mutable-format, the recorded base or max level
differs from the one of the texture state, and the base level changed or the new
effective max level is beyond the last allocated level. -/
def TextureWgpu.BaseMaxChangeUnsatisfiable (t : TextureWgpu) (img : ImageHelper) : Prop :=
  img.isInitialized = true ∧ t.mState.immutableFormat = false ∧
  (t.mCurrentBaseLevel ≠ t.mState.baseLevel ∨ t.mCurrentMaxLevel ≠ t.mState.maxLevel) ∧
  (t.mCurrentBaseLevel ≠ t.mState.baseLevel ∨
    img.getLastAllocatedLevel < (t.mState.effectiveMaxLevel : Int))

/-- The local `isMipmapEnabledByMinFilter` of `respecifyImageStorageIfNecessary`
(TextureWgpu.cpp:591-596), computed on the texture `maybeUpdateBaseMaxLevels` left. -/
def TextureWgpu.isMipmapEnabledByMinFilter (t : TextureWgpu) (source : Command) : Bool :=
  match t.mImage with
  | some img =>
    !(source == Command.GenerateMipmap) && img.isInitialized &&
      decide (img.getLevelCount < t.getMipLevelCount ImageMipLevels.EnabledLevels)
  | none => false

/-- The condition of `respecifyImageStorageIfNecessary` under which a generateMipmap
recreates the image (TextureWgpu.cpp:600-603). -/
def TextureWgpu.mustRecreateForGenerateMipmap (t : TextureWgpu) (source : Command) : Bool :=
  match t.mImage with
  | some img =>
    (source == Command.GenerateMipmap) && img.isInitialized &&
      (!t.mState.immutableFormat &&
        decide (img.getLevelCount ≠
          t.getMipLevelCount ImageMipLevels.FullMipChainForGenerateMipmap))
  | none => false

/-- No step of `respecifyImageStorageIfNecessary` before its last check tears the image
down or recreates it: the change of the base or max level, if any, is one the allocation
satisfies, and for generateMipmap the base level is not reported redefined and a realized
image of a mutable-format texture already has the full mip chain. -/
def TextureWgpu.NoEarlierTeardown (u : RendererUtils) (t : TextureWgpu) (img : ImageHelper)
    (source : Command) : Prop :=
  ¬ t.BaseMaxChangeUnsatisfiable img ∧
  (source = Command.GenerateMipmap →
    u.IsTextureLevelRedefined (t.redefinedLevelsAtCheck u source) t.mState.type
        t.mState.effectiveBaseLevel = false ∧
      (img.isInitialized = true → t.mState.immutableFormat = false →
        img.getLevelCount = t.getMipLevelCount ImageMipLevels.FullMipChainForGenerateMipmap))

/-! ## Theorems -/

/-! ### `ANGLE_TRY` -/

theorem angleTry_eq_continue {σ α : Type} (r : Option (Result × σ))
    (k : σ → Option (Result × α)) (stop : σ → α) (x : α) :
    angleTry r k stop = some (Result.Continue, x) ↔
      ∃ s, r = some (Result.Continue, s) ∧ k s = some (Result.Continue, x) := by
  rcases r with _ | ⟨_ | _, s⟩ <;> simp [angleTry]

theorem angleTry_eq_some {σ α : Type} (r : Option (Result × σ))
    (k : σ → Option (Result × α)) (stop : σ → α) (out : Result × α) :
    angleTry r k stop = some out ↔
      (∃ s, r = some (Result.Stop, s) ∧ out = (Result.Stop, stop s)) ∨
      (∃ s, r = some (Result.Continue, s) ∧ k s = some out) := by
  rcases r with _ | ⟨_ | _, s⟩ <;> simp [angleTry, eq_comm]

/-! ### Frames: what the image operations leave alone -/

theorem viewsCreated_emit (ctx : ContextWgpu) (e : Event) (h : e.isImageOp = true) :
    (ctx.emit e).viewsCreated = ctx.viewsCreated := by
  cases e <;> simp_all [ContextWgpu.emit, ContextWgpu.viewsCreated, Event.isImageOp]

theorem imageOpsOnly_refl (ctx : ContextWgpu) : ctx.ImageOpsOnly ctx :=
  ⟨[], by simp, by simp⟩

theorem imageOpsOnly_trans {ctx ctx1 ctx2 : ContextWgpu} (h1 : ctx.ImageOpsOnly ctx1)
    (h2 : ctx1.ImageOpsOnly ctx2) : ctx.ImageOpsOnly ctx2 := by
  obtain ⟨es1, he1, hq1⟩ := h1
  obtain ⟨es2, he2, hq2⟩ := h2
  refine ⟨es1 ++ es2, by rw [he2, he1, List.append_assoc], ?_⟩
  intro e he
  rcases List.mem_append.mp he with h | h
  · exact hq1 e h
  · exact hq2 e h

theorem imageOpsOnly_emit (ctx : ContextWgpu) (e : Event) (h : e.isImageOp = true) :
    ctx.ImageOpsOnly (ctx.emit e) :=
  ⟨[e], rfl, by simpa using h⟩

theorem imageOpsOnly_viewsCreated {ctx ctx1 : ContextWgpu} (h : ctx.ImageOpsOnly ctx1) :
    ctx1.viewsCreated = ctx.viewsCreated := by
  obtain ⟨es, he, hq⟩ := h
  unfold ContextWgpu.viewsCreated
  rw [he, List.filter_append, List.length_append]
  have : (es.filter fun e =>
      match e with
      | Event.createTextureView _ _ true => true
      | _ => false) = [] := by
    rw [List.filter_eq_nil_iff]
    intro e he
    have := hq e he
    cases e <;> simp_all [Event.isImageOp]
  rw [this]
  simp

theorem imageOpsOnly_not_unimplemented {ctx ctx1 : ContextWgpu} (h : ctx.ImageOpsOnly ctx1)
    (es : List Event) (hes : ctx1.trace = ctx.trace ++ es) : Event.unimplemented ∉ es := by
  obtain ⟨es1, he, hq⟩ := h
  have : es = es1 := List.append_cancel_left (hes.symm.trans he)
  subst this
  intro hmem
  simpa [Event.isImageOp] using hq _ hmem

theorem cacheFrame_refl (ctx : ContextWgpu) (t : TextureWgpu) : CacheFrame ctx t ctx t :=
  ⟨rfl, rfl, imageOpsOnly_refl ctx⟩

theorem cacheFrame_trans {ctx ctx1 ctx2 : ContextWgpu} {t t1 t2 : TextureWgpu}
    (h1 : CacheFrame ctx t ctx1 t1) (h2 : CacheFrame ctx1 t1 ctx2 t2) :
    CacheFrame ctx t ctx2 t2 :=
  ⟨h2.1.trans h1.1, h2.2.1.trans h1.2.1, imageOpsOnly_trans h1.2.2 h2.2.2⟩

theorem resetImage_frame {ctx ctx1 : ContextWgpu} {t t1 : TextureWgpu}
    (h : t.resetImage ctx = some (ctx1, t1)) : CacheFrame ctx t ctx1 t1 := by
  unfold TextureWgpu.resetImage at h
  rcases himg : t.mImage with _ | img
  · simp [himg] at h
  · simp only [himg, Option.map_some, ImageHelper.resetImage, Option.some.injEq,
      Prod.mk.injEq] at h
    obtain ⟨rfl, rfl⟩ := h
    exact ⟨rfl, rfl, imageOpsOnly_emit _ _ rfl⟩

theorem flushStagedUpdates_frame {ctx ctx1 : ContextWgpu} {t t1 : TextureWgpu} {r : Result}
    (h : t.flushStagedUpdates ctx = some (r, ctx1, t1)) : CacheFrame ctx t ctx1 t1 := by
  unfold TextureWgpu.flushStagedUpdates at h
  rcases himg : t.mImage with _ | img
  · simp [himg] at h
  · simp only [himg, Option.map_some, ImageHelper.flushStagedUpdates] at h
    by_cases hok : ctx.flushOk ctx.trace = true
    · simp only [hok, if_true, Option.some.injEq, Prod.mk.injEq] at h
      obtain ⟨-, rfl, rfl⟩ := h
      exact ⟨rfl, rfl, imageOpsOnly_emit _ _ rfl⟩
    · simp only [hok, if_false, Bool.false_eq_true, Option.some.injEq, Prod.mk.injEq] at h
      obtain ⟨-, rfl, rfl⟩ := h
      exact ⟨rfl, rfl, imageOpsOnly_emit _ _ rfl⟩

theorem flushThenReset_frame {ctx ctx1 : ContextWgpu} {t t1 : TextureWgpu} {r : Result}
    (h : flushThenReset ctx t = some (r, ctx1, t1)) : CacheFrame ctx t ctx1 t1 := by
  unfold flushThenReset at h
  rcases (angleTry_eq_some _ _ _ _).mp h with ⟨⟨ctx2, t2⟩, h1, h2⟩ | ⟨⟨ctx2, t2⟩, h1, h2⟩
  · simp only [id, Prod.mk.injEq] at h2
    obtain ⟨-, rfl, rfl⟩ := h2
    exact flushStagedUpdates_frame h1
  · rcases h3 : t2.resetImage ctx2 with _ | ⟨ctx3, t3⟩
    · simp [h3] at h2
    · simp only [h3, Option.map_some, Option.some.injEq, Prod.mk.injEq] at h2
      obtain ⟨-, rfl, rfl⟩ := h2
      exact cacheFrame_trans (flushStagedUpdates_frame h1) (resetImage_frame h3)

theorem initializeImage_frame {ctx ctx1 : ContextWgpu} {t t1 : TextureWgpu} {r : Result}
    {mipLevels : ImageMipLevels} (h : initializeImage ctx t mipLevels = some (r, ctx1, t1)) :
    CacheFrame ctx t ctx1 t1 := by
  unfold initializeImage at h
  rcases himg : t.mImage with _ | img
  · simp [himg] at h
  · simp only [himg] at h
    by_cases hi : img.isInitialized = true
    · simp only [hi, if_true, Option.some.injEq, Prod.mk.injEq] at h
      obtain ⟨-, rfl, rfl⟩ := h
      exact cacheFrame_refl _ _
    · simp only [hi, if_false, Bool.false_eq_true, ImageHelper.initImage] at h
      by_cases hok : ctx.initImageOk ctx.trace = true
      · simp only [hok, if_true, Option.some.injEq, Prod.mk.injEq] at h
        obtain ⟨-, rfl, rfl⟩ := h
        exact ⟨rfl, rfl, imageOpsOnly_emit _ _ rfl⟩
      · simp only [hok, if_false, Bool.false_eq_true, Option.some.injEq, Prod.mk.injEq] at h
        obtain ⟨-, rfl, rfl⟩ := h
        exact ⟨rfl, rfl, imageOpsOnly_emit _ _ rfl⟩

theorem maybeUpdateBaseMaxLevels_frame {ctx ctx1 : ContextWgpu} {t t1 : TextureWgpu} {r : Result}
    (h : maybeUpdateBaseMaxLevels ctx t = some (r, ctx1, t1)) : CacheFrame ctx t ctx1 t1 := by
  unfold maybeUpdateBaseMaxLevels at h
  rcases himg : t.mImage with _ | img <;> simp only [himg] at h <;> split_ifs at h <;>
    simp only [ImageHelper.resetImage, Option.some.injEq, Prod.mk.injEq, reduceCtorEq] at h <;>
    obtain ⟨-, rfl, rfl⟩ := h <;>
    first
      | exact ⟨rfl, rfl, imageOpsOnly_refl _⟩
      | exact ⟨rfl, rfl, imageOpsOnly_emit _ _ rfl⟩

/-- C4: `hasWebGLXFBBindingConflict(isWebGL)` is true exactly when `isWebGL` is true,
the transform-feedback indexed binding count is positive and it differs from the total
binding count minus the transform-feedback generic binding count; with `isWebGL` false
it is false for all counts. -/
theorem hasWebGLXFBBindingConflict_iff (b : gl.Buffer) (isWebGL : Bool) :
    (b.hasWebGLXFBBindingConflict isWebGL = true ↔
      (isWebGL = true ∧ b.mState.mTransformFeedbackIndexedBindingCount > 0 ∧
        b.mState.mTransformFeedbackIndexedBindingCount ≠
          b.mState.mBindingCount - b.mState.mTransformFeedbackGenericBindingCount)) ∧
    b.hasWebGLXFBBindingConflict false = false := by
  cases isWebGL <;> simp [gl.Buffer.hasWebGLXFBBindingConflict]

/-! ### Removing staged updates leaves the rest of the image alone -/

@[simp] theorem isInitialized_removeStagedUpdates (img : ImageHelper) (level : Nat) :
    (img.removeStagedUpdates level).isInitialized = img.isInitialized := rfl

@[simp] theorem isInitialized_removeSingle (img : ImageHelper) (level i n : Nat) :
    (img.removeSingleSubresourceStagedUpdates level i n).isInitialized = img.isInitialized := rfl

@[simp] theorem inAllocated_removeStagedUpdates (img : ImageHelper) (level l : Nat) :
    (img.removeStagedUpdates level).isTextureLevelInAllocatedImage l =
      img.isTextureLevelInAllocatedImage l := rfl

@[simp] theorem inAllocated_removeSingle (img : ImageHelper) (level i n l : Nat) :
    (img.removeSingleSubresourceStagedUpdates level i n).isTextureLevelInAllocatedImage l =
      img.isTextureLevelInAllocatedImage l := rfl

@[simp] theorem compatible_removeStagedUpdates (img : ImageHelper) (level : Nat) (size : Extents)
    (format : Format) :
    IsTextureLevelDefinitionCompatibleWithImage (img.removeStagedUpdates level) size format =
      IsTextureLevelDefinitionCompatibleWithImage img size format := rfl

@[simp] theorem compatible_removeSingle (img : ImageHelper) (level i n : Nat) (size : Extents)
    (format : Format) :
    IsTextureLevelDefinitionCompatibleWithImage
        (img.removeSingleSubresourceStagedUpdates level i n) size format =
      IsTextureLevelDefinitionCompatibleWithImage img size format := rfl

@[simp] theorem isInitialized_resetImage (ctx : ContextWgpu) (img : ImageHelper) :
    (img.resetImage ctx).2.isInitialized = false := rfl

@[simp] theorem mStagedUpdates_resetImage (ctx : ContextWgpu) (img : ImageHelper) :
    (img.resetImage ctx).2.mStagedUpdates = img.mStagedUpdates := rfl

/-- C1: for a mutable-format texture that owns a realized image, `redefineLevel` tears
the image down (its initialized flag becomes false) if and only if the level lies within
the allocated level range and the new definition is incompatible with the image; a
within-range redefinition with the extents and both format ids of the image, and every
outside-range redefinition, leave the image realized. -/
theorem redefineLevel_tears_down_iff (ctx : ContextWgpu) (t : TextureWgpu) (img : ImageHelper)
    (format : Format) (index : ImageIndex) (size : Extents)
    (himg : t.mImage = some img) (hown : t.mOwnsImage = true)
    (hinit : img.isInitialized = true) (hmut : t.mState.immutableFormat = false) :
    ((redefineLevel RendererUtils.spec ctx t format index size).2.2.imageInitialized = some false ↔
      (img.isTextureLevelInAllocatedImage index.levelIndex = true ∧
        IsTextureLevelDefinitionCompatibleWithImage img size format = false)) ∧
    (img.isTextureLevelInAllocatedImage index.levelIndex = true →
      size = img.getSize → format.intendedFormatID = img.getIntendedFormatID →
      format.actualImageFormatID = img.getActualFormatID →
      (redefineLevel RendererUtils.spec ctx t format index size).2.2.imageInitialized = some true) ∧
    (img.isTextureLevelInAllocatedImage index.levelIndex = false →
      (redefineLevel RendererUtils.spec ctx t format index size).2.2.imageInitialized = some true) := by
  have key : (redefineLevel RendererUtils.spec ctx t format index size).2.2.imageInitialized =
      some (!(img.isTextureLevelInAllocatedImage index.levelIndex &&
        !IsTextureLevelDefinitionCompatibleWithImage img size format)) := by
    unfold redefineLevel
    simp only [himg, hown]
    cases hl : index.hasLayer <;>
    cases hw : img.isTextureLevelInAllocatedImage index.levelIndex <;>
    cases hc : IsTextureLevelDefinitionCompatibleWithImage img size format <;>
    simp [hinit, hw, hc, hmut, RendererUtils.spec, specTextureRedefineLevel, imageInitialized]
  refine ⟨?_, ?_, ?_⟩
  · rw [key]
    cases img.isTextureLevelInAllocatedImage index.levelIndex <;>
    cases IsTextureLevelDefinitionCompatibleWithImage img size format <;> simp
  · intro hw hs hi ha
    rw [key, hw]
    simp [IsTextureLevelDefinitionCompatibleWithImage, hs, hi, ha]
  · intro hw
    rw [key, hw]
    simp

theorem redefineLevel_tears_down_iff_witness :
    (redefineLevel RendererUtils.spec ContextWgpu.reliable Example.realizedTexture ⟨7, 9⟩
        (Example.index2D 0) ⟨128, 128, 1⟩).2.2.imageInitialized = some false ∧
    (redefineLevel RendererUtils.spec ContextWgpu.reliable Example.realizedTexture ⟨7, 9⟩
        (Example.index2D 0) ⟨256, 256, 1⟩).2.2.imageInitialized = some true ∧
    (redefineLevel RendererUtils.spec ContextWgpu.reliable Example.realizedTexture ⟨7, 9⟩
        (Example.index2D 1) ⟨128, 128, 1⟩).2.2.imageInitialized = some true :=
  ⟨(redefineLevel_tears_down_iff ContextWgpu.reliable Example.realizedTexture
      Example.realizedImage ⟨7, 9⟩ (Example.index2D 0) ⟨128, 128, 1⟩ rfl rfl rfl rfl).1.mpr
      ⟨by decide, by decide⟩,
    (redefineLevel_tears_down_iff ContextWgpu.reliable Example.realizedTexture
      Example.realizedImage ⟨7, 9⟩ (Example.index2D 0) ⟨256, 256, 1⟩ rfl rfl rfl rfl).2.1
      (by decide) rfl rfl rfl,
    (redefineLevel_tears_down_iff ContextWgpu.reliable Example.realizedTexture
      Example.realizedImage ⟨7, 9⟩ (Example.index2D 1) ⟨128, 128, 1⟩ rfl rfl rfl rfl).2.2
      (by decide)⟩

/-- The staged updates `redefineLevel` leaves, whatever the redefinition tracker
decides: those of the image the texture owned, less the ones of the redefined
subresource; none at all when the texture did not own an image. -/
theorem redefineLevel_stagedUpdates (u : RendererUtils) (ctx : ContextWgpu) (t : TextureWgpu)
    (format : Format) (index : ImageIndex) (size : Extents) :
    (redefineLevel u ctx t format index size).2.2.stagedUpdates =
      if t.mOwnsImage then
        t.stagedUpdates.filter fun upd =>
          if index.hasLayer then
            !(decide (upd.level = index.levelIndex) && decide (upd.layerIndex = index.layerIndex) &&
              decide (upd.layerCount = index.layerCount))
          else
            !decide (upd.level = index.levelIndex)
      else [] := by
  unfold redefineLevel
  rcases himg : t.mImage with _ | img <;> rcases hown : t.mOwnsImage with _ | _ <;>
    simp only [himg, hown, stagedUpdates, setImageHelper, ImageHelper.new, List.filter_nil,
      if_true, if_false, Bool.false_eq_true]
  cases hl : index.hasLayer <;>
    simp only [hl, if_true, if_false, Bool.false_eq_true] <;>
    split_ifs <;>
    simp [ImageHelper.removeStagedUpdates, ImageHelper.removeSingleSubresourceStagedUpdates,
      ImageHelper.resetImage]

/-- C2: after `redefineLevel` the image of the texture holds no staged update of the
redefined subresource: with a layer in the index none for exactly (level, layerIndex,
layerCount), without a layer none of that level; and when the texture owned its image
every other staged update is still there, in its place. -/
theorem redefineLevel_discards_staged_updates (u : RendererUtils) (ctx : ContextWgpu)
    (t : TextureWgpu) (format : Format) (index : ImageIndex) (size : Extents) :
    (index.hasLayer = true →
      ∀ upd ∈ (redefineLevel u ctx t format index size).2.2.stagedUpdates,
        ¬(upd.level = index.levelIndex ∧ upd.layerIndex = index.layerIndex ∧
          upd.layerCount = index.layerCount)) ∧
    (index.hasLayer = false →
      ∀ upd ∈ (redefineLevel u ctx t format index size).2.2.stagedUpdates,
        upd.level ≠ index.levelIndex) ∧
    (t.mOwnsImage = true → index.hasLayer = true →
      (redefineLevel u ctx t format index size).2.2.stagedUpdates =
        t.stagedUpdates.filter fun upd =>
          !(decide (upd.level = index.levelIndex) && decide (upd.layerIndex = index.layerIndex) &&
            decide (upd.layerCount = index.layerCount))) ∧
    (t.mOwnsImage = true → index.hasLayer = false →
      (redefineLevel u ctx t format index size).2.2.stagedUpdates =
        t.stagedUpdates.filter fun upd => !decide (upd.level = index.levelIndex)) := by
  rw [redefineLevel_stagedUpdates]
  refine ⟨?_, ?_, ?_, ?_⟩
  · intro hl upd hmem
    cases hown : t.mOwnsImage <;> simp [hown, hl, List.mem_filter] at hmem
    tauto
  · intro hl upd hmem
    cases hown : t.mOwnsImage <;> simp [hown, hl, List.mem_filter] at hmem
    exact hmem.2
  · intro hown hl
    simp [hown, hl]
  · intro hown hl
    simp [hown, hl]

theorem redefineLevel_discards_staged_updates_witness :
    (redefineLevel RendererUtils.spec ContextWgpu.reliable Example.mipmapTexture ⟨7, 9⟩
        (Example.index2D 1) ⟨128, 128, 1⟩).2.2.stagedUpdates =
      [⟨0, 0, 1, 10⟩, ⟨2, 0, 1, 12⟩, ⟨3, 0, 1, 13⟩] :=
  ((redefineLevel_discards_staged_updates RendererUtils.spec ContextWgpu.reliable
    Example.mipmapTexture ⟨7, 9⟩ (Example.index2D 1) ⟨128, 128, 1⟩).2.2.2 rfl rfl).trans
    (by decide)

/-- The loop of `prepareForGenerateMipmap` over any list of levels removes the staged
updates of exactly those levels. -/
theorem foldlM_removeStagedUpdates (levels : List Nat) (t : TextureWgpu) (img : ImageHelper)
    (himg : t.mImage = some img) :
    levels.foldlM (fun t1 levelToRemove => t1.removeStagedUpdates levelToRemove) t =
      some { t with
        mImage := some { img with
          mStagedUpdates := img.mStagedUpdates.filter fun upd => !decide (upd.level ∈ levels) } } := by
  induction levels generalizing t img with
  | nil =>
    cases t
    simp only at himg
    subst himg
    simp
  | cons level rest ih =>
    have hstep : t.removeStagedUpdates level =
        some { t with mImage := some (img.removeStagedUpdates level) } := by
      simp [TextureWgpu.removeStagedUpdates, himg]
    rw [List.foldlM_cons, hstep]
    show List.foldlM _ _ rest = _
    rw [ih _ (img.removeStagedUpdates level) rfl]
    simp only [ImageHelper.removeStagedUpdates, List.filter_filter, List.mem_cons]
    congr 5
    funext upd
    by_cases h1 : upd.level = level <;> by_cases h2 : upd.level ∈ rest <;> simp [h1, h2]

/-- The staged updates `prepareForGenerateMipmap` leaves, whatever the redefinition
tracker does: it removes those of the levels `b, ..., m - 1` (effective base level `b`,
mipmap max level `m`) and keeps the rest, those of level `m` included. -/
theorem prepareForGenerateMipmap_stagedUpdates (u : RendererUtils) (ctx : ContextWgpu)
    (t : TextureWgpu) (img : ImageHelper) (himg : t.mImage = some img) :
    (prepareForGenerateMipmap u ctx t).map (fun out => out.2.stagedUpdates) =
      some (img.mStagedUpdates.filter fun upd =>
        !decide (t.mState.effectiveBaseLevel ≤ upd.level ∧ upd.level < t.mState.mipmapMaxLevel)) := by
  unfold prepareForGenerateMipmap
  rw [foldlM_removeStagedUpdates _ t img himg]
  have hfilter : (img.mStagedUpdates.filter fun upd => !decide (upd.level ∈ t.levelsToRemove)) =
      img.mStagedUpdates.filter fun upd =>
        !decide (t.mState.effectiveBaseLevel ≤ upd.level ∧ upd.level < t.mState.mipmapMaxLevel) := by
    congr 1
    funext upd
    simp only [levelsToRemove, List.mem_range'_1]
    congr 1
    apply decide_eq_decide.mpr
    constructor
    · rintro ⟨h1, h2⟩
      exact ⟨h1, by omega⟩
    · rintro ⟨h1, h2⟩
      exact ⟨h1, by omega⟩
  simp only [hfilter]
  split_ifs <;> simp [TextureWgpu.resetImage, ImageHelper.resetImage, stagedUpdates]

/-- C3: the code at base level 0 and mipmap max level 3, with one staged update on
each of the levels 0, 1, 2 and 3: `prepareForGenerateMipmap` discards the updates of
the levels 0, 1 and 2, the base level among them, and keeps the update of level 3. -/
theorem prepareForGenerateMipmap_discards_base_keeps_max :
    (prepareForGenerateMipmap RendererUtils.spec ContextWgpu.reliable Example.mipmapTexture).map
        (fun out => out.2.stagedUpdates) = some [⟨3, 0, 1, 13⟩] :=
  (prepareForGenerateMipmap_stagedUpdates RendererUtils.spec ContextWgpu.reliable
    Example.mipmapTexture _ rfl).trans (by decide)

/-- C5: the code on the two scenarios in which the image is torn down between two
acquisitions of the render target of level 0: the second acquisition succeeds and
returns the cache entry whose view was created on native texture 1, while the image of
the texture has since been reallocated as another native texture (teardown by
`redefineLevel` in the first scenario, by `respecifyImageStorageIfNecessary` in the
second); two images were allocated and only one view was ever created. -/
theorem getAttachmentRenderTarget_returns_stale_view :
    Example.acquireRedefineAcquire.map Example.observe =
      some (Result.Continue, some 1, some 4, 2, 1) ∧
    Example.acquireRespecifyAcquire.map Example.observe =
      some (Result.Continue, some 1, some 5, 2, 1) := by
  constructor <;> decide

/-- C7: for a texture whose image is not realized, `initializeImage` requests a native
image whose mip level count is `getMipLevelCount(mode)`, and on success the image has
that many levels; `getMipLevelCount` is the enabled-level count for `EnabledLevels` and,
for `FullMipChainForGenerateMipmap`, `(mipmap max level + 1) - effective base level`
whenever the effective base level is at most the mipmap max level (and the max level
plus one fits the `uint32_t` the code computes in); with a realized image
`initializeImage` allocates nothing and returns success. -/
theorem initializeImage_requests_mip_level_count (ctx : ContextWgpu) (t : TextureWgpu)
    (img : ImageHelper) (mipLevels : ImageMipLevels) (himg : t.mImage = some img) :
    (img.isInitialized = false →
      ∃ size r t1,
        initializeImage ctx t mipLevels =
          some (r, ctx.emit (Event.initImage t.mState.effectiveBaseLevel
            (t.getMipLevelCount mipLevels) size (ctx.initImageOk ctx.trace)), t1) ∧
        (r = Result.Continue ↔ ctx.initImageOk ctx.trace = true) ∧
        (ctx.initImageOk ctx.trace = true →
          t1.mImage.map ImageHelper.getLevelCount = some (t.getMipLevelCount mipLevels) ∧
          t1.imageInitialized = some true)) ∧
    t.getMipLevelCount ImageMipLevels.EnabledLevels = t.mState.enabledLevelCount ∧
    (t.mState.effectiveBaseLevel ≤ t.mState.mipmapMaxLevel →
      t.mState.mipmapMaxLevel + 1 < 2 ^ 32 →
      t.getMipLevelCount ImageMipLevels.FullMipChainForGenerateMipmap =
        t.mState.mipmapMaxLevel + 1 - t.mState.effectiveBaseLevel) ∧
    (img.isInitialized = true → initializeImage ctx t mipLevels = some (Result.Continue, ctx, t)) := by
  refine ⟨?_, rfl, ?_, ?_⟩
  · intro hinit
    unfold initializeImage
    simp only [himg, hinit, Bool.false_eq_true, if_false]
    unfold ImageHelper.initImage
    cases hok : ctx.initImageOk ctx.trace
    · exact ⟨_, _, _, rfl, by simp, by simp⟩
    · exact ⟨_, _, _, rfl, by simp, fun _ => ⟨rfl, rfl⟩⟩
  · intro hle hlt
    simp only [getMipLevelCount, getMaxLevelCount]
    have h1 : (t.mState.mipmapMaxLevel + 1) % 2 ^ 32 = t.mState.mipmapMaxLevel + 1 :=
      Nat.mod_eq_of_lt hlt
    have h2 : t.mState.effectiveBaseLevel % 2 ^ 32 = t.mState.effectiveBaseLevel :=
      Nat.mod_eq_of_lt (by omega)
    rw [h1, h2]
    have h3 : t.mState.mipmapMaxLevel + 1 + (2 ^ 32 - t.mState.effectiveBaseLevel) =
        (t.mState.mipmapMaxLevel + 1 - t.mState.effectiveBaseLevel) + 2 ^ 32 := by omega
    rw [h3, Nat.add_mod_right]
    exact Nat.mod_eq_of_lt (by omega)
  · intro hinit
    simp [initializeImage, himg, hinit]

theorem initializeImage_requests_mip_level_count_witness :
    Example.mipmapTexture.getMipLevelCount ImageMipLevels.FullMipChainForGenerateMipmap = 4 ∧
    initializeImage ContextWgpu.reliable Example.mipmapTexture
        ImageMipLevels.FullMipChainForGenerateMipmap =
      some (Result.Continue, ContextWgpu.reliable, Example.mipmapTexture) :=
  ⟨(initializeImage_requests_mip_level_count ContextWgpu.reliable Example.mipmapTexture _
      ImageMipLevels.FullMipChainForGenerateMipmap rfl).2.2.1 (by decide) (by decide),
    (initializeImage_requests_mip_level_count ContextWgpu.reliable Example.mipmapTexture _
      ImageMipLevels.FullMipChainForGenerateMipmap rfl).2.2.2 rfl⟩

/-- C10: `syncState` runs `respecifyImageStorageIfNecessary`, `initializeImage` and the
flush of the staged updates in that order, each on what the step before left; it
succeeds if and only if all three succeed, and when one fails it returns that failure
with the context and texture exactly as the failing step left them, so that no later
step has run: after a failed allocation the last backend operation requested is that
allocation. -/
theorem syncState_succeeds_iff (u : RendererUtils) (ctx : ContextWgpu) (t : TextureWgpu)
    (source : Command) :
    (∀ ctx3 t3, syncState u ctx t source = some (Result.Continue, ctx3, t3) ↔
      ∃ ctx1 t1 ctx2 t2,
        respecifyImageStorageIfNecessary u ctx t source = some (Result.Continue, ctx1, t1) ∧
        initializeImage ctx1 t1
            (if source == Command.GenerateMipmap then ImageMipLevels.FullMipChainForGenerateMipmap
              else ImageMipLevels.EnabledLevels) = some (Result.Continue, ctx2, t2) ∧
        t2.flushStagedUpdates ctx2 = some (Result.Continue, ctx3, t3)) ∧
    (∀ ctx1 t1, respecifyImageStorageIfNecessary u ctx t source = some (Result.Stop, ctx1, t1) →
      syncState u ctx t source = some (Result.Stop, ctx1, t1)) ∧
    (∀ ctx1 t1 ctx2 t2,
      respecifyImageStorageIfNecessary u ctx t source = some (Result.Continue, ctx1, t1) →
      initializeImage ctx1 t1
          (if source == Command.GenerateMipmap then ImageMipLevels.FullMipChainForGenerateMipmap
            else ImageMipLevels.EnabledLevels) = some (Result.Stop, ctx2, t2) →
      syncState u ctx t source = some (Result.Stop, ctx2, t2) ∧
      ∃ firstLevel levelCount size,
        ctx2.trace = ctx1.trace ++ [Event.initImage firstLevel levelCount size false]) ∧
    (∀ ctx1 t1 ctx2 t2 ctx3 t3,
      respecifyImageStorageIfNecessary u ctx t source = some (Result.Continue, ctx1, t1) →
      initializeImage ctx1 t1
          (if source == Command.GenerateMipmap then ImageMipLevels.FullMipChainForGenerateMipmap
            else ImageMipLevels.EnabledLevels) = some (Result.Continue, ctx2, t2) →
      t2.flushStagedUpdates ctx2 = some (Result.Stop, ctx3, t3) →
      syncState u ctx t source = some (Result.Stop, ctx3, t3)) := by
  refine ⟨?_, ?_, ?_, ?_⟩
  · intro ctx3 t3
    constructor
    · intro h
      obtain ⟨⟨ctx1, t1⟩, h1, h⟩ := (angleTry_eq_continue _ _ _ _).mp h
      obtain ⟨⟨ctx2, t2⟩, h2, h⟩ := (angleTry_eq_continue _ _ _ _).mp h
      obtain ⟨⟨ctx3b, t3b⟩, h3, h⟩ := (angleTry_eq_continue _ _ _ _).mp h
      simp only [Option.some.injEq, Prod.mk.injEq, true_and] at h
      obtain ⟨rfl, rfl⟩ := h
      exact ⟨ctx1, t1, ctx2, t2, h1, h2, h3⟩
    · rintro ⟨ctx1, t1, ctx2, t2, h1, h2, h3⟩
      simp only [syncState, angleTry, h1, h2, h3]
  · intro ctx1 t1 h1
    simp only [syncState, angleTry, h1, id]
  · intro ctx1 t1 ctx2 t2 h1 h2
    refine ⟨by simp only [syncState, angleTry, h1, h2, id], ?_⟩
    unfold initializeImage at h2
    rcases himg : t1.mImage with _ | img
    · simp [himg] at h2
    · simp only [himg] at h2
      by_cases hi : img.isInitialized = true
      · simp [hi] at h2
      · simp only [hi, if_false, Bool.false_eq_true] at h2
        unfold ImageHelper.initImage at h2
        by_cases hok : ctx1.initImageOk ctx1.trace = true
        · simp [hok] at h2
        · simp only [hok, if_false, Bool.false_eq_true, Option.some.injEq, Prod.mk.injEq,
            true_and] at h2
          rw [← h2.1]
          exact ⟨_, _, _, rfl⟩
  · intro ctx1 t1 ctx2 t2 ctx3 t3 h1 h2 h3
    simp only [syncState, angleTry, h1, h2, h3, id]

/-- C10 at a backend that fails every allocation: `syncState` on a fresh texture
returns the failure, and the trace holds the failed allocation and no flush. -/
theorem syncState_succeeds_iff_witness :
    (syncState RendererUtils.spec Example.ctxAllocationFails (TextureWgpu.create Example.state2D)
        Command.Draw).map (fun out => (out.1, out.2.1.trace)) =
      some (Result.Stop, [Event.initImage 0 1 ⟨256, 256, 1⟩ false]) :=
  congrArg (Option.map fun out => (out.1, out.2.1.trace))
    ((syncState_succeeds_iff RendererUtils.spec Example.ctxAllocationFails
      (TextureWgpu.create Example.state2D) Command.Draw).2.2.1
      Example.ctxAllocationFails (TextureWgpu.create Example.state2D)
      (Example.ctxAllocationFails.emit (Event.initImage 0 1 ⟨256, 256, 1⟩ false))
      (TextureWgpu.create Example.state2D) (by rfl) (by rfl)).1

/-! ### The lazy allocation path on a texture with nothing to respecify -/

theorem foldlM_removeStagedUpdates_frame (levels : List Nat) (t t1 : TextureWgpu)
    (h : levels.foldlM (fun t1 levelToRemove => t1.removeStagedUpdates levelToRemove) t = some t1) :
    t1.mSingleLayerRenderTargets = t.mSingleLayerRenderTargets ∧ t1.mState = t.mState ∧
    t1.mRedefinedLevels = t.mRedefinedLevels ∧ t1.mOwnsImage = t.mOwnsImage ∧
    t1.mCurrentBaseLevel = t.mCurrentBaseLevel ∧ t1.mCurrentMaxLevel = t.mCurrentMaxLevel ∧
    t1.mImage.map ImageHelper.allocation = t.mImage.map ImageHelper.allocation := by
  rcases himg : t.mImage with _ | img
  · cases levels with
    | nil =>
      simp only [List.foldlM_nil, Option.pure_def, Option.some.injEq] at h
      subst h
      simp [himg]
    | cons level rest =>
      rw [List.foldlM_cons] at h
      simp [TextureWgpu.removeStagedUpdates, himg] at h
  · rw [foldlM_removeStagedUpdates levels t img himg] at h
    simp only [Option.some.injEq] at h
    subst h
    simp [ImageHelper.allocation]

theorem prepareForGenerateMipmap_frame {u : RendererUtils} {ctx ctx1 : ContextWgpu}
    {t t1 : TextureWgpu} (h : prepareForGenerateMipmap u ctx t = some (ctx1, t1)) :
    CacheFrame ctx t ctx1 t1 := by
  unfold prepareForGenerateMipmap at h
  rcases hf : t.levelsToRemove.foldlM
      (fun t1 levelToRemove => t1.removeStagedUpdates levelToRemove) t with _ | t2
  · simp [hf] at h
  · have hfr := foldlM_removeStagedUpdates_frame _ _ _ hf
    simp only [hf] at h
    split_ifs at h
    · have := resetImage_frame h
      exact ⟨this.1.trans hfr.1, this.2.1.trans hfr.2.1, this.2.2⟩
    · simp only [Option.some.injEq, Prod.mk.injEq] at h
      obtain ⟨rfl, rfl⟩ := h
      exact ⟨hfr.1, hfr.2.1, imageOpsOnly_refl _⟩

theorem respecifyImageStorageIfNecessary_frame {u : RendererUtils} {ctx ctx1 : ContextWgpu}
    {t t1 : TextureWgpu} {source : Command} {r : Result}
    (h : respecifyImageStorageIfNecessary u ctx t source = some (r, ctx1, t1)) :
    CacheFrame ctx t ctx1 t1 := by
  unfold respecifyImageStorageIfNecessary at h
  dsimp only at h
  have hp : ∀ ctx2 t2,
      (if (source == Command.GenerateMipmap) = true then prepareForGenerateMipmap u ctx t
        else some (ctx, t)) = some (ctx2, t2) → CacheFrame ctx t ctx2 t2 := by
    intro ctx2 t2 h2
    split_ifs at h2
    · exact prepareForGenerateMipmap_frame h2
    · simp only [Option.some.injEq, Prod.mk.injEq] at h2
      obtain ⟨rfl, rfl⟩ := h2
      exact cacheFrame_refl _ _
  rcases hpre : (if (source == Command.GenerateMipmap) = true then prepareForGenerateMipmap u ctx t
      else some (ctx, t)) with _ | ⟨ctx2, t2⟩
  · rw [hpre] at h
    simp at h
  · have f1 := hp ctx2 t2 hpre
    rw [hpre] at h
    simp only at h
    rcases (angleTry_eq_some _ _ _ _).mp h with ⟨⟨ctx3, t3⟩, h1, h2⟩ | ⟨⟨ctx3, t3⟩, h1, h2⟩
    · simp only [id, Prod.mk.injEq] at h2
      obtain ⟨-, rfl, rfl⟩ := h2
      exact cacheFrame_trans f1 (maybeUpdateBaseMaxLevels_frame h1)
    · have f2 := cacheFrame_trans f1 (maybeUpdateBaseMaxLevels_frame h1)
      simp only at h2
      rcases (angleTry_eq_some _ _ _ _).mp h2 with ⟨⟨ctx4, t4⟩, h3, h4⟩ | ⟨⟨ctx4, t4⟩, h3, h4⟩
      · simp only [id, Prod.mk.injEq] at h4
        obtain ⟨-, rfl, rfl⟩ := h4
        split_ifs at h3
        · exact cacheFrame_trans f2 (flushThenReset_frame h3)
        · simp at h3
      · have f3 : CacheFrame ctx3 t3 ctx4 t4 := by
          split_ifs at h3
          · exact flushThenReset_frame h3
          · simp only [Option.some.injEq, Prod.mk.injEq, true_and] at h3
            obtain ⟨rfl, rfl⟩ := h3
            exact cacheFrame_refl _ _
        simp only at h4
        split_ifs at h4
        · exact cacheFrame_trans (cacheFrame_trans f2 f3) (flushThenReset_frame h4)
        · simp only [Option.some.injEq, Prod.mk.injEq] at h4
          obtain ⟨-, rfl, rfl⟩ := h4
          exact cacheFrame_trans f2 f3

/-! ### The render-target cache -/

theorem initSingleLayerRenderTargets_cached (ctx : ContextWgpu) (t : TextureWgpu)
    (layerCount levelIndex : Nat) (renderToTextureIndex : RenderToTextureImageIndex)
    (hrow : (t.mSingleLayerRenderTargets renderToTextureIndex).getD levelIndex [] ≠ []) :
    initSingleLayerRenderTargets ctx t layerCount levelIndex renderToTextureIndex =
      some (Result.Continue, ctx, t) := by
  have hlen : ¬ (t.mSingleLayerRenderTargets renderToTextureIndex).length ≤ levelIndex := by
    intro hle
    apply hrow
    rw [List.getD_eq_default _ _ hle]
  have hne : ((t.mSingleLayerRenderTargets renderToTextureIndex).getD levelIndex []).isEmpty
      = false := by
    cases hr : (t.mSingleLayerRenderTargets renderToTextureIndex).getD levelIndex [] with
    | nil => exact absurd hr hrow
    | cons a l => rfl
  unfold initSingleLayerRenderTargets
  simp only [hlen, if_false, hne, Bool.not_false, if_true, Function.update_eq_self]

/-- The steps of `getAttachmentRenderTarget`, read off a result it returned. -/
theorem getAttachmentRenderTarget_inv {u : RendererUtils} {ctx : ContextWgpu} {t : TextureWgpu}
    {binding : Nat} {imageIndex : ImageIndex} {samples : Int} {out : AttachmentRenderTarget}
    (h : getAttachmentRenderTarget u ctx t binding imageIndex samples = some out) :
    ∃ r1 ctx1 t1, respecifyImageStorageIfNecessary u ctx t Command.Draw = some (r1, ctx1, t1) ∧
      ((r1 = Result.Stop ∧ out = ⟨Result.Stop, ctx1, t1, none⟩) ∨
       (r1 = Result.Continue ∧ ∃ img1 r2 ctx2 t2, t1.mImage = some img1 ∧
          (if !img1.isInitialized then initializeImage ctx1 t1 ImageMipLevels.EnabledLevels
            else some (Result.Continue, ctx1, t1)) = some (r2, ctx2, t2) ∧
          ((r2 = Result.Stop ∧ out = ⟨Result.Stop, ctx2, t2, none⟩) ∨
           (r2 = Result.Continue ∧ ∃ layerIndex layerCount imageLayerCount unimplemented,
              GetRenderTargetLayerCountAndIndex t2.mImage imageIndex 0 =
                some (layerIndex, layerCount, imageLayerCount, unimplemented) ∧
              ((layerCount ≠ 1 ∧
                  out = ⟨Result.Continue,
                    (if unimplemented then ctx2.emit Event.unimplemented else ctx2).emit
                      Event.unimplemented, t2, none⟩) ∨
               (layerCount = 1 ∧ ∃ r4 ctx4 t4,
                  initSingleLayerRenderTargets
                      (if unimplemented then ctx2.emit Event.unimplemented else ctx2) t2
                      imageLayerCount imageIndex.levelIndex RenderToTextureImageIndex.Default =
                    some (r4, ctx4, t4) ∧
                  ((r4 = Result.Stop ∧ out = ⟨Result.Stop, ctx4, t4, none⟩) ∨
                   (r4 = Result.Continue ∧
                      out = ⟨Result.Continue, ctx4, t4,
                        some ⟨RenderToTextureImageIndex.Default, imageIndex.levelIndex,
                          layerIndex⟩⟩)))))))) := by
  unfold getAttachmentRenderTarget at h
  rcases h1 : respecifyImageStorageIfNecessary u ctx t Command.Draw with _ | ⟨r1, ctx1, t1⟩
  · rw [h1] at h
    simp at h
  rw [h1] at h
  refine ⟨r1, ctx1, t1, rfl, ?_⟩
  cases r1
  swap
  · simp only [Option.some.injEq] at h
    exact Or.inl ⟨rfl, h.symm⟩
  refine Or.inr ⟨rfl, ?_⟩
  simp only at h
  rcases himg : t1.mImage with _ | img1
  · rw [himg] at h
    simp at h
  rw [himg] at h
  simp only at h
  rcases h2 : (if !img1.isInitialized then initializeImage ctx1 t1 ImageMipLevels.EnabledLevels
      else some (Result.Continue, ctx1, t1)) with _ | ⟨r2, ctx2, t2⟩
  · rw [h2] at h
    simp at h
  rw [h2] at h
  refine ⟨img1, r2, ctx2, t2, rfl, h2, ?_⟩
  cases r2
  swap
  · simp only [Option.some.injEq] at h
    exact Or.inl ⟨rfl, h.symm⟩
  refine Or.inr ⟨rfl, ?_⟩
  simp only at h
  rcases h3 : GetRenderTargetLayerCountAndIndex t2.mImage imageIndex 0 with
    _ | ⟨layerIndex, layerCount, imageLayerCount, unimplemented⟩
  · rw [h3] at h
    simp at h
  rw [h3] at h
  refine ⟨layerIndex, layerCount, imageLayerCount, unimplemented, rfl, ?_⟩
  simp only at h
  by_cases hlc : layerCount = 1
  swap
  · rw [if_neg hlc] at h
    simp only [Option.some.injEq] at h
    exact Or.inl ⟨hlc, h.symm⟩
  rw [if_pos hlc] at h
  refine Or.inr ⟨hlc, ?_⟩
  rcases h4 : initSingleLayerRenderTargets
      (if unimplemented then ctx2.emit Event.unimplemented else ctx2) t2
      imageLayerCount imageIndex.levelIndex RenderToTextureImageIndex.Default with
    _ | ⟨r4, ctx4, t4⟩
  · rw [h4] at h
    simp at h
  rw [h4] at h
  refine ⟨r4, ctx4, t4, rfl, ?_⟩
  cases r4
  · simp only [Option.some.injEq] at h
    exact Or.inr ⟨rfl, h.symm⟩
  · simp only [Option.some.injEq] at h
    exact Or.inl ⟨rfl, h.symm⟩

/-- The layer index `GetRenderTargetLayerCountAndIndex` resolves is read off the index
alone. -/
theorem GetRenderTargetLayerCountAndIndex_layerIndex {image : Option ImageHelper}
    {index : ImageIndex} {n layerIndex layerCount imageLayerCount : Nat} {unimplemented : Bool}
    (h : GetRenderTargetLayerCountAndIndex image index n =
      some (layerIndex, layerCount, imageLayerCount, unimplemented)) :
    layerIndex = if index.hasLayer then index.layerIndex else 0 := by
  unfold GetRenderTargetLayerCountAndIndex at h
  simp only [Option.map_eq_some', Prod.exists] at h
  obtain ⟨a, b, -, hab⟩ := h
  split_ifs at hab <;> simp only [Prod.mk.injEq] at hab <;> rw [← hab.1] <;> simp [*]

theorem viewsCreated_emit_unimplemented (ctx : ContextWgpu) :
    (ctx.emit Event.unimplemented).viewsCreated = ctx.viewsCreated := by
  simp [ContextWgpu.emit, ContextWgpu.viewsCreated]

theorem getAttachmentRenderTarget_rtOut {u : RendererUtils} {ctx : ContextWgpu} {t : TextureWgpu}
    {binding : Nat} {imageIndex : ImageIndex} {samples : Int} {out : AttachmentRenderTarget}
    {ref : RenderTargetRef}
    (h : getAttachmentRenderTarget u ctx t binding imageIndex samples = some out)
    (href : out.rtOut = some ref) :
    ref = ⟨RenderToTextureImageIndex.Default, imageIndex.levelIndex,
      if imageIndex.hasLayer then imageIndex.layerIndex else 0⟩ := by
  obtain ⟨r1, ctx1, t1, -, hc⟩ := getAttachmentRenderTarget_inv h
  rcases hc with ⟨-, rfl⟩ | ⟨-, img1, r2, ctx2, t2, -, -, hc⟩
  · simp at href
  rcases hc with ⟨-, rfl⟩ | ⟨-, li, lc, ilc, un, h3, hc⟩
  · simp at href
  rcases hc with ⟨-, rfl⟩ | ⟨-, r4, ctx4, t4, -, hc⟩
  · simp at href
  rcases hc with ⟨-, rfl⟩ | ⟨-, rfl⟩
  · simp at href
  · simp only [Option.some.injEq] at href
    rw [← href, GetRenderTargetLayerCountAndIndex_layerIndex h3]

theorem renderTargetAt_row {t : TextureWgpu} {ref : RenderTargetRef} {rt : RenderTargetWgpu}
    (h : t.renderTargetAt ref = some rt) :
    (t.mSingleLayerRenderTargets ref.selector).getD ref.level [] ≠ [] := by
  intro hnil
  unfold renderTargetAt at h
  rw [hnil] at h
  simp at h

/-- An acquisition on a texture whose cache row of the level is not empty leaves the
cache as it is and creates no view. -/
theorem getAttachmentRenderTarget_cached {u : RendererUtils} {ctx : ContextWgpu} {t : TextureWgpu}
    {binding : Nat} {imageIndex : ImageIndex} {samples : Int} {out : AttachmentRenderTarget}
    (hrow : (t.mSingleLayerRenderTargets RenderToTextureImageIndex.Default).getD
      imageIndex.levelIndex [] ≠ [])
    (h : getAttachmentRenderTarget u ctx t binding imageIndex samples = some out) :
    out.texture.mSingleLayerRenderTargets = t.mSingleLayerRenderTargets ∧
      out.ctx.viewsCreated = ctx.viewsCreated := by
  obtain ⟨r1, ctx1, t1, h1, hc⟩ := getAttachmentRenderTarget_inv h
  have f1 := respecifyImageStorageIfNecessary_frame h1
  rcases hc with ⟨-, rfl⟩ | ⟨-, img1, r2, ctx2, t2, -, h2, hc⟩
  · exact ⟨f1.1, imageOpsOnly_viewsCreated f1.2.2⟩
  have f2 : CacheFrame ctx1 t1 ctx2 t2 := by
    split_ifs at h2
    · exact initializeImage_frame h2
    · simp only [Option.some.injEq, Prod.mk.injEq] at h2
      obtain ⟨-, rfl, rfl⟩ := h2
      exact cacheFrame_refl _ _
  have f := cacheFrame_trans f1 f2
  have hv3 : ∀ un : Bool,
      (if un then ctx2.emit Event.unimplemented else ctx2).viewsCreated = ctx.viewsCreated := by
    intro un
    cases un
    · simpa using imageOpsOnly_viewsCreated f.2.2
    · simpa [viewsCreated_emit_unimplemented] using imageOpsOnly_viewsCreated f.2.2
  rcases hc with ⟨-, rfl⟩ | ⟨-, li, lc, ilc, un, h3, hc⟩
  · exact ⟨f.1, imageOpsOnly_viewsCreated f.2.2⟩
  rcases hc with ⟨-, rfl⟩ | ⟨-, r4, ctx4, t4, h4, hc⟩
  · exact ⟨f.1, by rw [viewsCreated_emit_unimplemented]; exact hv3 un⟩
  have hrow2 : (t2.mSingleLayerRenderTargets RenderToTextureImageIndex.Default).getD
      imageIndex.levelIndex [] ≠ [] := by
    rw [f.1]
    exact hrow
  rw [initSingleLayerRenderTargets_cached _ _ _ _ _ hrow2] at h4
  simp only [Option.some.injEq, Prod.mk.injEq] at h4
  obtain ⟨rfl, rfl, rfl⟩ := h4
  rcases hc with ⟨hr, -⟩ | ⟨-, rfl⟩
  · cases hr
  · exact ⟨f.1, hv3 un⟩

/-- C6: when the cache row of a selector and level is not empty,
`initSingleLayerRenderTargets` returns success with the context and the texture as they
were: it creates no view and leaves the whole cache unchanged. Hence of two acquisitions
of the same (level, layer) in a row, of which the first returned a cache entry, the
second returns the same pointer and the same entry, creates no view and leaves the
cache unchanged. -/
theorem initSingleLayerRenderTargets_reuses_cache :
    (∀ (ctx : ContextWgpu) (t : TextureWgpu) (layerCount levelIndex : Nat)
        (renderToTextureIndex : RenderToTextureImageIndex),
      (t.mSingleLayerRenderTargets renderToTextureIndex).getD levelIndex [] ≠ [] →
      initSingleLayerRenderTargets ctx t layerCount levelIndex renderToTextureIndex =
        some (Result.Continue, ctx, t)) ∧
    (∀ (u : RendererUtils) (ctx : ContextWgpu) (t : TextureWgpu) (binding : Nat)
        (imageIndex : ImageIndex) (samples : Int) (out1 out2 : AttachmentRenderTarget)
        (ref1 ref2 : RenderTargetRef) (rt : RenderTargetWgpu),
      getAttachmentRenderTarget u ctx t binding imageIndex samples = some out1 →
      out1.rtOut = some ref1 → out1.texture.renderTargetAt ref1 = some rt →
      getAttachmentRenderTarget u out1.ctx out1.texture binding imageIndex samples = some out2 →
      out2.rtOut = some ref2 →
      ref2 = ref1 ∧ out2.texture.renderTargetAt ref2 = some rt ∧
        out2.ctx.viewsCreated = out1.ctx.viewsCreated ∧
        out2.texture.mSingleLayerRenderTargets = out1.texture.mSingleLayerRenderTargets) := by
  refine ⟨initSingleLayerRenderTargets_cached, ?_⟩
  intro u ctx t binding imageIndex samples out1 out2 ref1 ref2 rt h1 href1 hrt h2 href2
  have e1 := getAttachmentRenderTarget_rtOut h1 href1
  have e2 := getAttachmentRenderTarget_rtOut h2 href2
  have hrow := renderTargetAt_row hrt
  rw [e1] at hrow
  have hc := getAttachmentRenderTarget_cached hrow h2
  refine ⟨e2.trans e1.symm, ?_, hc.2, hc.1⟩
  rw [e2, ← e1]
  unfold renderTargetAt at hrt ⊢
  rw [hc.1]
  exact hrt

theorem initSingleLayerRenderTargets_reuses_cache_witness :
    initSingleLayerRenderTargets ContextWgpu.reliable Example.cachedTexture 1 0
        RenderToTextureImageIndex.Default =
      some (Result.Continue, ContextWgpu.reliable, Example.cachedTexture) ∧
    Example.acquireTwice =
      some ((some ⟨0, 0, 0⟩, some ⟨some ⟨1, 0, 0⟩, 0, 0, 9⟩, 1),
        (some ⟨0, 0, 0⟩, some ⟨some ⟨1, 0, 0⟩, 0, 0, 9⟩, 1)) :=
  ⟨initSingleLayerRenderTargets_reuses_cache.1 ContextWgpu.reliable Example.cachedTexture 1 0
      RenderToTextureImageIndex.Default (by decide), by decide⟩

/-! ### Immutable-format textures -/

theorem allocation_eq {img img1 : ImageHelper} (h : img1.allocation = img.allocation) :
    img1.mInitialized = img.mInitialized ∧ img1.mTexture = img.mTexture ∧
    img1.mFirstAllocatedLevel = img.mFirstAllocatedLevel ∧ img1.mLevelCount = img.mLevelCount := by
  cases img
  cases img1
  simp only [ImageHelper.allocation, ImageHelper.mk.injEq] at h
  simp [h]

theorem maybeUpdateBaseMaxLevels_immutable (ctx : ContextWgpu) (t : TextureWgpu)
    (img : ImageHelper) (himg : t.mImage = some img) (hinit : img.isInitialized = true)
    (himm : t.mState.immutableFormat = true) :
    ∃ t1, maybeUpdateBaseMaxLevels ctx t = some (Result.Continue, ctx, t1) ∧
      t1.mImage = some img ∧ t1.mState = t.mState ∧ t1.mRedefinedLevels = t.mRedefinedLevels ∧
      t1.mSingleLayerRenderTargets = t.mSingleLayerRenderTargets := by
  unfold maybeUpdateBaseMaxLevels
  simp only [himg, hinit, himm, Bool.not_true, Bool.false_eq_true, if_false, if_true]
  split_ifs
  · exact ⟨_, rfl, himg, rfl, rfl, rfl⟩
  · exact ⟨_, rfl, rfl, rfl, rfl, rfl⟩

theorem prepareForGenerateMipmap_not_redefined (u : RendererUtils) (ctx : ContextWgpu)
    (t : TextureWgpu) (img : ImageHelper) (himg : t.mImage = some img)
    (hbase : u.IsTextureLevelRedefined (t.redefinedLevelsAtCheck u Command.GenerateMipmap)
      t.mState.type t.mState.effectiveBaseLevel = false) :
    ∃ t1 img1, prepareForGenerateMipmap u ctx t = some (ctx, t1) ∧ t1.mImage = some img1 ∧
      img1.allocation = img.allocation ∧ t1.mState = t.mState ∧
      t1.mRedefinedLevels = t.redefinedLevelsAtCheck u Command.GenerateMipmap ∧
      t1.mSingleLayerRenderTargets = t.mSingleLayerRenderTargets := by
  unfold prepareForGenerateMipmap
  rw [foldlM_removeStagedUpdates _ t img himg]
  simp only [redefinedLevelsAtCheck, beq_self_eq_true, if_true] at hbase
  simp only [hbase, Bool.false_eq_true, if_false]
  exact ⟨_, _, rfl, rfl, rfl, rfl, by simp [redefinedLevelsAtCheck], rfl⟩

theorem respecifyImageStorageIfNecessary_immutable (u : RendererUtils) (ctx : ContextWgpu)
    (t : TextureWgpu) (img : ImageHelper) (source : Command) (himg : t.mImage = some img)
    (hinit : img.isInitialized = true) (himm : t.mState.immutableFormat = true)
    (hn : t.NothingToRespecify u img source) :
    ∃ t1 img1, respecifyImageStorageIfNecessary u ctx t source = some (Result.Continue, ctx, t1) ∧
      t1.mImage = some img1 ∧ img1.allocation = img.allocation ∧ t1.mState = t.mState ∧
      t1.mSingleLayerRenderTargets = t.mSingleLayerRenderTargets := by
  obtain ⟨hany, hbase, hcount⟩ := hn
  have hpre : ∃ tp imgp,
      (if (source == Command.GenerateMipmap) = true then prepareForGenerateMipmap u ctx t
        else some (ctx, t)) = some (ctx, tp) ∧ tp.mImage = some imgp ∧
      imgp.allocation = img.allocation ∧ tp.mState = t.mState ∧
      tp.mRedefinedLevels = t.redefinedLevelsAtCheck u source ∧
      tp.mSingleLayerRenderTargets = t.mSingleLayerRenderTargets := by
    by_cases hs : source = Command.GenerateMipmap
    · subst hs
      simp only [beq_self_eq_true, if_true]
      exact prepareForGenerateMipmap_not_redefined u ctx t img himg (hbase rfl)
    · have hb : (source == Command.GenerateMipmap) = false := by simpa using hs
      simp only [hb, Bool.false_eq_true, if_false]
      exact ⟨t, img, rfl, himg, rfl, rfl, by simp [redefinedLevelsAtCheck, hb], rfl⟩
  obtain ⟨tp, imgp, hp, hpimg, hpalloc, hpstate, hpmask, hpcache⟩ := hpre
  have hpa := allocation_eq hpalloc
  have hpinit : imgp.isInitialized = true := by
    have : imgp.mInitialized = img.mInitialized := hpa.1
    exact this.trans hinit
  obtain ⟨tm, hm, hmimg, hmstate, hmmask, hmcache⟩ :=
    maybeUpdateBaseMaxLevels_immutable ctx tp imgp hpimg hpinit (by rw [hpstate]; exact himm)
  have himm2 : tm.mState.immutableFormat = true := by rw [hmstate, hpstate]; exact himm
  have hany2 : u.TextureHasAnyRedefinedLevels tm.mRedefinedLevels = false := by
    rw [hmmask, hpmask]; exact hany
  have hfilter : (!(source == Command.GenerateMipmap) && imgp.isInitialized &&
      decide (imgp.getLevelCount < tm.getMipLevelCount ImageMipLevels.EnabledLevels)) = false := by
    by_cases hs : source = Command.GenerateMipmap
    · simp [hs]
    · have h1 := hcount hs
      have h2 : imgp.getLevelCount = img.getLevelCount := hpa.2.2.2
      have h3 : tm.getMipLevelCount ImageMipLevels.EnabledLevels = t.mState.enabledLevelCount := by
        simp [getMipLevelCount, hmstate, hpstate]
      rw [h2, h3]
      simp only [Bool.and_eq_false_imp, decide_eq_false_iff_not]
      intro _
      omega
  refine ⟨tm, imgp, ?_, hmimg, hpalloc, hmstate.trans hpstate, hmcache.trans hpcache⟩
  unfold respecifyImageStorageIfNecessary
  dsimp only
  rw [hp]
  simp only [angleTry, hm, hmimg, himm2, hany2, hfilter, Bool.not_true, Bool.false_and,
    Bool.and_false, Bool.false_eq_true, if_false, Bool.or_self]

theorem initLayerRenderTargets_trace (image : ImageHelper) (levelIndex : Nat) (layers : List Nat)
    (ctx : ContextWgpu) (renderTargets : List RenderTargetWgpu) :
    ∃ es, (initLayerRenderTargets image levelIndex layers ctx renderTargets).2.1.trace =
      ctx.trace ++ es := by
  induction layers generalizing ctx renderTargets with
  | nil => exact ⟨[], by simp [initLayerRenderTargets]⟩
  | cons layer rest ih =>
    unfold initLayerRenderTargets ImageHelper.createTextureViewSingleLevel
    by_cases hok : ctx.createViewOk ctx.trace = true
    · simp only [hok, if_true]
      obtain ⟨es, he⟩ := ih (ctx.emit (Event.createTextureView levelIndex layer true))
        (renderTargets.set layer
          { view := some ⟨image.mTexture, levelIndex, layer⟩,
            level := levelIndex - image.getFirstAllocatedLevel, layer := layer,
            format := image.getActualFormatID })
      exact ⟨Event.createTextureView levelIndex layer true :: es, by
        rw [he]; simp [ContextWgpu.emit]⟩
    · simp only [hok, if_false, Bool.false_eq_true]
      exact ⟨[Event.createTextureView levelIndex layer false], rfl⟩

theorem initSingleLayerRenderTargets_image {ctx ctx1 : ContextWgpu} {t t1 : TextureWgpu}
    {layerCount levelIndex : Nat} {renderToTextureIndex : RenderToTextureImageIndex} {r : Result}
    (h : initSingleLayerRenderTargets ctx t layerCount levelIndex renderToTextureIndex =
      some (r, ctx1, t1)) :
    t1.mImage = t.mImage ∧ t1.mState = t.mState ∧ ∃ es, ctx1.trace = ctx.trace ++ es := by
  unfold initSingleLayerRenderTargets at h
  dsimp only at h
  split_ifs at h <;> (try split at h)
  all_goals first
    | (simp only [Option.some.injEq, Prod.mk.injEq] at h
       obtain ⟨-, rfl, rfl⟩ := h
       first
         | exact ⟨rfl, rfl, initLayerRenderTargets_trace _ _ _ _ _⟩
         | exact ⟨rfl, rfl, [], (List.append_nil _).symm⟩)
    | (simp only [reduceCtorEq] at h)

/-- C8 as stated fails: on an immutable-format texture whose realized image has one
level while the texture state has two enabled levels, `respecifyImageStorageIfNecessary`
(command Draw) flushes and tears the image down, and `syncState` leaves the texture with
a new native texture of two levels. -/
theorem respecify_tears_down_immutable_image :
    Example.immutableTexture.mState.immutableFormat = true ∧
    Example.immutableTexture.mImage.map
        (fun img => (img.mInitialized, img.mTexture, img.mFirstAllocatedLevel, img.mLevelCount)) =
      some (true, 1, 0, 1) ∧
    (respecifyImageStorageIfNecessary RendererUtils.spec ContextWgpu.reliable
        Example.immutableTexture Command.Draw).map
        (fun out => (out.1, out.2.2.imageInitialized, out.2.1.trace)) =
      some (Result.Continue, some false, [Event.flushStagedUpdates true, Event.resetImage]) ∧
    (syncState RendererUtils.spec ContextWgpu.reliable Example.immutableTexture Command.Draw).map
        (fun out => out.2.2.mImage.map fun img =>
          (img.mInitialized, img.mTexture, img.mFirstAllocatedLevel, img.mLevelCount)) =
      some (some (true, 3, 0, 2)) := by
  refine ⟨rfl, by decide, by decide, by decide⟩

/-- C8, amended: for an immutable-format texture whose image is realized,
`maybeUpdateBaseMaxLevels` never touches the image, for every base and max level; and
as long as nothing asks for the image to be recreated (the tracker reports no redefined
level and, for a command other than generateMipmap, the image has at least as many
levels as are enabled), `prepareForGenerateMipmap`, `respecifyImageStorageIfNecessary`,
`syncState` and `getAttachmentRenderTarget` keep the allocation of the image: it stays
realized, on the same native texture, with the same allocated level range. -/
theorem immutable_image_kept (u : RendererUtils) (ctx : ContextWgpu) (t : TextureWgpu)
    (img : ImageHelper) (himg : t.mImage = some img) (hinit : img.isInitialized = true)
    (himm : t.mState.immutableFormat = true) :
    (∃ t1, maybeUpdateBaseMaxLevels ctx t = some (Result.Continue, ctx, t1) ∧
      t1.mImage = some img) ∧
    (t.NothingToRespecify u img Command.GenerateMipmap →
      ∃ t1 img1, prepareForGenerateMipmap u ctx t = some (ctx, t1) ∧ t1.mImage = some img1 ∧
        img1.allocation = img.allocation) ∧
    (∀ source, t.NothingToRespecify u img source →
      (∃ t1 img1, respecifyImageStorageIfNecessary u ctx t source =
          some (Result.Continue, ctx, t1) ∧
        t1.mImage = some img1 ∧ img1.allocation = img.allocation) ∧
      (∃ r ok t1 img1, syncState u ctx t source =
          some (r, ctx.emit (Event.flushStagedUpdates ok), t1) ∧
        t1.mImage = some img1 ∧ img1.allocation = img.allocation)) ∧
    (t.NothingToRespecify u img Command.Draw →
      ∀ binding imageIndex samples out,
        getAttachmentRenderTarget u ctx t binding imageIndex samples = some out →
        ∃ img1, out.texture.mImage = some img1 ∧ img1.allocation = img.allocation) := by
  refine ⟨?_, ?_, ?_, ?_⟩
  · obtain ⟨t1, h1, h2, -⟩ := maybeUpdateBaseMaxLevels_immutable ctx t img himg hinit himm
    exact ⟨t1, h1, h2⟩
  · intro hn
    obtain ⟨t1, img1, h1, h2, h3, -⟩ :=
      prepareForGenerateMipmap_not_redefined u ctx t img himg (hn.2.1 rfl)
    exact ⟨t1, img1, h1, h2, h3⟩
  · intro source hn
    obtain ⟨t1, img1, h1, h2, h3, -⟩ :=
      respecifyImageStorageIfNecessary_immutable u ctx t img source himg hinit himm hn
    refine ⟨⟨t1, img1, h1, h2, h3⟩, ?_⟩
    have hi1 : img1.isInitialized = true := (allocation_eq h3).1.trans hinit
    have hinit1 : ∀ mipLevels, initializeImage ctx t1 mipLevels = some (Result.Continue, ctx, t1) := by
      intro mipLevels
      simp [initializeImage, h2, hi1]
    unfold syncState
    simp only [angleTry, h1, hinit1, TextureWgpu.flushStagedUpdates, h2, Option.map_some,
      ImageHelper.flushStagedUpdates]
    by_cases hok : ctx.flushOk ctx.trace = true
    · simp only [hok, if_true, id]
      exact ⟨_, _, _, _, rfl, rfl, h3⟩
    · simp only [hok, if_false, Bool.false_eq_true, id]
      exact ⟨_, _, _, _, rfl, rfl, h3⟩
  · intro hn binding imageIndex samples out h
    obtain ⟨tm, imgm, h1, h2, h3, -⟩ :=
      respecifyImageStorageIfNecessary_immutable u ctx t img Command.Draw himg hinit himm hn
    have hi1 : imgm.isInitialized = true := (allocation_eq h3).1.trans hinit
    obtain ⟨r1, ctx1, t1, h1b, hc⟩ := getAttachmentRenderTarget_inv h
    rw [h1] at h1b
    simp only [Option.some.injEq, Prod.mk.injEq] at h1b
    obtain ⟨rfl, rfl, rfl⟩ := h1b
    rcases hc with ⟨hr, -⟩ | ⟨-, img1, r2, ctx2, t2, himg1, h2b, hc⟩
    · cases hr
    rw [h2] at himg1
    simp only [Option.some.injEq] at himg1
    subst himg1
    simp only [hi1, Bool.not_true, Bool.false_eq_true, if_false, Option.some.injEq,
      Prod.mk.injEq] at h2b
    obtain ⟨rfl, rfl, rfl⟩ := h2b
    rcases hc with ⟨hr, -⟩ | ⟨-, li, lc, ilc, un, -, hc⟩
    · cases hr
    rcases hc with ⟨-, rfl⟩ | ⟨-, r4, ctx4, t4, h4, hc⟩
    · exact ⟨imgm, h2, h3⟩
    have h5 := (initSingleLayerRenderTargets_image h4).1
    rcases hc with ⟨-, rfl⟩ | ⟨-, rfl⟩
    · exact ⟨imgm, h5.trans h2, h3⟩
    · exact ⟨imgm, h5.trans h2, h3⟩

theorem immutable_image_kept_witness :
    (∃ t1, maybeUpdateBaseMaxLevels ContextWgpu.reliable Example.immutableSingleLevel =
        some (Result.Continue, ContextWgpu.reliable, t1) ∧
      t1.mImage = some Example.realizedImage) ∧
    (∃ t1 img1, respecifyImageStorageIfNecessary RendererUtils.spec ContextWgpu.reliable
        Example.immutableSingleLevel Command.Draw = some (Result.Continue, ContextWgpu.reliable, t1) ∧
      t1.mImage = some img1 ∧ img1.allocation = Example.realizedImage.allocation) :=
  ⟨(immutable_image_kept RendererUtils.spec ContextWgpu.reliable Example.immutableSingleLevel
      Example.realizedImage rfl rfl rfl).1,
    ((immutable_image_kept RendererUtils.spec ContextWgpu.reliable Example.immutableSingleLevel
      Example.realizedImage rfl rfl rfl).2.2.1 Command.Draw
      ⟨by decide, by decide, fun _ => by decide⟩).1⟩

/-! ### Requests that are not single-layer -/

theorem GetRenderTargetLayerCountAndIndex_array {image : Option ImageHelper}
    {index : ImageIndex} {n layerIndex layerCount imageLayerCount : Nat} {unimplemented : Bool}
    (h : GetRenderTargetLayerCountAndIndex image index n =
      some (layerIndex, layerCount, imageLayerCount, unimplemented))
    (harray : isArrayTextureType index.type = true) : unimplemented = true := by
  unfold GetRenderTargetLayerCountAndIndex at h
  simp only [Option.map_eq_some', Prod.exists] at h
  obtain ⟨a, b, hab, h2⟩ := h
  have hb : b = true := by
    cases htype : index.type <;> simp_all [isArrayTextureType]
  split_ifs at h2 <;> simp only [Prod.mk.injEq] at h2 <;> rw [← h2.2.2.2, hb]

/-- C9 as stated fails: the request for two layers of a 2D array texture returns
success (`Continue`) with the output render target left unset; `UNIMPLEMENTED()` was
signalled, once by `GetRenderTargetLayerCountAndIndex` and once by the multi-layer
branch. -/
theorem getAttachmentRenderTarget_multilayer_returns_success :
    (getAttachmentRenderTarget RendererUtils.spec ContextWgpu.reliable Example.arrayTexture 0
        Example.index2DArrayTwoLayers 0).map (fun out => (out.result, out.rtOut, out.ctx.trace)) =
      some (Result.Continue, none, [Event.unimplemented, Event.unimplemented]) := by
  decide

/-- C9, amended: when `getAttachmentRenderTarget` returns success on a request that is
not single-layer (resolved layer count other than 1, or an array texture type), it has
signalled `UNIMPLEMENTED()` during the call; and when the resolved layer count is not 1
it leaves the output render target unset, creates no view and leaves the render-target
cache unchanged. -/
theorem getAttachmentRenderTarget_not_single_layer (u : RendererUtils) (ctx : ContextWgpu)
    (t : TextureWgpu) (binding : Nat) (imageIndex : ImageIndex) (samples : Int)
    (out : AttachmentRenderTarget) (layerIndex layerCount imageLayerCount : Nat)
    (unimplemented : Bool)
    (h : getAttachmentRenderTarget u ctx t binding imageIndex samples = some out)
    (hres : out.result = Result.Continue)
    (hget : GetRenderTargetLayerCountAndIndex out.texture.mImage imageIndex 0 =
      some (layerIndex, layerCount, imageLayerCount, unimplemented))
    (hmulti : layerCount ≠ 1 ∨ isArrayTextureType imageIndex.type = true) :
    (∃ es, out.ctx.trace = ctx.trace ++ es ∧ Event.unimplemented ∈ es) ∧
    (layerCount ≠ 1 →
      out.rtOut = none ∧ out.ctx.viewsCreated = ctx.viewsCreated ∧
      out.texture.mSingleLayerRenderTargets = t.mSingleLayerRenderTargets) := by
  obtain ⟨r1, ctx1, t1, h1, hc⟩ := getAttachmentRenderTarget_inv h
  have f1 := respecifyImageStorageIfNecessary_frame h1
  rcases hc with ⟨-, rfl⟩ | ⟨-, img1, r2, ctx2, t2, -, h2, hc⟩
  · cases hres
  have f2 : CacheFrame ctx1 t1 ctx2 t2 := by
    split_ifs at h2
    · exact initializeImage_frame h2
    · simp only [Option.some.injEq, Prod.mk.injEq] at h2
      obtain ⟨-, rfl, rfl⟩ := h2
      exact cacheFrame_refl _ _
  have f := cacheFrame_trans f1 f2
  obtain ⟨es2, he2, -⟩ := f.2.2
  rcases hc with ⟨-, rfl⟩ | ⟨-, li, lc, ilc, un, h3, hc⟩
  · cases hres
  rcases hc with ⟨hlc, rfl⟩ | ⟨hlc, r4, ctx4, t4, h4, hc⟩
  · simp only at hget
    rw [h3] at hget
    simp only [Option.some.injEq, Prod.mk.injEq] at hget
    obtain ⟨-, rfl, -, -⟩ := hget
    refine ⟨?_, fun _ => ⟨rfl, ?_, f.1⟩⟩
    · cases un
      · exact ⟨es2 ++ [Event.unimplemented], by simp [ContextWgpu.emit, he2], by simp⟩
      · exact ⟨es2 ++ [Event.unimplemented, Event.unimplemented],
          by simp [ContextWgpu.emit, he2], by simp⟩
    · cases un
      · simpa [viewsCreated_emit_unimplemented] using imageOpsOnly_viewsCreated f.2.2
      · simpa [viewsCreated_emit_unimplemented] using imageOpsOnly_viewsCreated f.2.2
  · obtain ⟨himg4, -, es4, he4⟩ := initSingleLayerRenderTargets_image h4
    have hout : out.texture = t4 ∧ out.ctx = ctx4 := by
      rcases hc with ⟨-, rfl⟩ | ⟨-, rfl⟩ <;> exact ⟨rfl, rfl⟩
    rw [hout.1, himg4, h3] at hget
    simp only [Option.some.injEq, Prod.mk.injEq] at hget
    obtain ⟨-, rfl, -, rfl⟩ := hget
    have harray : isArrayTextureType imageIndex.type = true := by
      rcases hmulti with hne | ha
      · exact absurd hlc hne
      · exact ha
    have hun := GetRenderTargetLayerCountAndIndex_array h3 harray
    subst hun
    refine ⟨?_, fun hne => absurd hlc hne⟩
    rw [hout.2]
    simp only [if_true, ContextWgpu.emit] at he4
    exact ⟨es2 ++ Event.unimplemented :: es4, by rw [he4, he2]; simp, by simp⟩

theorem getAttachmentRenderTarget_not_single_layer_witness :
    getAttachmentRenderTarget RendererUtils.spec ContextWgpu.reliable Example.arrayTexture 0
        Example.index2DArrayTwoLayers 0 = some Example.twoLayerOutcome ∧
    (∃ es, Example.twoLayerOutcome.ctx.trace = ContextWgpu.reliable.trace ++ es ∧
      Event.unimplemented ∈ es) ∧
    Example.twoLayerOutcome.rtOut = none ∧
    Example.twoLayerOutcome.ctx.viewsCreated = ContextWgpu.reliable.viewsCreated :=
  ⟨rfl,
    (getAttachmentRenderTarget_not_single_layer RendererUtils.spec ContextWgpu.reliable
      Example.arrayTexture 0 Example.index2DArrayTwoLayers 0 Example.twoLayerOutcome 0 2 0 true
      rfl rfl rfl (Or.inl (by decide))).1,
    ((getAttachmentRenderTarget_not_single_layer RendererUtils.spec ContextWgpu.reliable
      Example.arrayTexture 0 Example.index2DArrayTwoLayers 0 Example.twoLayerOutcome 0 2 0 true
      rfl rfl rfl (Or.inl (by decide))).2 (by decide)).1,
    ((getAttachmentRenderTarget_not_single_layer RendererUtils.spec ContextWgpu.reliable
      Example.arrayTexture 0 Example.index2DArrayTwoLayers 0 Example.twoLayerOutcome 0 2 0 true
      rfl rfl rfl (Or.inl (by decide))).2 (by decide)).2.1⟩

/-! ### The binding counts and the binding-mask table of a buffer -/

/-- C12 as stated fails: a buffer whose only binding is a transform-feedback indexed
binding satisfies the invariant, and `onNonTFBindingChanged(-1)` leaves it with a
transform-feedback indexed binding count of 1 above a total binding count of 0. -/
theorem onNonTFBindingChanged_breaks_invariant :
    Example.tfBuffer.mState.BindingInvariant ∧
    ¬ (Example.tfBuffer.onNonTFBindingChanged (-1)).mState.BindingInvariant ∧
    (Example.tfBuffer.onNonTFBindingChanged (-1)).mState = ⟨0, 1, 0⟩ := by
  refine ⟨?_, ?_, rfl⟩
  · show (1 : Int) ≤ 1
    decide
  · show ¬ ((1 : Int) ≤ 1 + -1)
    decide

/-- C12, amended: `onNonTFBindingChanged(incr)` adds `incr` to the total binding count
and leaves the two transform-feedback counts alone; from a state that satisfies the
invariant `mTransformFeedbackIndexedBindingCount <= mBindingCount` it reaches a state
that satisfies it exactly when the indexed count is at most the old total plus `incr`,
in particular for every `incr >= 0`. -/
theorem onNonTFBindingChanged_preserves_invariant (b : gl.Buffer) (incr : Int)
    (hinv : b.mState.BindingInvariant) :
    ((b.onNonTFBindingChanged incr).mState.BindingInvariant ↔
      b.mState.mTransformFeedbackIndexedBindingCount ≤ b.mState.mBindingCount + incr) ∧
    (0 ≤ incr → (b.onNonTFBindingChanged incr).mState.BindingInvariant) ∧
    (b.onNonTFBindingChanged incr).mState.mBindingCount = b.mState.mBindingCount + incr ∧
    (b.onNonTFBindingChanged incr).mState.mTransformFeedbackIndexedBindingCount =
      b.mState.mTransformFeedbackIndexedBindingCount ∧
    (b.onNonTFBindingChanged incr).mState.mTransformFeedbackGenericBindingCount =
      b.mState.mTransformFeedbackGenericBindingCount := by
  refine ⟨Iff.rfl, ?_, rfl, rfl, rfl⟩
  intro hincr
  have h : b.mState.mTransformFeedbackIndexedBindingCount ≤ b.mState.mBindingCount := hinv
  show b.mState.mTransformFeedbackIndexedBindingCount ≤ b.mState.mBindingCount + incr
  omega

theorem onNonTFBindingChanged_preserves_invariant_witness :
    (Example.tfBuffer.onNonTFBindingChanged 2).mState.BindingInvariant ∧
    (Example.tfBuffer.onNonTFBindingChanged 2).mState = ⟨3, 1, 0⟩ :=
  ⟨(onNonTFBindingChanged_preserves_invariant Example.tfBuffer 2
      (show (1 : Int) ≤ 1 by decide)).2.1 (by decide), rfl⟩

theorem findMask_addEntry (context other bindingIndex : Nat) (h : context ≠ other)
    (l : List (Nat × gl.VertexArrayBufferBindingMask)) :
    gl.VertexArrayBufferBindingMaskAndContext.findMask other
        (gl.VertexArrayBufferBindingMaskAndContext.addEntry context bindingIndex l) =
      gl.VertexArrayBufferBindingMaskAndContext.findMask other l := by
  induction l with
  | nil => simp [gl.VertexArrayBufferBindingMaskAndContext.addEntry,
      gl.VertexArrayBufferBindingMaskAndContext.findMask, h]
  | cons p rest ih =>
    obtain ⟨c, mask⟩ := p
    unfold gl.VertexArrayBufferBindingMaskAndContext.addEntry
    by_cases hc : c = context
    · subst hc
      simp [gl.VertexArrayBufferBindingMaskAndContext.findMask, h]
    · rw [if_neg hc]
      by_cases ho : c = other
      · simp [gl.VertexArrayBufferBindingMaskAndContext.findMask, ho]
      · simp [gl.VertexArrayBufferBindingMaskAndContext.findMask, ho, ih]

theorem findMask_removeEntry (context other bindingIndex : Nat) (h : context ≠ other)
    (l : List (Nat × gl.VertexArrayBufferBindingMask)) :
    gl.VertexArrayBufferBindingMaskAndContext.findMask other
        (gl.VertexArrayBufferBindingMaskAndContext.removeEntry context bindingIndex l) =
      gl.VertexArrayBufferBindingMaskAndContext.findMask other l := by
  induction l with
  | nil => simp [gl.VertexArrayBufferBindingMaskAndContext.removeEntry]
  | cons p rest ih =>
    obtain ⟨c, mask⟩ := p
    unfold gl.VertexArrayBufferBindingMaskAndContext.removeEntry
    by_cases hc : c = context
    · subst hc
      by_cases he : mask.erase bindingIndex = ∅
      · simp [gl.VertexArrayBufferBindingMaskAndContext.findMask, h, he]
      · simp [gl.VertexArrayBufferBindingMaskAndContext.findMask, h, he]
    · rw [if_neg hc]
      by_cases ho : c = other
      · simp [gl.VertexArrayBufferBindingMaskAndContext.findMask, ho]
      · simp [gl.VertexArrayBufferBindingMaskAndContext.findMask, ho, ih]

/-- C13: for every binding-mask table, two distinct contexts A and B and every slot,
`add(A, slot)` and `remove(A, slot)` leave `getBufferBindingMask(B)` unchanged; so do
`addVertexArrayBinding` and `removeVertexArrayBinding` of a buffer, which also leave the
binding counts alone. -/
theorem binding_mask_frame (m : gl.VertexArrayBufferBindingMaskAndContext) (b : gl.Buffer)
    (contextA contextB bindingIndex : Nat) (hAB : contextA ≠ contextB) :
    (m.add contextA bindingIndex).getBufferBindingMask contextB =
      m.getBufferBindingMask contextB ∧
    (m.remove contextA bindingIndex).getBufferBindingMask contextB =
      m.getBufferBindingMask contextB ∧
    (b.addVertexArrayBinding contextA bindingIndex).mVertexArrayBufferBindingMaskAndContext.getBufferBindingMask
        contextB = b.mVertexArrayBufferBindingMaskAndContext.getBufferBindingMask contextB ∧
    (b.removeVertexArrayBinding contextA
        bindingIndex).mVertexArrayBufferBindingMaskAndContext.getBufferBindingMask
        contextB = b.mVertexArrayBufferBindingMaskAndContext.getBufferBindingMask contextB ∧
    (b.addVertexArrayBinding contextA bindingIndex).mState = b.mState ∧
    (b.removeVertexArrayBinding contextA bindingIndex).mState = b.mState :=
  ⟨findMask_addEntry contextA contextB bindingIndex hAB _,
    findMask_removeEntry contextA contextB bindingIndex hAB _,
    findMask_addEntry contextA contextB bindingIndex hAB _,
    findMask_removeEntry contextA contextB bindingIndex hAB _, rfl, rfl⟩

theorem binding_mask_frame_witness :
    Example.sharedTable.getBufferBindingMask 1 = {3} ∧
    Example.sharedTable.getBufferBindingMask 2 = {3} ∧
    (Example.sharedTable.remove 1 3).getBufferBindingMask 1 = ∅ ∧
    (Example.sharedTable.remove 1 3).getBufferBindingMask 2 = {3} :=
  ⟨by decide, by decide, by decide,
    ((binding_mask_frame Example.sharedTable Example.tfBuffer 1 2 3 (by decide)).2.1).trans
      (by decide)⟩

/-! ### The compatibility of a redefinition -/

/-- C18: `IsTextureLevelDefinitionCompatibleWithImage` is true if and only if the new
extents equal the extents of the image and the intended and the actual image format id
of the format equal those of the image; a mismatch in any one of the three makes it
false. -/
theorem IsTextureLevelDefinitionCompatibleWithImage_iff (image : ImageHelper) (size : Extents)
    (format : Format) :
    (IsTextureLevelDefinitionCompatibleWithImage image size format = true ↔
      size = image.getSize ∧ format.intendedFormatID = image.getIntendedFormatID ∧
        format.actualImageFormatID = image.getActualFormatID) ∧
    (size ≠ image.getSize →
      IsTextureLevelDefinitionCompatibleWithImage image size format = false) ∧
    (format.intendedFormatID ≠ image.getIntendedFormatID →
      IsTextureLevelDefinitionCompatibleWithImage image size format = false) ∧
    (format.actualImageFormatID ≠ image.getActualFormatID →
      IsTextureLevelDefinitionCompatibleWithImage image size format = false) := by
  unfold IsTextureLevelDefinitionCompatibleWithImage
  refine ⟨?_, ?_, ?_, ?_⟩
  · simp only [Bool.and_eq_true, decide_eq_true_eq]
    constructor
    · rintro ⟨⟨h1, h2⟩, h3⟩
      exact ⟨h1, h2.symm, h3.symm⟩
    · rintro ⟨h1, h2, h3⟩
      exact ⟨⟨h1, h2.symm⟩, h3.symm⟩
  · intro h
    simp [h]
  · intro h
    simp [Ne.symm h]
  · intro h
    simp [Ne.symm h]

theorem IsTextureLevelDefinitionCompatibleWithImage_iff_witness :
    IsTextureLevelDefinitionCompatibleWithImage Example.realizedImage ⟨256, 256, 1⟩ ⟨7, 9⟩ = true ∧
    IsTextureLevelDefinitionCompatibleWithImage Example.realizedImage ⟨128, 128, 1⟩ ⟨7, 9⟩ =
      false ∧
    IsTextureLevelDefinitionCompatibleWithImage Example.realizedImage ⟨256, 256, 1⟩ ⟨8, 9⟩ =
      false ∧
    IsTextureLevelDefinitionCompatibleWithImage Example.realizedImage ⟨256, 256, 1⟩ ⟨7, 8⟩ =
      false :=
  ⟨(IsTextureLevelDefinitionCompatibleWithImage_iff Example.realizedImage ⟨256, 256, 1⟩
      ⟨7, 9⟩).1.2 ⟨rfl, rfl, rfl⟩,
    (IsTextureLevelDefinitionCompatibleWithImage_iff Example.realizedImage ⟨128, 128, 1⟩
      ⟨7, 9⟩).2.1 (by decide),
    (IsTextureLevelDefinitionCompatibleWithImage_iff Example.realizedImage ⟨256, 256, 1⟩
      ⟨8, 9⟩).2.2.1 (by decide),
    (IsTextureLevelDefinitionCompatibleWithImage_iff Example.realizedImage ⟨256, 256, 1⟩
      ⟨7, 8⟩).2.2.2 (by decide)⟩

/-! ### Base and max level changes -/

theorem maybeUpdateBaseMaxLevels_eq (ctx : ContextWgpu) (t : TextureWgpu) (img : ImageHelper)
    (himg : t.mImage = some img) :
    maybeUpdateBaseMaxLevels ctx t =
      if t.mCurrentMaxLevel = t.mState.maxLevel ∧ t.mCurrentBaseLevel = t.mState.baseLevel then
        some (Result.Continue, ctx, t)
      else if img.isInitialized = false then
        some (Result.Continue, ctx, t)
      else if t.mState.immutableFormat = true ∨
          (t.mCurrentBaseLevel = t.mState.baseLevel ∧
            (t.mState.effectiveMaxLevel : Int) ≤ img.getLastAllocatedLevel) then
        some (Result.Continue, ctx,
          { t with
            mCurrentBaseLevel := t.mState.effectiveBaseLevel,
            mCurrentMaxLevel := t.mState.effectiveMaxLevel })
      else
        some (Result.Continue, ctx.emit Event.resetImage,
          { t with mImage := some (img.resetImage ctx).2 }) := by
  unfold maybeUpdateBaseMaxLevels
  simp only [himg]
  by_cases hm : t.mCurrentMaxLevel = t.mState.maxLevel <;>
  by_cases hb : t.mCurrentBaseLevel = t.mState.baseLevel <;>
  by_cases hi : img.isInitialized = true <;>
  by_cases himm : t.mState.immutableFormat = true <;>
  by_cases hle : (t.mState.effectiveMaxLevel : Int) ≤ img.getLastAllocatedLevel <;>
  simp [hm, hb, hi, himm, hle, ImageHelper.resetImage]

/-- C14: on a texture with an image, `maybeUpdateBaseMaxLevels` returns success, and it
tears the image down (it requests `resetImage`) if and only if the image is realized,
the texture is mutable-format, the recorded base or max level differs from the one of
the texture state, and the base level changed or the new effective max level is beyond
the last allocated level; otherwise it leaves the image as it is, and with no base or
max change it changes nothing at all. -/
theorem maybeUpdateBaseMaxLevels_tears_down_iff (ctx : ContextWgpu) (t : TextureWgpu)
    (img : ImageHelper) (himg : t.mImage = some img) :
    ∃ ctx1 t1, maybeUpdateBaseMaxLevels ctx t = some (Result.Continue, ctx1, t1) ∧
      (ctx1.trace = ctx.trace ++ [Event.resetImage] ↔ t.BaseMaxChangeUnsatisfiable img) ∧
      (t.BaseMaxChangeUnsatisfiable img →
        t1.imageInitialized = some false ∧ t1.mCurrentBaseLevel = t.mCurrentBaseLevel ∧
        t1.mCurrentMaxLevel = t.mCurrentMaxLevel) ∧
      (¬ t.BaseMaxChangeUnsatisfiable img → ctx1 = ctx ∧ t1.mImage = some img) ∧
      (t.mCurrentBaseLevel = t.mState.baseLevel → t.mCurrentMaxLevel = t.mState.maxLevel →
        ctx1 = ctx ∧ t1 = t) := by
  rw [maybeUpdateBaseMaxLevels_eq ctx t img himg]
  unfold BaseMaxChangeUnsatisfiable
  split_ifs with h1 h2 h3
  · have hn : ¬ (img.isInitialized = true ∧ t.mState.immutableFormat = false ∧
        (t.mCurrentBaseLevel ≠ t.mState.baseLevel ∨ t.mCurrentMaxLevel ≠ t.mState.maxLevel) ∧
        (t.mCurrentBaseLevel ≠ t.mState.baseLevel ∨
          img.getLastAllocatedLevel < (t.mState.effectiveMaxLevel : Int))) := by
      rintro ⟨-, -, h | h, -⟩
      · exact h h1.2
      · exact h h1.1
    refine ⟨ctx, t, rfl, ⟨fun h => ?_, fun h => absurd h hn⟩, fun h => absurd h hn,
      fun _ => ⟨rfl, himg⟩, fun _ _ => ⟨rfl, rfl⟩⟩
    simp at h
  · have hn : ¬ (img.isInitialized = true ∧ t.mState.immutableFormat = false ∧
        (t.mCurrentBaseLevel ≠ t.mState.baseLevel ∨ t.mCurrentMaxLevel ≠ t.mState.maxLevel) ∧
        (t.mCurrentBaseLevel ≠ t.mState.baseLevel ∨
          img.getLastAllocatedLevel < (t.mState.effectiveMaxLevel : Int))) := by
      rintro ⟨h, -⟩
      rw [h2] at h
      cases h
    refine ⟨ctx, t, rfl, ⟨fun h => ?_, fun h => absurd h hn⟩, fun h => absurd h hn,
      fun _ => ⟨rfl, himg⟩, fun _ _ => ⟨rfl, rfl⟩⟩
    simp at h
  · have hn : ¬ (img.isInitialized = true ∧ t.mState.immutableFormat = false ∧
        (t.mCurrentBaseLevel ≠ t.mState.baseLevel ∨ t.mCurrentMaxLevel ≠ t.mState.maxLevel) ∧
        (t.mCurrentBaseLevel ≠ t.mState.baseLevel ∨
          img.getLastAllocatedLevel < (t.mState.effectiveMaxLevel : Int))) := by
      rintro ⟨-, himm, -, h⟩
      rcases h3 with h3 | ⟨h3, h4⟩
      · rw [himm] at h3
        cases h3
      · rcases h with h | h
        · exact h h3
        · exact absurd h4 (not_le.mpr h)
    refine ⟨ctx, _, rfl, ⟨fun h => ?_, fun h => absurd h hn⟩, fun h => absurd h hn,
      fun _ => ⟨rfl, himg⟩, fun hb hm => absurd ⟨hm, hb⟩ h1⟩
    simp at h
  · have hc : img.isInitialized = true ∧ t.mState.immutableFormat = false ∧
        (t.mCurrentBaseLevel ≠ t.mState.baseLevel ∨ t.mCurrentMaxLevel ≠ t.mState.maxLevel) ∧
        (t.mCurrentBaseLevel ≠ t.mState.baseLevel ∨
          img.getLastAllocatedLevel < (t.mState.effectiveMaxLevel : Int)) := by
      have hi : img.isInitialized = true := by
        cases h : img.isInitialized
        · exact absurd h h2
        · rfl
      have himm : t.mState.immutableFormat = false := by
        cases h : t.mState.immutableFormat
        · rfl
        · exact absurd (Or.inl h) h3
      refine ⟨hi, himm, ?_, ?_⟩
      · by_cases hb : t.mCurrentBaseLevel = t.mState.baseLevel
        · by_cases hm : t.mCurrentMaxLevel = t.mState.maxLevel
          · exact absurd ⟨hm, hb⟩ h1
          · exact Or.inr hm
        · exact Or.inl hb
      · by_cases hb : t.mCurrentBaseLevel = t.mState.baseLevel
        · refine Or.inr (not_le.mp fun hle => h3 (Or.inr ⟨hb, hle⟩))
        · exact Or.inl hb
    refine ⟨_, _, rfl, ⟨fun _ => hc, fun _ => rfl⟩, fun _ => ⟨rfl, rfl, rfl⟩,
      fun h => absurd hc h, fun hb hm => absurd ⟨hm, hb⟩ h1⟩

theorem maybeUpdateBaseMaxLevels_tears_down_iff_witness :
    Example.baseLevelRaised.BaseMaxChangeUnsatisfiable Example.realizedImage ∧
    ¬ Example.maxLevelLowered.BaseMaxChangeUnsatisfiable
      { Example.realizedImage with mLevelCount := 4 } ∧
    (∃ ctx1 t1, maybeUpdateBaseMaxLevels ContextWgpu.reliable Example.baseLevelRaised =
        some (Result.Continue, ctx1, t1) ∧
      (ctx1.trace = ContextWgpu.reliable.trace ++ [Event.resetImage] ↔
        Example.baseLevelRaised.BaseMaxChangeUnsatisfiable Example.realizedImage)) := by
  refine ⟨⟨rfl, rfl, Or.inl (by decide), Or.inl (by decide)⟩, ?_, ?_⟩
  · rintro ⟨-, -, -, h | h⟩
    · exact absurd rfl h
    · revert h
      decide
  · obtain ⟨ctx1, t1, h1, h2, -⟩ :=
      maybeUpdateBaseMaxLevels_tears_down_iff ContextWgpu.reliable Example.baseLevelRaised
        Example.realizedImage rfl
    exact ⟨ctx1, t1, h1, h2⟩

/-- C15: for a mutable-format texture with a realized image, when only the max level
changed and the new effective max level is at most the last allocated level of the
image, `maybeUpdateBaseMaxLevels` returns success without any backend operation, leaves
the image untouched and records the effective base and max level of the texture state
as the current ones. -/
theorem maybeUpdateBaseMaxLevels_records_levels (ctx : ContextWgpu) (t : TextureWgpu)
    (img : ImageHelper) (himg : t.mImage = some img) (hinit : img.isInitialized = true)
    (hmut : t.mState.immutableFormat = false)
    (hbase : t.mCurrentBaseLevel = t.mState.baseLevel)
    (hmax : t.mCurrentMaxLevel ≠ t.mState.maxLevel)
    (hle : (t.mState.effectiveMaxLevel : Int) ≤ img.getLastAllocatedLevel) :
    maybeUpdateBaseMaxLevels ctx t =
      some (Result.Continue, ctx,
        { t with
          mCurrentBaseLevel := t.mState.effectiveBaseLevel,
          mCurrentMaxLevel := t.mState.effectiveMaxLevel }) ∧
    ({ t with
        mCurrentBaseLevel := t.mState.effectiveBaseLevel,
        mCurrentMaxLevel := t.mState.effectiveMaxLevel } : TextureWgpu).mImage = some img := by
  rw [maybeUpdateBaseMaxLevels_eq ctx t img himg]
  simp [hinit, hmut, hbase, hmax, hle, himg]

theorem maybeUpdateBaseMaxLevels_records_levels_witness :
    (maybeUpdateBaseMaxLevels ContextWgpu.reliable Example.maxLevelLowered).map
        (fun out => (out.1, out.2.1.trace, out.2.2.mCurrentBaseLevel, out.2.2.mCurrentMaxLevel,
          out.2.2.mImage)) =
      some (Result.Continue, [], 0, 2, some { Example.realizedImage with mLevelCount := 4 }) :=
  congrArg
    (Option.map fun out =>
      (out.1, out.2.1.trace, out.2.2.mCurrentBaseLevel, out.2.2.mCurrentMaxLevel, out.2.2.mImage))
    (maybeUpdateBaseMaxLevels_records_levels ContextWgpu.reliable Example.maxLevelLowered
      { Example.realizedImage with mLevelCount := 4 } rfl rfl rfl rfl (by decide) (by decide)).1

/-! ### Preparing for generateMipmap -/

theorem prepareForGenerateMipmap_eq (u : RendererUtils) (ctx : ContextWgpu) (t : TextureWgpu)
    (img : ImageHelper) (himg : t.mImage = some img) :
    prepareForGenerateMipmap u ctx t =
      if u.IsTextureLevelRedefined (t.redefinedLevelsAtCheck u Command.GenerateMipmap)
          t.mState.type t.mState.effectiveBaseLevel = true then
        some (ctx.emit Event.resetImage,
          { t with
            mImage := some
              { img with
                mStagedUpdates :=
                  img.mStagedUpdates.filter fun upd => !decide (upd.level ∈ t.levelsToRemove),
                mInitialized := false, mFirstAllocatedLevel := 0, mLevelCount := 0 },
            mRedefinedLevels := t.redefinedLevelsAtCheck u Command.GenerateMipmap })
      else
        some (ctx,
          { t with
            mImage := some
              { img with
                mStagedUpdates :=
                  img.mStagedUpdates.filter fun upd => !decide (upd.level ∈ t.levelsToRemove) },
            mRedefinedLevels := t.redefinedLevelsAtCheck u Command.GenerateMipmap }) := by
  unfold prepareForGenerateMipmap
  rw [foldlM_removeStagedUpdates _ t img himg]
  simp only [redefinedLevelsAtCheck, beq_self_eq_true, if_true]
  split_ifs <;> simp [TextureWgpu.resetImage, ImageHelper.resetImage]

/-- C19: on a texture with an image, `prepareForGenerateMipmap` tears the image down (it
requests `resetImage`) if and only if the base level carries a redefinition bit once
the generated range has been through `TextureRedefineGenerateMipmapLevels`; when the
base level is not redefined it requests nothing of the backend and leaves the
allocation of the image as it was. -/
theorem prepareForGenerateMipmap_tears_down_iff (u : RendererUtils) (ctx : ContextWgpu)
    (t : TextureWgpu) (img : ImageHelper) (himg : t.mImage = some img) :
    ∃ ctx1 t1 img1, prepareForGenerateMipmap u ctx t = some (ctx1, t1) ∧
      t1.mImage = some img1 ∧
      (ctx1.trace = ctx.trace ++ [Event.resetImage] ↔
        u.IsTextureLevelRedefined (t.redefinedLevelsAtCheck u Command.GenerateMipmap)
          t.mState.type t.mState.effectiveBaseLevel = true) ∧
      (u.IsTextureLevelRedefined (t.redefinedLevelsAtCheck u Command.GenerateMipmap)
          t.mState.type t.mState.effectiveBaseLevel = true → img1.isInitialized = false) ∧
      (u.IsTextureLevelRedefined (t.redefinedLevelsAtCheck u Command.GenerateMipmap)
          t.mState.type t.mState.effectiveBaseLevel = false →
        ctx1 = ctx ∧ img1.allocation = img.allocation) := by
  rw [prepareForGenerateMipmap_eq u ctx t img himg]
  cases hred : u.IsTextureLevelRedefined (t.redefinedLevelsAtCheck u Command.GenerateMipmap)
      t.mState.type t.mState.effectiveBaseLevel
  · rw [if_neg Bool.false_ne_true]
    refine ⟨_, _, _, rfl, rfl, ⟨fun h => ?_, fun h => (by cases h)⟩, fun h => (by cases h),
      fun _ => ⟨rfl, rfl⟩⟩
    simp at h
  · rw [if_pos rfl]
    exact ⟨_, _, _, rfl, rfl, ⟨fun _ => rfl, fun _ => rfl⟩, fun _ => rfl,
      fun h => (by cases h)⟩

theorem prepareForGenerateMipmap_tears_down_iff_witness :
    (prepareForGenerateMipmap RendererUtils.spec ContextWgpu.reliable Example.baseRedefined).map
        (fun out => (out.1.trace, out.2.imageInitialized)) =
      some ([Event.resetImage], some false) ∧
    (prepareForGenerateMipmap RendererUtils.spec ContextWgpu.reliable Example.mipmapTexture).map
        (fun out => (out.1.trace, out.2.imageInitialized)) = some ([], some true) ∧
    (∃ ctx1 t1 img1, prepareForGenerateMipmap RendererUtils.spec ContextWgpu.reliable
        Example.baseRedefined = some (ctx1, t1) ∧ t1.mImage = some img1) := by
  refine ⟨by decide, by decide, ?_⟩
  obtain ⟨ctx1, t1, img1, h1, h2, -⟩ :=
    prepareForGenerateMipmap_tears_down_iff RendererUtils.spec ContextWgpu.reliable
      Example.baseRedefined _ rfl
  exact ⟨ctx1, t1, img1, h1, h2⟩

/-! ### The steps of `respecifyImageStorageIfNecessary` -/

theorem flushThenReset_eq (ctx : ContextWgpu) (t : TextureWgpu) (img : ImageHelper)
    (himg : t.mImage = some img) :
    flushThenReset ctx t =
      if ctx.flushOk ctx.trace = true then
        some (Result.Continue,
          (ctx.emit (Event.flushStagedUpdates true)).emit Event.resetImage,
          { t with
            mImage := some
              { img with
                mStagedUpdates := [], mInitialized := false, mFirstAllocatedLevel := 0,
                mLevelCount := 0 } })
      else
        some (Result.Stop, ctx.emit (Event.flushStagedUpdates false),
          { t with mImage := some img }) := by
  unfold flushThenReset TextureWgpu.flushStagedUpdates
  simp only [himg, Option.map_some, ImageHelper.flushStagedUpdates]
  split_ifs <;>
    simp [angleTry, TextureWgpu.resetImage, ImageHelper.resetImage]

theorem respecify_of_steps {u : RendererUtils} {ctx ctxp ctx2 : ContextWgpu}
    {t tp t2 : TextureWgpu} {source : Command}
    (hpre : (if (source == Command.GenerateMipmap) = true then prepareForGenerateMipmap u ctx t
      else some (ctx, t)) = some (ctxp, tp))
    (hmu : maybeUpdateBaseMaxLevels ctxp tp = some (Result.Continue, ctx2, t2)) :
    respecifyImageStorageIfNecessary u ctx t source =
      angleTry
        (if t2.mustRecreateForGenerateMipmap source = true then flushThenReset ctx2 t2
          else some (Result.Continue, ctx2, t2))
        (fun s3 =>
          if (u.TextureHasAnyRedefinedLevels s3.2.mRedefinedLevels ||
              t2.isMipmapEnabledByMinFilter source) = true then
            flushThenReset s3.1 s3.2
          else some (Result.Continue, s3))
        id := by
  unfold respecifyImageStorageIfNecessary
  dsimp only
  rw [hpre]
  simp only [angleTry, hmu]
  rfl

/-- The step before `maybeUpdateBaseMaxLevels`, on a texture with an image: it keeps
the texture state, leaves the redefinition bits as the later check finds them, and
either keeps the allocation of the image without a backend request or leaves the image
torn down. -/
theorem respecify_pre_step (u : RendererUtils) (ctx : ContextWgpu) (t : TextureWgpu)
    (img : ImageHelper) (source : Command) (himg : t.mImage = some img) :
    ∃ ctxp tp imgp,
      (if (source == Command.GenerateMipmap) = true then prepareForGenerateMipmap u ctx t
        else some (ctx, t)) = some (ctxp, tp) ∧
      tp.mImage = some imgp ∧ tp.mState = t.mState ∧
      tp.mRedefinedLevels = t.redefinedLevelsAtCheck u source ∧
      tp.mCurrentBaseLevel = t.mCurrentBaseLevel ∧ tp.mCurrentMaxLevel = t.mCurrentMaxLevel ∧
      (∃ es, ctxp.trace = ctx.trace ++ es) ∧
      ((imgp.allocation = img.allocation ∧ ctxp = ctx ∧
          (source ≠ Command.GenerateMipmap → imgp = img)) ∨
        imgp.isInitialized = false) := by
  by_cases hs : source = Command.GenerateMipmap
  · subst hs
    simp only [beq_self_eq_true, if_true]
    rw [prepareForGenerateMipmap_eq u ctx t img himg]
    split_ifs
    · exact ⟨_, _, _, rfl, rfl, rfl, rfl, rfl, rfl, ⟨[Event.resetImage], rfl⟩, Or.inr rfl⟩
    · exact ⟨_, _, _, rfl, rfl, rfl, rfl, rfl, rfl, ⟨[], by simp⟩,
        Or.inl ⟨rfl, rfl, fun h => absurd rfl h⟩⟩
  · have hb : (source == Command.GenerateMipmap) = false := by simpa using hs
    simp only [hb, Bool.false_eq_true, if_false]
    exact ⟨ctx, t, img, rfl, himg, rfl, by simp [redefinedLevelsAtCheck, hb], rfl, rfl,
      ⟨[], by simp⟩, Or.inl ⟨rfl, rfl, fun _ => rfl⟩⟩

/-- What `maybeUpdateBaseMaxLevels` does on a texture with an image: it returns
success, keeps the texture state and the redefinition bits, and either leaves the image
and the context untouched or leaves the image torn down. -/
theorem maybeUpdateBaseMaxLevels_step (ctx : ContextWgpu) (t : TextureWgpu) (img : ImageHelper)
    (himg : t.mImage = some img) :
    ∃ ctx2 t2 img2, maybeUpdateBaseMaxLevels ctx t = some (Result.Continue, ctx2, t2) ∧
      t2.mImage = some img2 ∧ t2.mState = t.mState ∧
      t2.mRedefinedLevels = t.mRedefinedLevels ∧
      (∃ es, ctx2.trace = ctx.trace ++ es) ∧
      ((img2 = img ∧ ctx2 = ctx) ∨ img2.isInitialized = false) := by
  rw [maybeUpdateBaseMaxLevels_eq ctx t img himg]
  split_ifs
  · exact ⟨_, _, _, rfl, himg, rfl, rfl, ⟨[], by simp⟩, Or.inl ⟨rfl, rfl⟩⟩
  · exact ⟨_, _, _, rfl, himg, rfl, rfl, ⟨[], by simp⟩, Or.inl ⟨rfl, rfl⟩⟩
  · exact ⟨_, _, _, rfl, himg, rfl, rfl, ⟨[], by simp⟩, Or.inl ⟨rfl, rfl⟩⟩
  · exact ⟨_, _, _, rfl, rfl, rfl, rfl, ⟨[Event.resetImage], rfl⟩, Or.inr rfl⟩

/-- With a redefinition bit set at the check, `respecifyImageStorageIfNecessary`
returns, and the backend operations it requested end with the successful flush and then
the teardown of the image (on success) or with a failed flush (on failure); earlier
steps of the same call may have requested operations before. -/
theorem respecify_ends_with_flush (u : RendererUtils) (ctx : ContextWgpu)
    (t : TextureWgpu) (img : ImageHelper) (source : Command) (himg : t.mImage = some img)
    (hany : u.TextureHasAnyRedefinedLevels (t.redefinedLevelsAtCheck u source) = true) :
    ∃ r ctx1 t1 pre, respecifyImageStorageIfNecessary u ctx t source = some (r, ctx1, t1) ∧
      ((r = Result.Continue ∧
          ctx1.trace =
            ctx.trace ++ pre ++ [Event.flushStagedUpdates true, Event.resetImage] ∧
          t1.imageInitialized = some false) ∨
        (r = Result.Stop ∧
          ctx1.trace = ctx.trace ++ pre ++ [Event.flushStagedUpdates false])) := by
  obtain ⟨ctxp, tp, imgp, hpre, hpimg, -, hpmask, -, -, ⟨esp, hesp⟩, -⟩ :=
    respecify_pre_step u ctx t img source himg
  obtain ⟨ctx2, t2, img2, hmu, h2img, -, h2mask, ⟨es2, hes2⟩, -⟩ :=
    maybeUpdateBaseMaxLevels_step ctxp tp imgp hpimg
  rw [respecify_of_steps hpre hmu]
  have hmask2 : u.TextureHasAnyRedefinedLevels t2.mRedefinedLevels = true := by
    rw [h2mask, hpmask]
    exact hany
  have htrace2 : ctx2.trace = ctx.trace ++ (esp ++ es2) := by
    rw [hes2, hesp, List.append_assoc]
  cases hc : t2.mustRecreateForGenerateMipmap source
  · simp only [Bool.false_eq_true, if_false, angleTry, hmask2, Bool.true_or, if_true]
    rw [flushThenReset_eq ctx2 t2 img2 h2img]
    by_cases hok : ctx2.flushOk ctx2.trace = true
    · rw [if_pos hok]
      refine ⟨Result.Continue, _, _, esp ++ es2, rfl, Or.inl ⟨rfl, ?_, rfl⟩⟩
      simp [ContextWgpu.emit, htrace2]
    · rw [if_neg hok]
      refine ⟨Result.Stop, _, _, esp ++ es2, rfl, Or.inr ⟨rfl, ?_⟩⟩
      simp [ContextWgpu.emit, htrace2]
  · simp only [if_true]
    rw [flushThenReset_eq ctx2 t2 img2 h2img]
    by_cases hok : ctx2.flushOk ctx2.trace = true
    · rw [if_pos hok]
      simp only [angleTry, hmask2, Bool.true_or, if_true]
      rw [flushThenReset_eq _ _ _ rfl]
      split_ifs
      · refine ⟨Result.Continue, _, _,
          esp ++ es2 ++ [Event.flushStagedUpdates true, Event.resetImage], rfl,
          Or.inl ⟨rfl, ?_, rfl⟩⟩
        simp [ContextWgpu.emit, htrace2]
      · refine ⟨Result.Stop, _, _,
          esp ++ es2 ++ [Event.flushStagedUpdates true, Event.resetImage], rfl,
          Or.inr ⟨rfl, ?_⟩⟩
        simp [ContextWgpu.emit, htrace2]
    · rw [if_neg hok]
      simp only [angleTry, id]
      refine ⟨Result.Stop, _, _, esp ++ es2, rfl, Or.inr ⟨rfl, ?_⟩⟩
      simp [ContextWgpu.emit, htrace2]

/-! ### Level-count mismatch in `respecifyImageStorageIfNecessary` -/

theorem getMipLevelCount_of_state {t t1 : TextureWgpu} (h : t1.mState = t.mState)
    (mipLevels : ImageMipLevels) : t1.getMipLevelCount mipLevels = t.getMipLevelCount mipLevels := by
  unfold getMipLevelCount getMaxLevelCount
  rw [h]

theorem flushThenReset_uninitializes (ctx : ContextWgpu) (t : TextureWgpu) (img : ImageHelper)
    (himg : t.mImage = some img) :
    ∃ r ctx1 t1, flushThenReset ctx t = some (r, ctx1, t1) ∧
      (r = Result.Continue → t1.imageInitialized = some false) ∧
      t1.mRedefinedLevels = t.mRedefinedLevels ∧ ∃ img1, t1.mImage = some img1 := by
  rw [flushThenReset_eq ctx t img himg]
  split_ifs
  · exact ⟨_, _, _, rfl, fun _ => rfl, rfl, _, rfl⟩
  · exact ⟨_, _, _, rfl, fun h => (by cases h), rfl, _, rfl⟩

theorem GetRenderTargetLayerCountAndIndex_single (image : Option ImageHelper)
    (index : ImageIndex)
    (htype : index.type = TextureType._2D ∨ index.type = TextureType._2DMultisample ∨
      index.type = TextureType.External)
    (hlayer : index.hasLayer = true → index.layerIndex = 0)
    (hcount : index.layerCount = 1 ∨ index.layerCount = kEntireLevel) :
    GetRenderTargetLayerCountAndIndex image index 0 = some (0, 1, 1, false) := by
  have hli : (if index.hasLayer = true then index.layerIndex else 0) = 0 := by
    split_ifs with h
    · exact hlayer h
    · rfl
  unfold GetRenderTargetLayerCountAndIndex
  dsimp only
  rw [hli]
  rcases htype with h | h | h <;> rw [h] <;> rcases hcount with hc | hc <;>
    simp [hc, kEntireLevel]

theorem respecify_draw_keeps_or_uninitializes {u : RendererUtils} {ctx ctx1 : ContextWgpu}
    {t t1 : TextureWgpu} {img : ImageHelper} (himg : t.mImage = some img)
    (h : respecifyImageStorageIfNecessary u ctx t Command.Draw =
      some (Result.Continue, ctx1, t1)) :
    ∃ img1, t1.mImage = some img1 ∧
      (img1.isInitialized = true →
        img1 = img ∧ ctx1 = ctx ∧
          t.getMipLevelCount ImageMipLevels.EnabledLevels ≤ img.getLevelCount) := by
  obtain ⟨ctxp, tp, imgp, hpre, hpimg, hpstate, -, -, -, -, hp⟩ :=
    respecify_pre_step u ctx t img Command.Draw himg
  obtain ⟨ctx2, t2, img2, hmu, h2img, h2state, -, -, h2⟩ :=
    maybeUpdateBaseMaxLevels_step ctxp tp imgp hpimg
  rw [respecify_of_steps hpre hmu] at h
  have hstate : t2.mState = t.mState := h2state.trans hpstate
  have hmust : t2.mustRecreateForGenerateMipmap Command.Draw = false := by
    unfold TextureWgpu.mustRecreateForGenerateMipmap
    rw [h2img]
    rfl
  rw [hmust] at h
  simp only [Bool.false_eq_true, if_false, angleTry] at h
  by_cases hcond : (u.TextureHasAnyRedefinedLevels t2.mRedefinedLevels ||
      t2.isMipmapEnabledByMinFilter Command.Draw) = true
  · rw [if_pos hcond] at h
    obtain ⟨r, c, s, hf, hr, -, i, hi⟩ := flushThenReset_uninitializes ctx2 t2 img2 h2img
    rw [hf] at h
    simp only [Option.some.injEq, Prod.mk.injEq] at h
    obtain ⟨rfl, rfl, rfl⟩ := h
    refine ⟨i, hi, fun hinit => ?_⟩
    have := hr rfl
    rw [imageInitialized, hi] at this
    simp only [Option.map_some', Option.some.injEq] at this
    rw [this] at hinit
    cases hinit
  · rw [if_neg hcond] at h
    simp only [Option.some.injEq, Prod.mk.injEq, true_and] at h
    obtain ⟨rfl, rfl⟩ := h
    refine ⟨img2, h2img, fun hinit => ?_⟩
    have h2eq : img2 = imgp ∧ ctx2 = ctxp := by
      rcases h2 with h | h
      · exact h
      · rw [h] at hinit
        cases hinit
    obtain ⟨rfl, rfl⟩ := h2eq
    have hpeq : img2 = img ∧ ctx2 = ctx := by
      rcases hp with ⟨-, hc, hi⟩ | h
      · exact ⟨hi (by decide), hc⟩
      · rw [h] at hinit
        cases hinit
    obtain ⟨rfl, rfl⟩ := hpeq
    refine ⟨rfl, rfl, ?_⟩
    have hmip : t2.isMipmapEnabledByMinFilter Command.Draw = false := by
      cases hm : t2.isMipmapEnabledByMinFilter Command.Draw
      · rfl
      · exact absurd (by simp [hm]) hcond
    unfold TextureWgpu.isMipmapEnabledByMinFilter at hmip
    rw [h2img, getMipLevelCount_of_state hstate] at hmip
    simp only [hinit, Bool.and_true] at hmip
    simpa using hmip

theorem initializeImage_enabled_levels {ctx ctx1 : ContextWgpu} {t t1 : TextureWgpu}
    {img : ImageHelper} (himg : t.mImage = some img) (hinit : img.isInitialized = false)
    (h : initializeImage ctx t ImageMipLevels.EnabledLevels = some (Result.Continue, ctx1, t1)) :
    ∃ size img1,
      ctx1 = ctx.emit (Event.initImage t.mState.effectiveBaseLevel
        (t.getMipLevelCount ImageMipLevels.EnabledLevels) size true) ∧
      t1.mImage = some img1 ∧ img1.isInitialized = true ∧
      img1.getLevelCount = t.getMipLevelCount ImageMipLevels.EnabledLevels := by
  unfold initializeImage at h
  simp only [himg, hinit, Bool.false_eq_true, if_false] at h
  unfold ImageHelper.initImage at h
  by_cases hok : ctx.initImageOk ctx.trace = true
  · simp only [hok, if_true, Option.some.injEq, Prod.mk.injEq, true_and] at h
    obtain ⟨rfl, rfl⟩ := h
    exact ⟨_, _, rfl, rfl, rfl, rfl⟩
  · simp only [hok, if_false, Bool.false_eq_true, Option.some.injEq, Prod.mk.injEq,
      reduceCtorEq, false_and] at h

theorem initSingleLayerRenderTargets_empty_row {ctx ctx1 : ContextWgpu} {t t1 : TextureWgpu}
    {img : ImageHelper} {levelIndex : Nat} {renderToTextureIndex : RenderToTextureImageIndex}
    (himg : t.mImage = some img)
    (hrow : (t.mSingleLayerRenderTargets renderToTextureIndex).getD levelIndex [] = [])
    (h : initSingleLayerRenderTargets ctx t 1 levelIndex renderToTextureIndex =
      some (Result.Continue, ctx1, t1)) :
    ctx1 = ctx.emit (Event.createTextureView levelIndex 0 true) ∧
      (t1.mSingleLayerRenderTargets renderToTextureIndex).getD levelIndex [] =
        [{ view := some ⟨img.mTexture, levelIndex, 0⟩,
           level := levelIndex - img.getFirstAllocatedLevel, layer := 0,
           format := img.getActualFormatID }] := by
  unfold initSingleLayerRenderTargets at h
  dsimp only at h
  have hrows : ∀ rows : List (List RenderTargetWgpu), rows.getD levelIndex [] = [] →
      (if rows.length ≤ levelIndex then
          rows ++ List.replicate (levelIndex + 1 - rows.length) [] else rows).getD
          levelIndex [] = [] ∧
        levelIndex < (if rows.length ≤ levelIndex then
          rows ++ List.replicate (levelIndex + 1 - rows.length) [] else rows).length := by
    intro rows hr
    split_ifs with hlen
    · constructor
      · rw [List.getD_append_right _ _ _ _ hlen]
        simp
      · simp
        omega
    · exact ⟨hr, by omega⟩
  obtain ⟨hget, hlt⟩ := hrows _ hrow
  rw [hget, himg] at h
  simp only [List.isEmpty_nil, Bool.not_true, Bool.false_eq_true, if_false] at h
  have hrange : List.range 1 = [0] := rfl
  rw [hrange] at h
  unfold initLayerRenderTargets ImageHelper.createTextureViewSingleLevel at h
  by_cases hok : ctx.createViewOk ctx.trace = true
  · simp only [hok, if_true, initLayerRenderTargets, Option.some.injEq, Prod.mk.injEq,
      true_and] at h
    obtain ⟨rfl, rfl⟩ := h
    refine ⟨rfl, ?_⟩
    simp [List.getD_eq_getElem?_getD, hlt, RenderTargetWgpu.unset]
  · simp only [hok, if_false, Bool.false_eq_true, Option.some.injEq, Prod.mk.injEq,
      reduceCtorEq, false_and] at h

/-- C11 (as the source has it): `fourLevelTexture` is a 2D texture with an empty
render-target cache; acquiring the render target of (level 0, layer 0) succeeds, creates
one view and leaves a row of one entry at level 0, which is returned; the image the
entry is built on has four levels while the enabled-level count is one, and no image
was allocated by the call. -/
theorem getAttachmentRenderTarget_on_image_with_more_levels :
    (Example.fourLevelTexture.mSingleLayerRenderTargets RenderToTextureImageIndex.Default).getD
      0 [] = [] ∧
    Example.fourLevelTexture.getMipLevelCount ImageMipLevels.EnabledLevels = 1 ∧
    (getAttachmentRenderTarget RendererUtils.spec ContextWgpu.reliable
        Example.fourLevelTexture 0 (Example.index2D 0) 1).map
        (fun out =>
          (out.result, out.rtOut,
            ((out.texture.mSingleLayerRenderTargets RenderToTextureImageIndex.Default).getD
              0 []).length,
            out.texture.mImage.map ImageHelper.getLevelCount, out.ctx.viewsCreated,
            out.ctx.imagesAllocated)) =
      some (Result.Continue, some ⟨RenderToTextureImageIndex.Default, 0, 0⟩, 1, some 4, 1, 0) := by
  decide

/-- C11 (amended): for an index of type 2D, 2DMultisample or External that asks for
layer 0 (one layer, or the entire level) of level `L`, on a texture with an image and an
empty cache row for `L`, a successful `getAttachmentRenderTarget` resolves
`layerIndex` 0, layer count 1 and image layer count 1, creates exactly one view, leaves
a cache row of one entry at level `L`, built on the realized image, and returns that
entry. The image it is built on is either the image that was already realized before
the call, untouched, with at least as many levels as are enabled (and then the view is
the only backend operation), or it was allocated by this call with the enabled-level
count. -/
theorem getAttachmentRenderTarget_single_layer (u : RendererUtils) (ctx : ContextWgpu)
    (t : TextureWgpu) (img : ImageHelper) (binding : Nat) (imageIndex : ImageIndex)
    (samples : Int) (out : AttachmentRenderTarget) (himg : t.mImage = some img)
    (htype : imageIndex.type = TextureType._2D ∨ imageIndex.type = TextureType._2DMultisample ∨
      imageIndex.type = TextureType.External)
    (hlayer : imageIndex.hasLayer = true → imageIndex.layerIndex = 0)
    (hcount : imageIndex.layerCount = 1 ∨ imageIndex.layerCount = kEntireLevel)
    (hrow : (t.mSingleLayerRenderTargets RenderToTextureImageIndex.Default).getD
      imageIndex.levelIndex [] = [])
    (h : getAttachmentRenderTarget u ctx t binding imageIndex samples = some out)
    (hok : out.result = Result.Continue) :
    ∃ img1, out.texture.mImage = some img1 ∧ img1.isInitialized = true ∧
      GetRenderTargetLayerCountAndIndex (some img1) imageIndex 0 = some (0, 1, 1, false) ∧
      out.rtOut = some ⟨RenderToTextureImageIndex.Default, imageIndex.levelIndex, 0⟩ ∧
      (out.texture.mSingleLayerRenderTargets RenderToTextureImageIndex.Default).getD
          imageIndex.levelIndex [] =
        [{ view := some ⟨img1.mTexture, imageIndex.levelIndex, 0⟩,
           level := imageIndex.levelIndex - img1.getFirstAllocatedLevel, layer := 0,
           format := img1.getActualFormatID }] ∧
      out.texture.renderTargetAt ⟨RenderToTextureImageIndex.Default, imageIndex.levelIndex, 0⟩ =
        some { view := some ⟨img1.mTexture, imageIndex.levelIndex, 0⟩,
               level := imageIndex.levelIndex - img1.getFirstAllocatedLevel, layer := 0,
               format := img1.getActualFormatID } ∧
      out.ctx.viewsCreated = ctx.viewsCreated + 1 ∧
      ((img.isInitialized = true ∧ img1 = img ∧
          t.getMipLevelCount ImageMipLevels.EnabledLevels ≤ img1.getLevelCount ∧
          out.ctx.trace =
            ctx.trace ++ [Event.createTextureView imageIndex.levelIndex 0 true]) ∨
        (img1.getLevelCount = t.getMipLevelCount ImageMipLevels.EnabledLevels ∧
          ∃ pre size, out.ctx.trace =
            ctx.trace ++ pre ++
              [Event.initImage t.mState.effectiveBaseLevel
                  (t.getMipLevelCount ImageMipLevels.EnabledLevels) size true,
                Event.createTextureView imageIndex.levelIndex 0 true])) := by
  obtain ⟨r1, ctx1, t1, h1, hc⟩ := getAttachmentRenderTarget_inv h
  rcases hc with ⟨-, rfl⟩ | ⟨rfl, img1, r2, ctx2, t2, h1img, h2, hc⟩
  · cases hok
  rcases hc with ⟨-, rfl⟩ | ⟨rfl, li, lc, ilc, un, h3, hc⟩
  · cases hok
  rw [GetRenderTargetLayerCountAndIndex_single t2.mImage imageIndex htype hlayer hcount] at h3
  simp only [Option.some.injEq, Prod.mk.injEq] at h3
  obtain ⟨rfl, rfl, rfl, rfl⟩ := h3
  rcases hc with ⟨hne, -⟩ | ⟨-, r4, ctx4, t4, h4, hc⟩
  · exact absurd rfl hne
  rcases hc with ⟨-, rfl⟩ | ⟨rfl, rfl⟩
  · cases hok
  simp only [Bool.false_eq_true, if_false] at h4
  have hf1 := respecifyImageStorageIfNecessary_frame h1
  obtain ⟨j1, hj1, hkept⟩ := respecify_draw_keeps_or_uninitializes himg h1
  rw [h1img] at hj1
  cases hj1
  have hsingle := GetRenderTargetLayerCountAndIndex_single (some img1) imageIndex htype hlayer
    hcount
  by_cases hinit : img1.isInitialized = true
  · -- the image was realized before the call and is kept
    obtain ⟨rfl, rfl, hle⟩ := hkept hinit
    simp only [hinit, Bool.not_true, Bool.false_eq_true, if_false, Option.some.injEq,
      Prod.mk.injEq, true_and] at h2
    obtain ⟨rfl, rfl⟩ := h2
    have hrow2 : (t1.mSingleLayerRenderTargets RenderToTextureImageIndex.Default).getD
        imageIndex.levelIndex [] = [] := by
      rw [hf1.1]
      exact hrow
    obtain ⟨rfl, hrow4⟩ := initSingleLayerRenderTargets_empty_row h1img hrow2 h4
    have himg4 := (initSingleLayerRenderTargets_image h4).1
    refine ⟨img1, himg4.trans h1img, hinit, hsingle, rfl, hrow4, ?_, ?_,
      Or.inl ⟨hinit, rfl, hle, rfl⟩⟩
    · simp only [renderTargetAt]
      rw [hrow4]
      rfl
    · simp [ContextWgpu.emit, ContextWgpu.viewsCreated]
  · -- the image is allocated by this call
    have hinit0 : img1.isInitialized = false := by simpa using hinit
    simp only [hinit0, Bool.not_false, if_true] at h2
    have hf2 := initializeImage_frame h2
    obtain ⟨size, img2, rfl, h2img, h2init, h2levels⟩ :=
      initializeImage_enabled_levels h1img hinit0 h2
    have hrow2 : (t2.mSingleLayerRenderTargets RenderToTextureImageIndex.Default).getD
        imageIndex.levelIndex [] = [] := by
      rw [hf2.1, hf1.1]
      exact hrow
    obtain ⟨rfl, hrow4⟩ := initSingleLayerRenderTargets_empty_row h2img hrow2 h4
    have himg4 := (initSingleLayerRenderTargets_image h4).1
    have hsingle2 := GetRenderTargetLayerCountAndIndex_single (some img2) imageIndex htype
      hlayer hcount
    have hcount1 : t1.getMipLevelCount ImageMipLevels.EnabledLevels =
        t.getMipLevelCount ImageMipLevels.EnabledLevels := getMipLevelCount_of_state hf1.2.1 _
    obtain ⟨es, hes, -⟩ := hf1.2.2
    refine ⟨img2, himg4.trans h2img, h2init, hsingle2, rfl, hrow4, ?_, ?_,
      Or.inr ⟨h2levels.trans hcount1, es, size, ?_⟩⟩
    · simp only [renderTargetAt]
      rw [hrow4]
      rfl
    · have hv1 := imageOpsOnly_viewsCreated (respecifyImageStorageIfNecessary_frame h1).2.2
      rw [← hv1]
      simp [ContextWgpu.emit, ContextWgpu.viewsCreated]
    · rw [← hcount1, ← hf1.2.1]
      simp [ContextWgpu.emit, hes]

theorem getAttachmentRenderTarget_single_layer_witness :
    ∃ out, getAttachmentRenderTarget RendererUtils.spec ContextWgpu.reliable
        (TextureWgpu.create Example.state2D) 0 (Example.index2D 0) 1 = some out ∧
      out.result = Result.Continue ∧
      out.rtOut = some ⟨RenderToTextureImageIndex.Default, 0, 0⟩ ∧
      out.ctx.trace =
        [Event.initImage 0 1 ⟨256, 256, 1⟩ true, Event.createTextureView 0 0 true] ∧
      (∃ img1, out.texture.mImage = some img1 ∧ img1.isInitialized = true ∧
        out.ctx.viewsCreated = 0 + 1) := by
  refine ⟨_, rfl, rfl, rfl, rfl, ?_⟩
  obtain ⟨img1, h1, h2, -, -, -, -, h3, -⟩ :=
    getAttachmentRenderTarget_single_layer RendererUtils.spec ContextWgpu.reliable
      (TextureWgpu.create Example.state2D) ImageHelper.new 0 (Example.index2D 0) 1 _ rfl
      (Or.inl rfl) (by decide) (Or.inl rfl) rfl rfl rfl
  exact ⟨img1, h1, h2, h3⟩

/-! ### Two `syncState` calls in a row -/

/-- C20 (as the source has it): a second `syncState` right after a successful one, for
the same command and with nothing in between, tears the image down and allocates it
again. On `baseLevelRaised` (the base level of the state went from 0 to 1, no
redefinition bit) the first draw sync tears the image down and allocates native texture
2, and the second tears that one down and allocates native texture 5; on
`levelRedefined` (the redefinition bit of level 1 set) the first flushes, tears down and
allocates native texture 3, and the second flushes, tears that one down and allocates
native texture 7. -/
theorem syncState_twice_reallocates :
    (Example.syncTwice RendererUtils.spec ContextWgpu.reliable Example.baseLevelRaised
        Command.Draw).map (fun p => (Example.observeSync p.1, Example.observeSync p.2)) =
      some
        ((Result.Continue,
          [Event.resetImage, Event.initImage 1 1 ⟨256, 256, 1⟩ true,
            Event.flushStagedUpdates true],
          some (true, 2, 1)),
         (Result.Continue,
          [Event.resetImage, Event.initImage 1 1 ⟨256, 256, 1⟩ true,
            Event.flushStagedUpdates true,
            Event.resetImage, Event.initImage 1 1 ⟨256, 256, 1⟩ true,
            Event.flushStagedUpdates true],
          some (true, 5, 1))) ∧
    (Example.syncTwice RendererUtils.spec ContextWgpu.reliable Example.levelRedefined
        Command.Draw).map (fun p => (Example.observeSync p.1, Example.observeSync p.2)) =
      some
        ((Result.Continue,
          [Event.flushStagedUpdates true, Event.resetImage,
            Event.initImage 0 1 ⟨256, 256, 1⟩ true, Event.flushStagedUpdates true],
          some (true, 3, 1)),
         (Result.Continue,
          [Event.flushStagedUpdates true, Event.resetImage,
            Event.initImage 0 1 ⟨256, 256, 1⟩ true, Event.flushStagedUpdates true,
            Event.flushStagedUpdates true, Event.resetImage,
            Event.initImage 0 1 ⟨256, 256, 1⟩ true, Event.flushStagedUpdates true],
          some (true, 7, 1))) := by
  exact ⟨rfl, rfl⟩

/-! ### A view creation that fails in `initSingleLayerRenderTargets` -/

theorem initLayerRenderTargets_length (image : ImageHelper) (levelIndex : Nat)
    (layers : List Nat) (ctx : ContextWgpu) (renderTargets : List RenderTargetWgpu) :
    (initLayerRenderTargets image levelIndex layers ctx renderTargets).2.2.length =
      renderTargets.length := by
  induction layers generalizing ctx renderTargets with
  | nil => rfl
  | cons layer rest ih =>
    unfold initLayerRenderTargets ImageHelper.createTextureViewSingleLevel
    by_cases hok : ctx.createViewOk ctx.trace = true
    · simp only [hok, if_true]
      rw [ih]
      simp
    · simp only [hok, if_false, Bool.false_eq_true]

/-- A call of `initSingleLayerRenderTargets` that fails on an empty row leaves the row
with `layerCount` entries, so that every later call for the same key returns success at
once, without a backend operation and without touching the cache. -/
theorem initSingleLayerRenderTargets_failure_fills_row {ctx ctx1 : ContextWgpu}
    {t t1 : TextureWgpu} {layerCount levelIndex : Nat}
    {renderToTextureIndex : RenderToTextureImageIndex}
    (hrow : (t.mSingleLayerRenderTargets renderToTextureIndex).getD levelIndex [] = [])
    (h : initSingleLayerRenderTargets ctx t layerCount levelIndex renderToTextureIndex =
      some (Result.Stop, ctx1, t1)) :
    0 < layerCount ∧
      ((t1.mSingleLayerRenderTargets renderToTextureIndex).getD levelIndex []).length =
        layerCount ∧
      ∀ (ctx2 : ContextWgpu) (n : Nat),
        initSingleLayerRenderTargets ctx2 t1 n levelIndex renderToTextureIndex =
          some (Result.Continue, ctx2, t1) := by
  have hmain : 0 < layerCount ∧
      ((t1.mSingleLayerRenderTargets renderToTextureIndex).getD levelIndex []).length =
        layerCount := by
    unfold initSingleLayerRenderTargets at h
    dsimp only at h
    have hrows : ∀ rows : List (List RenderTargetWgpu), rows.getD levelIndex [] = [] →
        (if rows.length ≤ levelIndex then
            rows ++ List.replicate (levelIndex + 1 - rows.length) [] else rows).getD
            levelIndex [] = [] ∧
          levelIndex < (if rows.length ≤ levelIndex then
            rows ++ List.replicate (levelIndex + 1 - rows.length) [] else rows).length := by
      intro rows hr
      split_ifs with hlen
      · constructor
        · rw [List.getD_append_right _ _ _ _ hlen]
          simp
        · simp
          omega
      · exact ⟨hr, by omega⟩
    obtain ⟨hget, hlt⟩ := hrows _ hrow
    rw [hget] at h
    simp only [List.isEmpty_nil, Bool.not_true, Bool.false_eq_true, if_false] at h
    rcases layerCount with _ | n
    · simp at h
    · rcases himg : t.mImage with _ | image
      · rw [himg] at h
        simp at h
      · rw [himg] at h
        simp only [Option.some.injEq, Prod.mk.injEq] at h
        obtain ⟨-, -, rfl⟩ := h
        refine ⟨Nat.succ_pos n, ?_⟩
        simp [List.getD_eq_getElem?_getD, hlt, initLayerRenderTargets_length]
  refine ⟨hmain.1, hmain.2, fun ctx2 n => ?_⟩
  apply initSingleLayerRenderTargets_cached
  intro hnil
  have := hmain.2
  rw [hnil] at this
  have h0 := hmain.1
  simp at this
  omega

/-- C21 (as the source has it): `initSingleLayerRenderTargets` resizes the row to
`layerCount` entries before it creates the views, and a view creation that fails returns
at once. On a 2D texture with an empty cache whose only view creation fails, the
acquisition of (level 0, layer 0) returns failure and leaves a row of one entry that was
never set; the next acquisition returns success with a pointer to that entry and creates
no view. On a cube map whose third view creation fails, the row is left with six
entries, two set and four never set; the next acquisition of face 3 returns success with
a pointer to an entry that was never set. -/
theorem initSingleLayerRenderTargets_failure_leaves_unset_row :
    (Example.realizedTexture.mSingleLayerRenderTargets RenderToTextureImageIndex.Default).getD
      0 [] = [] ∧
    (Example.acquireAgain Example.ctxFirstViewFails Example.realizedTexture
        (Example.index2D 0)).map
        (fun p => (Example.observeRow 0 p.1, Example.observeRow 0 p.2)) =
      some
        ((Result.Stop, none, none, [RenderTargetWgpu.unset],
          [Event.createTextureView 0 0 false]),
         (Result.Continue, some ⟨RenderToTextureImageIndex.Default, 0, 0⟩,
          some RenderTargetWgpu.unset, [RenderTargetWgpu.unset],
          [Event.createTextureView 0 0 false])) ∧
    (Example.cubeTexture.mSingleLayerRenderTargets RenderToTextureImageIndex.Default).getD
      0 [] = [] ∧
    (Example.acquireAgain Example.ctxThirdViewFails Example.cubeTexture
        (Example.indexCubeFace 0 3)).map
        (fun p => (Example.observeRow 0 p.1, Example.observeRow 0 p.2)) =
      some
        ((Result.Stop, none, none,
          [⟨some ⟨1, 0, 0⟩, 0, 0, 9⟩, ⟨some ⟨1, 0, 1⟩, 0, 1, 9⟩, RenderTargetWgpu.unset,
            RenderTargetWgpu.unset, RenderTargetWgpu.unset, RenderTargetWgpu.unset],
          [Event.createTextureView 0 0 true, Event.createTextureView 0 1 true,
            Event.createTextureView 0 2 false]),
         (Result.Continue, some ⟨RenderToTextureImageIndex.Default, 0, 3⟩,
          some RenderTargetWgpu.unset,
          [⟨some ⟨1, 0, 0⟩, 0, 0, 9⟩, ⟨some ⟨1, 0, 1⟩, 0, 1, 9⟩, RenderTargetWgpu.unset,
            RenderTargetWgpu.unset, RenderTargetWgpu.unset, RenderTargetWgpu.unset],
          [Event.createTextureView 0 0 true, Event.createTextureView 0 1 true,
            Event.createTextureView 0 2 false])) :=
  ⟨rfl, rfl, rfl, rfl⟩

/-! ### Borrowed images -/

theorem deref_alloc_self (heap : ImageHeap) (img : ImageHelper) :
    (heap.alloc img).1.deref (heap.alloc img).2 = some img := by
  simp [ImageHeap.alloc, ImageHeap.deref, List.getD_eq_getElem?_getD]

theorem deref_alloc_fresh (heap : ImageHeap) (img : ImageHelper) :
    heap.deref (heap.alloc img).2 = none := by
  simp [ImageHeap.alloc, ImageHeap.deref, List.getD_eq_getElem?_getD]

theorem deref_alloc_of_ne (heap : ImageHeap) (img : ImageHelper) (p : Nat)
    (h : p ≠ (heap.alloc img).2) : (heap.alloc img).1.deref p = heap.deref p := by
  simp only [ImageHeap.alloc, ImageHeap.deref, List.getD_eq_getElem?_getD] at h ⊢
  rcases Nat.lt_or_gt_of_ne h with hlt | hgt
  · rw [List.getElem?_append_left hlt]
  · have h1 : (heap.objects ++ [some img]).length ≤ p := by
      rw [List.length_append, List.length_singleton]
      exact hgt
    rw [List.getElem?_eq_none h1, List.getElem?_eq_none (Nat.le_of_lt hgt)]

theorem deref_alloc_of_live (heap : ImageHeap) (img img1 : ImageHelper) (p : Nat)
    (h : heap.deref p = some img1) : (heap.alloc img).1.deref p = some img1 := by
  rw [deref_alloc_of_ne heap img p, h]
  intro hp
  rw [hp, deref_alloc_fresh] at h
  cases h

theorem deref_delete_self (heap : ImageHeap) (p : Nat) : (heap.delete p).deref p = none := by
  simp only [ImageHeap.delete, ImageHeap.deref, List.getD_eq_getElem?_getD]
  by_cases hp : p < heap.objects.length
  · simp [hp]
  · have h1 : (heap.objects.set p none).length ≤ p := by
      rw [List.length_set]
      exact Nat.le_of_not_lt hp
    rw [List.getElem?_eq_none h1]
    rfl

theorem deref_delete_of_ne (heap : ImageHeap) (p q : Nat) (h : q ≠ p) :
    (heap.delete p).deref q = heap.deref q := by
  simp only [ImageHeap.delete, ImageHeap.deref, List.getD_eq_getElem?_getD]
  rw [List.getElem?_set_ne (Ne.symm h)]

theorem deref_store_self (heap : ImageHeap) (p : Nat) (img img1 : ImageHelper)
    (h : heap.deref p = some img) : (heap.store p img1).deref p = some img1 := by
  simp only [ImageHeap.store, ImageHeap.deref, List.getD_eq_getElem?_getD] at h ⊢
  have hp : p < heap.objects.length := by
    by_contra hge
    rw [List.getElem?_eq_none (Nat.le_of_not_lt hge)] at h
    cases h
  simp [hp]

/-- The embedding of `redefineLevel` on image objects and the one by value agree: on a
texture whose pointer, if any, has an object, the first returns, and its outcome stands
for the outcome of the second. -/
theorem redefineLevel_load (u : RendererUtils) (ctx : ContextWgpu) (heap : ImageHeap)
    (t : TextureWgpuRef) (base : TextureWgpu) (webgpuFormat : Format) (index : ImageIndex)
    (size : Extents) (hlive : ∀ p, t.mImage = some p → ∃ img, heap.deref p = some img) :
    ∃ r ctx1 heap1 t1,
      t.redefineLevel u ctx heap webgpuFormat index size = some (r, ctx1, heap1, t1) ∧
      TextureWgpu.redefineLevel u ctx (t.load heap base) webgpuFormat index size =
        (r, ctx1, t1.load heap1 base) := by
  rcases hp : t.mImage with _ | p
  · refine ⟨Result.Continue, ctx.emit Event.stateChange, (heap.alloc ImageHelper.new).1,
      { t with mImage := some (heap.alloc ImageHelper.new).2, mOwnsImage := true }, ?_, ?_⟩
    · unfold TextureWgpuRef.redefineLevel TextureWgpuRef.setImageHelper
      rw [hp]
      rcases t.mOwnsImage with _ | _ <;> rfl
    · simp [TextureWgpu.redefineLevel, TextureWgpuRef.load, hp, TextureWgpu.setImageHelper,
        deref_alloc_self]
  · obtain ⟨img, himg⟩ := hlive p hp
    cases ho : t.mOwnsImage
    · refine ⟨Result.Continue, ctx.emit Event.stateChange, (heap.alloc ImageHelper.new).1,
        { t with mImage := some (heap.alloc ImageHelper.new).2, mOwnsImage := true }, ?_, ?_⟩
      · unfold TextureWgpuRef.redefineLevel TextureWgpuRef.setImageHelper
        rw [hp, ho]
      · simp [TextureWgpu.redefineLevel, TextureWgpuRef.load, hp, ho, himg,
          TextureWgpu.setImageHelper, deref_alloc_self]
    · have hst : ∀ x, (heap.store p x).deref p = some x :=
        fun x => deref_store_self heap p img x himg
      cases hL : index.hasLayer
      · simp only [TextureWgpuRef.redefineLevel, TextureWgpu.redefineLevel, hp, ho, himg, hL,
          TextureWgpuRef.load, Option.some_bind, Bool.false_eq_true, if_false]
        generalize img.removeStagedUpdates index.levelIndex = img1
        by_cases hI : img1.isInitialized = true
        · simp only [hI, if_true]
          split_ifs <;> refine ⟨_, _, _, _, rfl, ?_⟩ <;>
            simp only [TextureWgpuRef.load, Option.some_bind, hst]
        · simp only [hI, if_false, Bool.false_eq_true]
          refine ⟨_, _, _, _, rfl, ?_⟩
          simp only [TextureWgpuRef.load, Option.some_bind, hst, hp, ho]
      · simp only [TextureWgpuRef.redefineLevel, TextureWgpu.redefineLevel, hp, ho, himg, hL,
          TextureWgpuRef.load, Option.some_bind, if_true]
        generalize img.removeSingleSubresourceStagedUpdates index.levelIndex index.layerIndex
          index.layerCount = img1
        by_cases hI : img1.isInitialized = true
        · simp only [hI, if_true]
          split_ifs <;> refine ⟨_, _, _, _, rfl, ?_⟩ <;>
            simp only [TextureWgpuRef.load, Option.some_bind, hst]
        · simp only [hI, if_false, Bool.false_eq_true]
          refine ⟨_, _, _, _, rfl, ?_⟩
          simp only [TextureWgpuRef.load, Option.some_bind, hst, hp, ho]

/-- C22: on a texture that does not own its image, `redefineLevel` returns success,
requests nothing of the backend but the state-change notification (no reset, no
deletion), leaves every image object as it was, the borrowed one in particular with its
staged updates, and makes the texture own a new image object at a pointer not handed out
before, which is not realized. `setImageHelper` deletes the object the texture pointed
to when the texture owned it and the pointer was not null, and otherwise deletes nothing
and leaves the image objects as they were. -/
theorem redefineLevel_leaves_borrowed_image (u : RendererUtils) (ctx : ContextWgpu)
    (heap : ImageHeap) (t : TextureWgpuRef) (webgpuFormat : Format) (index : ImageIndex)
    (size : Extents) (hborrow : t.mOwnsImage = false) :
    t.redefineLevel u ctx heap webgpuFormat index size =
        some (Result.Continue, ctx.emit Event.stateChange, (heap.alloc ImageHelper.new).1,
          { t with mImage := some (heap.alloc ImageHelper.new).2, mOwnsImage := true }) ∧
    (∀ p img, heap.deref p = some img → (heap.alloc ImageHelper.new).1.deref p = some img) ∧
    heap.deref (heap.alloc ImageHelper.new).2 = none ∧
    (heap.alloc ImageHelper.new).1.deref (heap.alloc ImageHelper.new).2 =
      some ImageHelper.new ∧
    ImageHelper.new.isInitialized = false ∧
    (∀ (t2 : TextureWgpuRef) (imageHelper : Option ImagePtr) (ownsImageHelper : Bool),
      (t2.setImageHelper ctx heap imageHelper ownsImageHelper).2.2 =
          { t2 with mImage := imageHelper, mOwnsImage := ownsImageHelper } ∧
      (∀ p, t2.mOwnsImage = true → t2.mImage = some p →
        t2.setImageHelper ctx heap imageHelper ownsImageHelper =
            ((ctx.emit Event.deleteImage).emit Event.stateChange, heap.delete p,
              { t2 with mImage := imageHelper, mOwnsImage := ownsImageHelper }) ∧
          (heap.delete p).deref p = none ∧
          ∀ q, q ≠ p → (heap.delete p).deref q = heap.deref q) ∧
      (¬ (t2.mOwnsImage = true ∧ t2.mImage ≠ none) →
        t2.setImageHelper ctx heap imageHelper ownsImageHelper =
          (ctx.emit Event.stateChange, heap,
            { t2 with mImage := imageHelper, mOwnsImage := ownsImageHelper }))) := by
  refine ⟨?_, fun p img h => deref_alloc_of_live heap _ img p h, deref_alloc_fresh heap _,
    deref_alloc_self heap _, rfl, fun t2 imageHelper owns => ⟨?_, ?_, ?_⟩⟩
  · unfold TextureWgpuRef.redefineLevel TextureWgpuRef.setImageHelper
    rw [hborrow]
    rcases t.mImage with _ | p <;> rfl
  · unfold TextureWgpuRef.setImageHelper
    rcases t2.mOwnsImage with _ | _ <;> rcases t2.mImage with _ | p <;> rfl
  · intro p ho hp
    refine ⟨?_, deref_delete_self heap p, fun q hq => deref_delete_of_ne heap p q hq⟩
    unfold TextureWgpuRef.setImageHelper
    rw [ho, hp]
  · intro hnot
    unfold TextureWgpuRef.setImageHelper
    cases ho : t2.mOwnsImage
    · rcases t2.mImage with _ | p <;> rfl
    · rcases hp : t2.mImage with _ | p
      · rfl
      · exact absurd ⟨ho, by simp [hp]⟩ hnot

theorem redefineLevel_leaves_borrowed_image_witness :
    Example.freshTextureRef.setEGLImageTarget ContextWgpu.reliable Example.heapWithEglImage 1 =
      (Result.Continue,
        (ContextWgpu.reliable.emit Event.deleteImage).emit Event.stateChange,
        ⟨[none, some Example.eglImage]⟩, Example.borrowingTextureRef) ∧
    Example.borrowingTextureRef.redefineLevel RendererUtils.spec ContextWgpu.reliable
        ⟨[none, some Example.eglImage]⟩ ⟨7, 9⟩ (Example.index2D 0) ⟨128, 128, 1⟩ =
      some (Result.Continue, ContextWgpu.reliable.emit Event.stateChange,
        ⟨[none, some Example.eglImage, some ImageHelper.new]⟩,
        { Example.borrowingTextureRef with mImage := some 2, mOwnsImage := true }) :=
  ⟨rfl,
    (redefineLevel_leaves_borrowed_image RendererUtils.spec ContextWgpu.reliable
      ⟨[none, some Example.eglImage]⟩ Example.borrowingTextureRef ⟨7, 9⟩ (Example.index2D 0)
      ⟨128, 128, 1⟩ rfl).1⟩

/-! ### The flush and the teardown at the last check of `respecifyImageStorageIfNecessary` -/

theorem respecify_pre_step_kept (u : RendererUtils) (ctx : ContextWgpu) (t : TextureWgpu)
    (img : ImageHelper) (source : Command) (himg : t.mImage = some img)
    (hbase : source = Command.GenerateMipmap →
      u.IsTextureLevelRedefined (t.redefinedLevelsAtCheck u source) t.mState.type
        t.mState.effectiveBaseLevel = false) :
    ∃ tp imgp,
      (if (source == Command.GenerateMipmap) = true then prepareForGenerateMipmap u ctx t
        else some (ctx, t)) = some (ctx, tp) ∧
      tp.mImage = some imgp ∧ tp.mState = t.mState ∧
      tp.mRedefinedLevels = t.redefinedLevelsAtCheck u source ∧
      tp.mCurrentBaseLevel = t.mCurrentBaseLevel ∧ tp.mCurrentMaxLevel = t.mCurrentMaxLevel ∧
      imgp.allocation = img.allocation ∧ (source ≠ Command.GenerateMipmap → imgp = img) := by
  by_cases hs : source = Command.GenerateMipmap
  · subst hs
    have hb := hbase rfl
    simp only [beq_self_eq_true, if_true]
    rw [prepareForGenerateMipmap_eq u ctx t img himg, hb, if_neg Bool.false_ne_true]
    exact ⟨_, _, rfl, rfl, rfl, rfl, rfl, rfl, rfl, fun h => absurd rfl h⟩
  · have hb : (source == Command.GenerateMipmap) = false := by simpa using hs
    simp only [hb, Bool.false_eq_true, if_false]
    exact ⟨t, img, rfl, himg, rfl, by simp [redefinedLevelsAtCheck, hb], rfl, rfl, rfl,
      fun _ => rfl⟩

theorem maybeUpdateBaseMaxLevels_kept (ctx : ContextWgpu) (t : TextureWgpu) (img : ImageHelper)
    (himg : t.mImage = some img) (h : ¬ t.BaseMaxChangeUnsatisfiable img) :
    ∃ t2, maybeUpdateBaseMaxLevels ctx t = some (Result.Continue, ctx, t2) ∧
      t2.mImage = some img ∧ t2.mState = t.mState ∧
      t2.mRedefinedLevels = t.mRedefinedLevels := by
  rw [maybeUpdateBaseMaxLevels_eq ctx t img himg]
  split_ifs with h1 h2 h3
  · exact ⟨_, rfl, himg, rfl, rfl⟩
  · exact ⟨_, rfl, himg, rfl, rfl⟩
  · exact ⟨_, rfl, himg, rfl, rfl⟩
  · exfalso
    apply h
    have hi : img.isInitialized = true := by
      cases hx : img.isInitialized
      · exact absurd hx h2
      · rfl
    have himm : t.mState.immutableFormat = false := by
      cases hx : t.mState.immutableFormat
      · rfl
      · exact absurd (Or.inl hx) h3
    refine ⟨hi, himm, ?_, ?_⟩
    · by_cases hb : t.mCurrentBaseLevel = t.mState.baseLevel
      · by_cases hm : t.mCurrentMaxLevel = t.mState.maxLevel
        · exact absurd ⟨hm, hb⟩ h1
        · exact Or.inr hm
      · exact Or.inl hb
    · by_cases hb : t.mCurrentBaseLevel = t.mState.baseLevel
      · exact Or.inr (not_le.mp fun hle => h3 (Or.inr ⟨hb, hle⟩))
      · exact Or.inl hb

theorem baseMaxChangeUnsatisfiable_congr {t tp : TextureWgpu} {img imgp : ImageHelper}
    (hstate : tp.mState = t.mState) (hb : tp.mCurrentBaseLevel = t.mCurrentBaseLevel)
    (hm : tp.mCurrentMaxLevel = t.mCurrentMaxLevel) (ha : imgp.allocation = img.allocation)
    (h : tp.BaseMaxChangeUnsatisfiable imgp) : t.BaseMaxChangeUnsatisfiable img := by
  obtain ⟨h1, h2, h3, h4⟩ := allocation_eq ha
  unfold TextureWgpu.BaseMaxChangeUnsatisfiable at h ⊢
  simp only [ImageHelper.isInitialized, ImageHelper.getLastAllocatedLevel, hstate, hb, hm, h1,
    h3, h4] at h
  exact h

/-- C17 (as the source has it): on `redefinedBaseRaised`, a realized texture with a
redefinition bit set whose base level was also raised, `respecifyImageStorageIfNecessary`
for a draw tears the image down before it flushes (the teardown of
`maybeUpdateBaseMaxLevels` comes first), and when the flush fails the failure is returned
with the image already torn down. -/
theorem respecify_tears_down_before_flush :
    RendererUtils.spec.TextureHasAnyRedefinedLevels
      (Example.redefinedBaseRaised.redefinedLevelsAtCheck RendererUtils.spec Command.Draw) =
        true ∧
    Example.redefinedBaseRaised.imageInitialized = some true ∧
    (respecifyImageStorageIfNecessary RendererUtils.spec ContextWgpu.reliable
        Example.redefinedBaseRaised Command.Draw).map
        (fun out => (out.1, out.2.1.trace, out.2.2.imageInitialized)) =
      some (Result.Continue,
        [Event.resetImage, Event.flushStagedUpdates true, Event.resetImage], some false) ∧
    (respecifyImageStorageIfNecessary RendererUtils.spec Example.ctxFlushFails
        Example.redefinedBaseRaised Command.Draw).map
        (fun out => (out.1, out.2.1.trace, out.2.2.imageInitialized)) =
      some (Result.Stop, [Event.resetImage, Event.flushStagedUpdates false], some false) := by
  refine ⟨by decide, by decide, by decide, by decide⟩

/-- C17 (amended): on a texture with an image, when a redefinition bit is set at the
check of `respecifyImageStorageIfNecessary`, the call returns; on success the last two
backend operations it requested are the successful flush and then the teardown and the
image is left torn down, on failure the last one is a failed flush. When moreover no
earlier step of the call tears the image down or recreates it, the flush is the first
backend operation of the call: if it succeeds the call requests exactly the flush and
then the teardown, returns success and leaves the image torn down with no staged update;
if it fails the call requests exactly the failed flush, returns the failure and leaves
the image allocated as it was (for a command other than generateMipmap, the image as it
was). -/
theorem respecify_flush_precedes_teardown (u : RendererUtils) (ctx : ContextWgpu)
    (t : TextureWgpu) (img : ImageHelper) (source : Command) (himg : t.mImage = some img)
    (hany : u.TextureHasAnyRedefinedLevels (t.redefinedLevelsAtCheck u source) = true) :
    (∃ r ctx1 t1 pre, respecifyImageStorageIfNecessary u ctx t source = some (r, ctx1, t1) ∧
      ((r = Result.Continue ∧
          ctx1.trace =
            ctx.trace ++ pre ++ [Event.flushStagedUpdates true, Event.resetImage] ∧
          t1.imageInitialized = some false) ∨
        (r = Result.Stop ∧
          ctx1.trace = ctx.trace ++ pre ++ [Event.flushStagedUpdates false]))) ∧
    (t.NoEarlierTeardown u img source →
      (ctx.flushOk ctx.trace = true →
        ∃ t1 img1,
          respecifyImageStorageIfNecessary u ctx t source =
            some (Result.Continue,
              (ctx.emit (Event.flushStagedUpdates true)).emit Event.resetImage, t1) ∧
          t1.mImage = some img1 ∧ img1.isInitialized = false ∧ img1.mStagedUpdates = []) ∧
      (ctx.flushOk ctx.trace = false →
        ∃ t1 img1,
          respecifyImageStorageIfNecessary u ctx t source =
            some (Result.Stop, ctx.emit (Event.flushStagedUpdates false), t1) ∧
          t1.mImage = some img1 ∧ img1.allocation = img.allocation ∧
          (source ≠ Command.GenerateMipmap → img1 = img))) := by
  refine ⟨respecify_ends_with_flush u ctx t img source himg hany, ?_⟩
  rintro ⟨hbm, hgen⟩
  obtain ⟨tp, imgp, hpre, hpimg, hpstate, hpmask, hpb, hpm, hpa, hpeq⟩ :=
    respecify_pre_step_kept u ctx t img source himg (fun hs => (hgen hs).1)
  obtain ⟨t2, hmu, h2img, h2state, h2mask⟩ :=
    maybeUpdateBaseMaxLevels_kept ctx tp imgp hpimg
      (fun h => hbm (baseMaxChangeUnsatisfiable_congr hpstate hpb hpm hpa h))
  have hstate : t2.mState = t.mState := h2state.trans hpstate
  have hmask2 : u.TextureHasAnyRedefinedLevels t2.mRedefinedLevels = true := by
    rw [h2mask, hpmask]
    exact hany
  have hmust : t2.mustRecreateForGenerateMipmap source = false := by
    unfold TextureWgpu.mustRecreateForGenerateMipmap
    rw [h2img]
    by_cases hs : source = Command.GenerateMipmap
    · obtain ⟨h1, -, -, h4⟩ := allocation_eq hpa
      have hfull := (hgen hs).2
      simp only [ImageHelper.isInitialized, ImageHelper.getLevelCount] at hfull ⊢
      rw [getMipLevelCount_of_state hstate, hstate, h1]
      cases hi : img.mInitialized
      · simp
      · cases hf : t.mState.immutableFormat
        · simp [h4, hfull hi hf]
        · simp
    · have hb : (source == Command.GenerateMipmap) = false := by simpa using hs
      simp [hb]
  rw [respecify_of_steps hpre hmu, hmust]
  simp only [Bool.false_eq_true, if_false, angleTry, hmask2, Bool.true_or, if_true]
  rw [flushThenReset_eq ctx t2 imgp h2img]
  constructor
  · intro hok
    rw [if_pos hok]
    exact ⟨_, _, rfl, rfl, rfl, rfl⟩
  · intro hok
    rw [if_neg (by rw [hok]; exact Bool.false_ne_true)]
    exact ⟨_, imgp, rfl, rfl, hpa, hpeq⟩

theorem respecify_flush_precedes_teardown_witness :
    Example.levelRedefined.NoEarlierTeardown RendererUtils.spec
      { Example.realizedImage with mStagedUpdates := [⟨0, 0, 1, 10⟩] } Command.Draw ∧
    (respecifyImageStorageIfNecessary RendererUtils.spec ContextWgpu.reliable
        Example.levelRedefined Command.Draw).map
        (fun out => (out.1, out.2.1.trace, out.2.2.mImage)) =
      some (Result.Continue, [Event.flushStagedUpdates true, Event.resetImage],
        some { Example.realizedImage with mInitialized := false, mLevelCount := 0 }) ∧
    (respecifyImageStorageIfNecessary RendererUtils.spec Example.ctxFlushFails
        Example.levelRedefined Command.Draw).map
        (fun out => (out.1, out.2.1.trace, out.2.2.mImage)) =
      some (Result.Stop, [Event.flushStagedUpdates false], Example.levelRedefined.mImage) ∧
    (∃ t1 img1,
      respecifyImageStorageIfNecessary RendererUtils.spec Example.ctxFlushFails
          Example.levelRedefined Command.Draw =
        some (Result.Stop, Example.ctxFlushFails.emit (Event.flushStagedUpdates false), t1) ∧
      t1.mImage = some img1 ∧
      img1 = { Example.realizedImage with mStagedUpdates := [⟨0, 0, 1, 10⟩] }) := by
  have hno : Example.levelRedefined.NoEarlierTeardown RendererUtils.spec
      { Example.realizedImage with mStagedUpdates := [⟨0, 0, 1, 10⟩] } Command.Draw :=
    ⟨fun h => h.2.2.1.elim (fun hb => hb rfl) (fun hm => hm rfl), fun h => (by cases h)⟩
  refine ⟨hno, by decide, by decide, ?_⟩
  obtain ⟨t1, img1, h1, h2, -, h3⟩ :=
    ((respecify_flush_precedes_teardown RendererUtils.spec Example.ctxFlushFails
      Example.levelRedefined _ Command.Draw rfl (by decide)).2 hno).2 rfl
  exact ⟨t1, img1, h1, h2, h3 (by decide)⟩

end rx
